import Mathlib

/-!
Verification development for the 360-maps photo downloader's batch transfer
engine.  The definitions below are a shallow embedding of the TypeScript
sources: the progress state store (`src/download-state.ts`), the transfer
unit (`processPhoto` in the photo-processor module), and the batch
orchestrator (`downloadAllPhotos`).  External collaborators (OAuth, Google
Drive, the Street View download API, and the piexifjs codec) are modelled as
explicit environments whose outcomes parameterise each run; the run itself is
a deterministic interpreter that threads the store state and records a trace
of observable events (push messages to the live channel, waits, upload calls,
and which branch of the orchestrator each item took).
-/

namespace MapsDl

/-! ## JavaScript helper semantics -/

/-- `startsWithL l pat` : does `l` start with `pat` (character lists). -/
def startsWithL : List Char → List Char → Bool
  | _, [] => true
  | [], _ :: _ => false
  | c :: cs, p :: ps => c == p && startsWithL cs ps

/-- Substring occurrence test on character lists. -/
def hasSubstrL : List Char → List Char → Bool
  | l, [] => (fun _ => true) l
  | [], _ :: _ => false
  | c :: cs, p :: ps => startsWithL (c :: cs) (p :: ps) || hasSubstrL cs (p :: ps)

/-- Model of JavaScript's `String.prototype.includes`. -/
def jsIncludes (s pat : String) : Bool :=
  hasSubstrL s.toList pat.toList

/-- `Math.round(num / den * 100)` for natural counts with `den > 0`:
`round(x) = floor(x + 1/2)`, computed exactly as `(200*num + den) / (2*den)`
in natural floor division. -/
def pctRound (num den : ℕ) : ℕ :=
  (200 * num + den) / (2 * den)

/-- JavaScript truthiness of an optional string (`undefined` and `""` are
falsy). -/
def jsTruthyStr : Option String → Option String
  | none => none
  | some s => if s = "" then none else some s

/-! ## Progress State Store (`src/download-state.ts`) -/

/-- The `status` enum of the global state. -/
inductive Status
  | idle
  | downloading
  | uploading
deriving DecidableEq, Repr

/-- The global progress record.  The typed fields follow the `GlobalState`
interface; the remaining `Option`-typed fields are the loosely-typed extras
that `updateState` merges into the same runtime object during a batch
(`fileComplete`, the three counts, `downloadProgress`, `uploadStarted`, and
the corner case of a falsy `photoId` being merged).  `totalProgress = none`
models the `NaN` produced by a zero denominator. -/
structure GlobalState where
  inProgress : Bool
  total : ℕ
  current : ℕ
  message : String
  totalProgress : Option ℕ
  complete : Bool
  cancelled : Bool
  error : Option String
  status : Status
  folderLink : Option String
  fileComplete : Option Bool
  downloadedCount : Option ℕ
  notDownloadedCount : Option ℕ
  totalPhotosCount : Option ℕ
  downloadProgress : Option (Option ℕ)
  uploadStarted : Option Bool
  photoIdField : Option String
deriving DecidableEq, Repr

/-- The initial / reset global record (`resetState`). -/
def GlobalState.init : GlobalState :=
  { inProgress := false
    total := 0
    current := 0
    message := ""
    totalProgress := some 0
    complete := false
    cancelled := false
    error := none
    status := Status.idle
    folderLink := none
    fileComplete := none
    downloadedCount := none
    notDownloadedCount := none
    totalPhotosCount := none
    downloadProgress := none
    uploadStarted := none
    photoIdField := none }

/-- A per-photo progress record.  At runtime this is an untyped object that
receives whatever fields `Object.assign` copies from a patch, so it carries
the same optional fields a patch can (minus `photoId`). -/
structure IndividualState where
  inProgress : Option Bool
  total : Option ℕ
  current : Option ℕ
  message : Option String
  totalProgress : Option (Option ℕ)
  complete : Option Bool
  cancelled : Option Bool
  error : Option String
  status : Option Status
  folderLink : Option String
  fileComplete : Option Bool
  downloadedCount : Option ℕ
  notDownloadedCount : Option ℕ
  totalPhotosCount : Option ℕ
  downloadProgress : Option (Option ℕ)
  uploadProgress : Option ℕ
  uploadStarted : Option Bool
  driveLink : Option String
deriving DecidableEq, Repr

/-- The freshly created `{}` record. -/
def IndividualState.empty : IndividualState :=
  { inProgress := none
    total := none
    current := none
    message := none
    totalProgress := none
    complete := none
    cancelled := none
    error := none
    status := none
    folderLink := none
    fileComplete := none
    downloadedCount := none
    notDownloadedCount := none
    totalPhotosCount := none
    downloadProgress := none
    uploadProgress := none
    uploadStarted := none
    driveLink := none }

/-- A patch passed to `updateState`: every field is optional (absent = not a
key of the patch object).  Fields whose value can itself be `undefined`
(`totalProgress` via a `NaN`, `downloadProgress: undefined`, a falsy
`folderLink`) are doubly optional. -/
structure Patch where
  photoId : Option String
  inProgress : Option Bool
  total : Option ℕ
  current : Option ℕ
  message : Option String
  totalProgress : Option (Option ℕ)
  complete : Option Bool
  cancelled : Option Bool
  error : Option String
  status : Option Status
  folderLink : Option (Option String)
  fileComplete : Option Bool
  downloadedCount : Option ℕ
  notDownloadedCount : Option ℕ
  totalPhotosCount : Option ℕ
  downloadProgress : Option (Option ℕ)
  uploadProgress : Option ℕ
  uploadStarted : Option Bool
  driveLink : Option String
deriving DecidableEq, Repr

/-- The empty patch `{}`. -/
def Patch.empty : Patch :=
  { photoId := none
    inProgress := none
    total := none
    current := none
    message := none
    totalProgress := none
    complete := none
    cancelled := none
    error := none
    status := none
    folderLink := none
    fileComplete := none
    downloadedCount := none
    notDownloadedCount := none
    totalPhotosCount := none
    downloadProgress := none
    uploadProgress := none
    uploadStarted := none
    driveLink := none }

/-- `Object.assign(state.global, patch)`. -/
def mergeGlobal (g : GlobalState) (p : Patch) : GlobalState :=
  { inProgress := p.inProgress.getD g.inProgress
    total := p.total.getD g.total
    current := p.current.getD g.current
    message := p.message.getD g.message
    totalProgress :=
      match p.totalProgress with
      | some v => v
      | none => g.totalProgress
    complete := p.complete.getD g.complete
    cancelled := p.cancelled.getD g.cancelled
    error :=
      match p.error with
      | some e => some e
      | none => g.error
    status := p.status.getD g.status
    folderLink :=
      match p.folderLink with
      | some v => v
      | none => g.folderLink
    fileComplete :=
      match p.fileComplete with
      | some v => some v
      | none => g.fileComplete
    downloadedCount :=
      match p.downloadedCount with
      | some v => some v
      | none => g.downloadedCount
    notDownloadedCount :=
      match p.notDownloadedCount with
      | some v => some v
      | none => g.notDownloadedCount
    totalPhotosCount :=
      match p.totalPhotosCount with
      | some v => some v
      | none => g.totalPhotosCount
    downloadProgress :=
      match p.downloadProgress with
      | some v => some v
      | none => g.downloadProgress
    uploadStarted :=
      match p.uploadStarted with
      | some v => some v
      | none => g.uploadStarted
    photoIdField :=
      match p.photoId with
      | some v => some v
      | none => g.photoIdField }

/-- `Object.assign(state.individual[photoId], photoState)` where `photoState`
is the patch with `photoId` destructured away. -/
def mergeIndividual (r : IndividualState) (p : Patch) : IndividualState :=
  { inProgress :=
      match p.inProgress with
      | some v => some v
      | none => r.inProgress
    total :=
      match p.total with
      | some v => some v
      | none => r.total
    current :=
      match p.current with
      | some v => some v
      | none => r.current
    message :=
      match p.message with
      | some v => some v
      | none => r.message
    totalProgress :=
      match p.totalProgress with
      | some v => some v
      | none => r.totalProgress
    complete :=
      match p.complete with
      | some v => some v
      | none => r.complete
    cancelled :=
      match p.cancelled with
      | some v => some v
      | none => r.cancelled
    error :=
      match p.error with
      | some v => some v
      | none => r.error
    status :=
      match p.status with
      | some v => some v
      | none => r.status
    folderLink :=
      match p.folderLink with
      | some v => v
      | none => r.folderLink
    fileComplete :=
      match p.fileComplete with
      | some v => some v
      | none => r.fileComplete
    downloadedCount :=
      match p.downloadedCount with
      | some v => some v
      | none => r.downloadedCount
    notDownloadedCount :=
      match p.notDownloadedCount with
      | some v => some v
      | none => r.notDownloadedCount
    totalPhotosCount :=
      match p.totalPhotosCount with
      | some v => some v
      | none => r.totalPhotosCount
    downloadProgress :=
      match p.downloadProgress with
      | some v => some v
      | none => r.downloadProgress
    uploadProgress :=
      match p.uploadProgress with
      | some v => some v
      | none => r.uploadProgress
    uploadStarted :=
      match p.uploadStarted with
      | some v => some v
      | none => r.uploadStarted
    driveLink :=
      match p.driveLink with
      | some v => some v
      | none => r.driveLink }

/-- One message sent over the live WebSocket channel: either the merged
record of one photo, or the entire global record. -/
inductive PushPayload
  | individual (photoId : String) (record : IndividualState)
  | global (record : GlobalState)
deriving DecidableEq, Repr

/-- The state held by the store module: the global record, the per-photo map
(as an association list in insertion order), and whether a socket is
attached. -/
structure StoreState where
  global : GlobalState
  individual : List (String × IndividualState)
  hasSocket : Bool
deriving DecidableEq, Repr

/-- Lookup in the per-photo map. -/
def lookupInd : List (String × IndividualState) → String → Option IndividualState
  | [], _ => none
  | (k, v) :: rest, pid => if k = pid then some v else lookupInd rest pid

/-- Write (replace or append) in the per-photo map. -/
def setInd : List (String × IndividualState) → String → IndividualState →
    List (String × IndividualState)
  | [], pid, v => [(pid, v)]
  | (k, w) :: rest, pid, v =>
    if k = pid then (k, v) :: rest else (k, w) :: setInd rest pid v

/-- Result of one `updateState` call: the new store, the messages pushed to
the live channel, and the photo ids whose record deletion was scheduled by
`setTimeout(..., 5000)`. -/
structure UpdOut where
  store : StoreState
  pushes : List PushPayload
  deletesScheduled : List String
deriving Repr

/-- `updateState(newState)` from `src/download-state.ts`: the `if
(newState.photoId)` truthiness test routes the patch either into the photo's
record (pushing that photo's merged record) or into the global record
(pushing the entire merged global record).  If no socket is attached nothing
is pushed. -/
def updateState (s : StoreState) (p : Patch) : UpdOut :=
  match jsTruthyStr p.photoId with
  | some pid =>
    let r0 := (lookupInd s.individual pid).getD IndividualState.empty
    let r1 := mergeIndividual r0 p
    { store := { s with individual := setInd s.individual pid r1 }
      pushes := if s.hasSocket then [PushPayload.individual pid r1] else []
      deletesScheduled := if r1.complete = some true then [pid] else [] }
  | none =>
    let g1 := mergeGlobal s.global p
    { store := { s with global := g1 }
      pushes := if s.hasSocket then [PushPayload.global g1] else []
      deletesScheduled := [] }

/-- The store right after `resetState()` (global record reinitialised, photo
records cleared, socket reference kept). -/
def resetStore (hasSocket : Bool) : StoreState :=
  { global := GlobalState.init, individual := [], hasSocket := hasSocket }

/-- The patch applied by `cancelDownload()`. -/
def cancelPatch : Patch :=
  { Patch.empty with cancelled := some true }

/-! The patch objects built at each callback / `updateState` site of the
transfer unit and the orchestrator, verbatim from the source. -/

def dlStartPatch (pid : String) : Patch :=
  { Patch.empty with photoId := some pid, downloadProgress := some (some 0) }

def dlPctPatch (pid : String) (pct : ℕ) : Patch :=
  { Patch.empty with downloadProgress := some (some pct), photoId := some pid }

def retryMsgPatch (pid : String) (a1 : ℕ) : Patch :=
  { Patch.empty with
    message := some ("Caught piexifjs pack error, retrying... (" ++ toString a1 ++ "/3)")
    photoId := some pid }

def finalMsgPatch (pid : String) : Patch :=
  { Patch.empty with
    message := some ("All 3 attempts failed for photo " ++ pid ++ ". Uploading without EXIF.")
    photoId := some pid }

def cancelMsgPatch (pid : String) : Patch :=
  { Patch.empty with message := some "Download cancelled.", photoId := some pid }

def upStartPatch (pid : String) : Patch :=
  { Patch.empty with uploadStarted := some true, photoId := some pid }

def statusUploadingPatch : Patch :=
  { Patch.empty with status := some Status.uploading }

def upPctPatch (pid : String) (pct : ℕ) : Patch :=
  { Patch.empty with uploadProgress := some pct, photoId := some pid }

/-! ## Photos, poses and the piexif model -/

/-- Raw image bytes (the `binary`-decoded string round-trips byte-for-byte
with the buffer, so one byte list stands for both). -/
abbrev Bytes := List ℕ

/-- Outcome of a JavaScript call: a value, or a thrown error carrying its
`message`. -/
inductive JsResult (α : Type)
  | ok (v : α)
  | err (msg : String)
deriving DecidableEq, Repr

structure PhotoId where
  id : String
deriving DecidableEq, Repr

structure LatLng where
  latitude : ℚ
  longitude : ℚ
deriving DecidableEq, Repr

structure Pose where
  latLngPair : LatLng
  heading : Option ℚ
  pitch : Option ℚ
  roll : Option ℚ
  altitude : Option ℚ
deriving DecidableEq, Repr

structure Photo where
  photoId : PhotoId
  downloadUrl : String
  pose : Option Pose
deriving DecidableEq, Repr

/-- `Math.round` on an exact rational. -/
def ratRound (q : ℚ) : ℤ :=
  (q + 1 / 2).floor

/-- `degToDmsRational` from `photo-utils`. -/
def degToDmsRational (deg : ℚ) : List (ℤ × ℤ) :=
  let d := deg.floor
  let minFloat := (deg - (d : ℚ)) * 60
  let m := minFloat.floor
  let secFloat := (minFloat - (m : ℚ)) * 60
  let s := ratRound (secFloat * 100)
  [(d, 1), (m, 1), (s, 100)]

/-- The GPS IFD assembled by `processPhoto` before it is stored into the
parsed metadata object. -/
structure GpsIfd where
  latitudeRef : String
  latitude : List (ℤ × ℤ)
  longitudeRef : String
  longitude : List (ℤ × ℤ)
  altitude : Option (ℤ × ℤ)
  altitudeRef : Option ℤ
  imgDirection : Option (ℤ × ℤ)
  imgDirectionRef : Option String
deriving DecidableEq, Repr

/-- A parsed metadata container: `base` abstracts everything `piexif.load`
read from the bytes, `hostComputer` is the free-text pose tag (kept as the
pitch/roll pair written into it) and `gps` the GPS IFD. -/
structure ExifObj where
  base : ℕ
  hostComputer : Option (ℚ × ℚ)
  gps : Option GpsIfd
deriving DecidableEq, Repr

/-- The `gpsData` object built from a pose (source lines building
`gpsData`). -/
def buildGps (pose : Pose) : GpsIfd :=
  let lat := pose.latLngPair.latitude
  let lng := pose.latLngPair.longitude
  let g0 : GpsIfd :=
    { latitudeRef := if lat < 0 then "S" else "N"
      latitude := degToDmsRational |lat|
      longitudeRef := if lng < 0 then "W" else "E"
      longitude := degToDmsRational |lng|
      altitude := none
      altitudeRef := none
      imgDirection := none
      imgDirectionRef := none }
  let g1 :=
    match pose.altitude with
    | some a => { g0 with altitude := some (ratRound (a * 100), 100), altitudeRef := some 0 }
    | none => g0
  match pose.heading with
  | some h => { g1 with imgDirection := some (ratRound (h * 100), 100), imgDirectionRef := some "T" }
  | none => g1

/-- The pose-injection step of `processPhoto`: guarded by `if (photo.pose)`;
without a pose the parsed object is left untouched. -/
def applyPose (exif : ExifObj) (photo : Photo) : ExifObj :=
  match photo.pose with
  | none => exif
  | some pose =>
    let e1 := { exif with gps := some (buildGps pose) }
    if pose.pitch.isSome || pose.roll.isSome then
      { e1 with hostComputer := some (pose.pitch.getD 0, pose.roll.getD 0) }
    else e1

/-- Reference to a Google Drive file. -/
structure FileRef where
  id : String
  webViewLink : Option String
deriving DecidableEq, Repr

/-- Deterministic model of the piexifjs codec as used by `processPhoto`:
each call either returns a value or throws. -/
structure PiexifModel where
  load : Bytes → JsResult ExifObj
  dump : ExifObj → JsResult Bytes
  insert : Bytes → Bytes → JsResult Bytes

/-- Environment for one `processPhoto` invocation: outcomes of the external
calls (download per attempt, Drive lookups and uploads) plus the points at
which a concurrent `cancel-download` message is delivered (during an awaited
download, or during the awaited `findFile`). -/
structure TransferEnv where
  piexif : PiexifModel
  download : ℕ → JsResult (List ℕ × Bytes)
  cancelDuringDownload : ℕ → Bool
  cancelDuringFind : Bool
  findFile : JsResult (Option FileRef)
  updateFile : String → Bytes → JsResult (List ℕ × FileRef)
  createFile : String → Bytes → JsResult (List ℕ × FileRef)

/-! ## Event traces -/

/-- Observable events of a run.  `push`/`timer` come from `updateState`;
`wait` is the retry backoff sleep; `attemptStart`, `invoke`, `uploadCall`,
`skipExisting`, `thenBranch`, `elseBranch`, `cancelExit` and `noDataExit`
mark, respectively, the start of a download/embed attempt, a Transfer Unit
invocation by the orchestrator, the Drive upload call with the bytes it
sends, and which branch/exit the control flow took. -/
inductive Event
  | push (p : PushPayload)
  | timer (pid : String)
  | wait (ms : ℕ)
  | attemptStart (pid : String)
  | invoke (pid : String)
  | uploadCall (fileName : String) (bytes : Bytes) (existing : Bool)
  | skipExisting (pid : String)
  | thenBranch (pid : String)
  | elseBranch (pid : String)
  | cancelExit (pid : String)
  | noDataExit (pid : String)
deriving DecidableEq, Repr

/-- A progress callback, as threaded through `processPhoto`. -/
abbrev Cb := Patch → StoreState → StoreState × List Event

/-- Run `updateState` and record its pushes and scheduled deletions as
events. -/
def runUpdate (s : StoreState) (p : Patch) : StoreState × List Event :=
  let u := updateState s p
  (u.store, u.pushes.map Event.push ++ u.deletesScheduled.map Event.timer)

/-- The `progressCallback` built by `downloadAllPhotos`: destructures
`photoId` away and feeds the rest to `updateState`. -/
def batchCb : Cb :=
  fun p s => runUpdate s { p with photoId := none }

/-- Delivery of a concurrent `cancel-download` message (`cancelDownload()`
runs `updateState({cancelled: true})`). -/
def applyCancel (s : StoreState) : StoreState × List Event :=
  runUpdate s cancelPatch

/-- Stream of percent-complete callbacks during a download or upload. -/
def cbStream (cb : Cb) (mk : ℕ → Patch) : List ℕ → StoreState → StoreState × List Event
  | [], s => (s, [])
  | pct :: rest, s =>
    let r1 := cb (mk pct) s
    let r2 := cbStream cb mk rest r1.1
    (r2.1, r1.2 ++ r2.2)

/-! ## The Transfer Unit (`processPhoto`) -/

/-- Outcome of one iteration of the retry loop. -/
inductive IterOut
  | broke (newJpeg : Bytes)
  | cancelledIter
  | packRetry
  | thrownIter (msg : String)
deriving DecidableEq, Repr

/-- Outcome of the whole retry loop. -/
inductive LoopOut
  | broke (newJpeg : Bytes)
  | exhausted
  | cancelledLoop
  | thrownLoop (msg : String)
deriving DecidableEq, Repr

/-- Return value of `processPhoto`: `null`, the `{photo, file}` object
(represented by its file), or a thrown error. -/
inductive PPOut
  | retNull
  | retFile (f : FileRef)
  | thrown (msg : String)
deriving DecidableEq, Repr

/-- The `catch (e)` handler of the retry loop: a message containing `"pack"`
(while fewer than 3 attempts are used up) emits the retry message, on the
third failure also the final warning, then sleeps `1000 * attempts`;
anything else is rethrown. -/
def caughtStep (cb : Cb) (pid : String) (attempts : ℕ) (jpegData : Option Bytes)
    (s : StoreState) (m : String) :
    StoreState × List Event × Option Bytes × IterOut :=
  if jsIncludes m "pack" && decide (attempts < 3) then
    let a1 := attempts + 1
    let r1 := cb (retryMsgPatch pid a1) s
    let r2 :=
      if a1 = 3 then cb (finalMsgPatch pid) r1.1
      else (r1.1, [])
    (r2.1, r1.2 ++ r2.2 ++ [Event.wait (1000 * a1)], jpegData, IterOut.packRetry)
  else
    (s, [], jpegData, IterOut.thrownIter m)

/-- One iteration of the `while (attempts < maxAttempts)` body: report
`downloadProgress: 0`, download, (possible concurrent cancel delivery,)
cancellation check, then `piexif.load`, pose injection, `piexif.dump`,
`piexif.insert`; any throw goes to `caughtStep`. -/
def oneAttempt (env : TransferEnv) (cb : Cb) (photo : Photo) (attempts : ℕ)
    (jpegData : Option Bytes) (s : StoreState) :
    StoreState × List Event × Option Bytes × IterOut :=
  let pid := photo.photoId.id
  let r0 := cb (dlStartPatch pid) s
  let e0 := Event.attemptStart pid :: r0.2
  match env.download attempts with
  | JsResult.err m =>
    let rc := if env.cancelDuringDownload attempts then applyCancel r0.1 else (r0.1, [])
    match caughtStep cb pid attempts jpegData rc.1 m with
    | (s1, evs, jd, out) => (s1, e0 ++ rc.2 ++ evs, jd, out)
  | JsResult.ok (pcts, data) =>
    let r1 := cbStream cb (dlPctPatch pid) pcts r0.1
    let rc := if env.cancelDuringDownload attempts then applyCancel r1.1 else (r1.1, [])
    let sNow := rc.1
    let acc := e0 ++ r1.2 ++ rc.2
    if sNow.global.cancelled then
      let r2 := cb (cancelMsgPatch pid) sNow
      (r2.1, acc ++ r2.2 ++ [Event.cancelExit pid], jpegData, IterOut.cancelledIter)
    else
      let jd := some data
      match env.piexif.load data with
      | JsResult.err m =>
        match caughtStep cb pid attempts jd sNow m with
        | (s1, evs, jd1, out) => (s1, acc ++ evs, jd1, out)
      | JsResult.ok exifObj =>
        let exifObj := applyPose exifObj photo
        match env.piexif.dump exifObj with
        | JsResult.err m =>
          match caughtStep cb pid attempts jd sNow m with
          | (s1, evs, jd1, out) => (s1, acc ++ evs, jd1, out)
        | JsResult.ok exifbytes =>
          match env.piexif.insert exifbytes data with
          | JsResult.err m =>
            match caughtStep cb pid attempts jd sNow m with
            | (s1, evs, jd1, out) => (s1, acc ++ evs, jd1, out)
          | JsResult.ok newData => (sNow, acc, jd, IterOut.broke newData)

/-- The retry loop, with `fuel = maxAttempts - attempts` keeping the
`while (attempts < 3)` condition. -/
def embedAttempts (env : TransferEnv) (cb : Cb) (photo : Photo) :
    ℕ → ℕ → Option Bytes → StoreState → StoreState × List Event × Option Bytes × LoopOut
  | 0, _, jpegData, s => (s, [], jpegData, LoopOut.exhausted)
  | fuel + 1, attempts, jpegData, s =>
    let r := oneAttempt env cb photo attempts jpegData s
    match r.2.2.2 with
    | IterOut.broke nj => (r.1, r.2.1, r.2.2.1, LoopOut.broke nj)
    | IterOut.cancelledIter => (r.1, r.2.1, r.2.2.1, LoopOut.cancelledLoop)
    | IterOut.thrownIter m => (r.1, r.2.1, r.2.2.1, LoopOut.thrownLoop m)
    | IterOut.packRetry =>
      let r2 := embedAttempts env cb photo fuel (attempts + 1) r.2.2.1 r.1
      (r2.1, r.2.1 ++ r2.2.1, r2.2.2.1, r2.2.2.2)

/-- The upload phase of `processPhoto` (find existing file, report
`uploadStarted`, set global `status: "uploading"`, then update-in-place or
create). -/
def uploadPhase (env : TransferEnv) (cb : Cb) (photo : Photo) (newJpeg : Bytes)
    (s : StoreState) : StoreState × List Event × PPOut :=
  let pid := photo.photoId.id
  let fileName := pid ++ ".jpg"
  match env.findFile with
  | JsResult.err m => (s, [], PPOut.thrown m)
  | JsResult.ok existingFile =>
    let rc := if env.cancelDuringFind then applyCancel s else (s, [])
    let r1 := cb (upStartPatch pid) rc.1
    let r2 := runUpdate r1.1 statusUploadingPatch
    let acc := rc.2 ++ r1.2 ++ r2.2
    match existingFile with
    | some f =>
      match env.updateFile f.id newJpeg with
      | JsResult.err m => (r2.1, acc, PPOut.thrown m)
      | JsResult.ok (pcts, file) =>
        let r3 := cbStream cb (upPctPatch pid) pcts r2.1
        (r3.1, acc ++ [Event.uploadCall fileName newJpeg true] ++ r3.2, PPOut.retFile file)
    | none =>
      match env.createFile fileName newJpeg with
      | JsResult.err m => (r2.1, acc, PPOut.thrown m)
      | JsResult.ok (pcts, file) =>
        let r3 := cbStream cb (upPctPatch pid) pcts r2.1
        (r3.1, acc ++ [Event.uploadCall fileName newJpeg false] ++ r3.2, PPOut.retFile file)

/-- `processPhoto` (the Transfer Unit): retry loop, the `if (!newJpeg)`
fallback to the raw downloaded bytes, then the upload phase. -/
def processPhoto (env : TransferEnv) (cb : Cb) (photo : Photo) (s : StoreState) :
    StoreState × List Event × PPOut :=
  let r := embedAttempts env cb photo 3 0 none s
  match r.2.2.2 with
  | LoopOut.cancelledLoop => (r.1, r.2.1, PPOut.retNull)
  | LoopOut.thrownLoop m => (r.1, r.2.1, PPOut.thrown m)
  | LoopOut.broke nj =>
    let r2 := uploadPhase env cb photo nj r.1
    (r2.1, r.2.1 ++ r2.2.1, r2.2.2)
  | LoopOut.exhausted =>
    match r.2.2.1 with
    | some j =>
      let r2 := uploadPhase env cb photo j r.1
      (r2.1, r.2.1 ++ r2.2.1, r2.2.2)
    | none => (r.1, r.2.1 ++ [Event.noDataExit photo.photoId.id], PPOut.retNull)

/-! ## The Batch Orchestrator (`downloadAllPhotos`) -/

/-- A Google Drive folder as returned by `findOrCreateFolder`. -/
structure Folder where
  id : Option String
  webViewLink : Option String
deriving DecidableEq, Repr

/-- The slice of `req.session` the orchestrator touches.  A `none` list
models the property being absent from the session object. -/
structure Session where
  missingPhotos : Option (List Photo)
  downloadedPhotos : Option (List Photo)
  allPhotosSet : Bool
deriving DecidableEq, Repr

/-- Environment of one batch run: outcomes of the setup calls and, for each
loop index, the Transfer Unit environment of that invocation. -/
structure BatchEnv where
  authClient : JsResult Unit
  driveClient : JsResult Unit
  findFolder : JsResult (Option Folder)
  listFilesRes : JsResult (List String)
  item : ℕ → TransferEnv

/-- How the `for` loop ended: ran off the end, `break` via the cancellation
check, or an exception propagated out of the body. -/
inductive LoopExit
  | finished
  | brokeCancel
  | thrownE (msg : String)
deriving DecidableEq, Repr

/-- `findIndex((p) => p.photoId.id === photo.photoId.id)`. -/
def findPhotoIdx (l : List Photo) (pid : String) : Option ℕ :=
  l.findIdx? fun p => p.photoId.id == pid

/-- The then-branch bookkeeping: guarded by
`if (missingPhotos && downloadedPhotos)`, splice the photo out of the
missing list and push it onto the downloaded list. -/
def moveToDownloaded (sess : Session) (pid : String) : Session :=
  match sess.missingPhotos, sess.downloadedPhotos with
  | some mp, some dp =>
    match findPhotoIdx mp pid with
    | some idx =>
      match mp[idx]? with
      | some ph =>
        { sess with
          missingPhotos := some (mp.eraseIdx idx)
          downloadedPhotos := some (dp ++ [ph]) }
      | none => { sess with missingPhotos := some (mp.eraseIdx idx) }
    | none => sess
  | _, _ => sess

/-- The else-branch bookkeeping: guarded by `if (missingPhotos)`, splice the
photo out of the missing list. -/
def removeFromMissing (sess : Session) (pid : String) : Session :=
  match sess.missingPhotos with
  | some mp =>
    match findPhotoIdx mp pid with
    | some idx => { sess with missingPhotos := some (mp.eraseIdx idx) }
    | none => sess
  | none => sess

/-- Reading `.length` of a possibly-absent session list: absent throws a
`TypeError`. -/
def jsLen (l : Option (List Photo)) : JsResult ℕ :=
  match l with
  | none => JsResult.err "Cannot read properties of undefined (reading 'length')"
  | some xs => JsResult.ok xs.length

/-- `Math.round(num / den * 100)` as stored into `totalProgress`: `none`
models the `NaN` of a zero denominator. -/
def roundPctOpt (num den : ℕ) : Option ℕ :=
  if den = 0 then none else some (pctRound num den)

/-! The orchestrator's patch objects, verbatim from the source. -/

def cancellingPatch : Patch :=
  { Patch.empty with
    message := some "Cancelling..."
    complete := some true
    inProgress := some false
    uploadStarted := some false }

def skipMsgPatch (fileName : String) : Patch :=
  { Patch.empty with message := some ("Skipping existing file: " ++ fileName) }

def processingPatch (d i tpc totalPhotos : ℕ) (fileName : String) : Patch :=
  { Patch.empty with
    message := some ("Processing photo " ++ toString (d + i + 1) ++ " of " ++
      toString tpc ++ " (" ++ fileName ++ ")...")
    total := some totalPhotos
    current := some i
    status := some Status.downloading }

def thenPatch (dl ml tpc num den : ℕ) : Patch :=
  { Patch.empty with
    fileComplete := some true
    downloadedCount := some dl
    notDownloadedCount := some ml
    totalPhotosCount := some tpc
    totalProgress := some (roundPctOpt num den) }

def elsePatch (dl ml tpc : ℕ) (pid : String) (num den : ℕ) : Patch :=
  { Patch.empty with
    fileComplete := some true
    downloadedCount := some dl
    notDownloadedCount := some ml
    totalPhotosCount := some tpc
    message := some ("Skipping photo " ++ pid ++ " after multiple failed attempts.")
    totalProgress := some (roundPctOpt num den) }

def folderLinkPatch (link : Option String) : Patch :=
  { Patch.empty with folderLink := some link }

def startingPatch (totalPhotos initialProgress : ℕ) : Patch :=
  { Patch.empty with
    inProgress := some true
    message := some ("Starting download of " ++ toString totalPhotos ++
      " photos to Google Drive...")
    total := some totalPhotos
    current := some 0
    totalProgress := some (some initialProgress) }

def terminalPatch (message : String) : Patch :=
  { Patch.empty with
    message := some message
    complete := some true
    inProgress := some false
    downloadProgress := some none
    uploadStarted := some false }

def errorPatch (msg : String) : Patch :=
  { Patch.empty with
    error := some ("An error occurred: " ++ msg)
    complete := some true
    inProgress := some false
    uploadStarted := some false }

/-- Result of the shared tail of one loop iteration (bookkeeping plus the
per-item aggregate update).  `stepThrew` is the `TypeError` thrown while
reading a length off an absent session list. -/
inductive StepOut
  | stepOk (s : StoreState) (evs : List Event) (sess : Session)
  | stepThrew (sess : Session) (msg : String)
deriving Repr

/-- Body of `if (downloadedPhoto) { ... }`: move the photo into the
downloaded list, then publish `fileComplete`, the three counts and the new
`totalProgress`. -/
def thenStep (d m tpc i : ℕ) (pid : String) (sess : Session) (s : StoreState) : StepOut :=
  let sess1 := moveToDownloaded sess pid
  match jsLen sess1.downloadedPhotos with
  | JsResult.err msg => StepOut.stepThrew sess1 msg
  | JsResult.ok dl =>
    match jsLen sess1.missingPhotos with
    | JsResult.err msg => StepOut.stepThrew sess1 msg
    | JsResult.ok ml =>
      let r := runUpdate s (thenPatch dl ml tpc (d + i + 1) (d + m))
      StepOut.stepOk r.1 (r.2 ++ [Event.thenBranch pid]) sess1

/-- Body of the `else` branch (a `null` Transfer Unit result): drop the
photo from the missing list, then publish the skip message together with the
counts and the new `totalProgress`. -/
def elseStep (d m tpc i : ℕ) (pid : String) (sess : Session) (s : StoreState) : StepOut :=
  let sess1 := removeFromMissing sess pid
  match jsLen sess1.downloadedPhotos with
  | JsResult.err msg => StepOut.stepThrew sess1 msg
  | JsResult.ok dl =>
    match jsLen sess1.missingPhotos with
    | JsResult.err msg => StepOut.stepThrew sess1 msg
    | JsResult.ok ml =>
      let r := runUpdate s (elsePatch dl ml tpc pid (d + i + 1) (d + m))
      StepOut.stepOk r.1 (r.2 ++ [Event.elseBranch pid]) sess1

/-- The `for (let i = 0; i < photos.length; i++)` loop.  `existing` is the
upfront `existingFileNames` set, `d`/`m` the already-downloaded and missing
counts, `tpc` their sum and `totalPhotos` the list length. -/
def batchLoop (env : BatchEnv) (existing : List String) (d m tpc totalPhotos : ℕ) :
    List Photo → ℕ → Session → ℕ → StoreState →
    StoreState × List Event × Session × ℕ × LoopExit
  | [], _, sess, sk, s => (s, [], sess, sk, LoopExit.finished)
  | photo :: rest, i, sess, sk, s =>
    if s.global.cancelled then
      let r := runUpdate s cancellingPatch
      (r.1, r.2, sess, sk, LoopExit.brokeCancel)
    else
      let pid := photo.photoId.id
      let fileName := pid ++ ".jpg"
      if existing.contains fileName then
        let r := runUpdate s (skipMsgPatch fileName)
        match thenStep d m tpc i pid sess r.1 with
        | StepOut.stepOk s2 evs2 sess2 =>
          let r3 := batchLoop env existing d m tpc totalPhotos rest (i + 1) sess2 (sk + 1) s2
          (r3.1, r.2 ++ [Event.skipExisting pid] ++ evs2 ++ r3.2.1, r3.2.2.1,
            r3.2.2.2.1, r3.2.2.2.2)
        | StepOut.stepThrew sess2 msg =>
          (r.1, r.2 ++ [Event.skipExisting pid], sess2, sk + 1, LoopExit.thrownE msg)
      else
        let r0 := runUpdate s (processingPatch d i tpc totalPhotos fileName)
        let rp := processPhoto (env.item i) batchCb photo r0.1
        match rp.2.2 with
        | PPOut.thrown msg =>
          (rp.1, r0.2 ++ [Event.invoke pid] ++ rp.2.1, sess, sk, LoopExit.thrownE msg)
        | PPOut.retFile _ =>
          match thenStep d m tpc i pid sess rp.1 with
          | StepOut.stepOk s2 evs2 sess2 =>
            let r3 := batchLoop env existing d m tpc totalPhotos rest (i + 1) sess2 sk s2
            (r3.1, r0.2 ++ [Event.invoke pid] ++ rp.2.1 ++ evs2 ++ r3.2.1, r3.2.2.1,
              r3.2.2.2.1, r3.2.2.2.2)
          | StepOut.stepThrew sess2 msg =>
            (rp.1, r0.2 ++ [Event.invoke pid] ++ rp.2.1, sess2, sk, LoopExit.thrownE msg)
        | PPOut.retNull =>
          match elseStep d m tpc i pid sess rp.1 with
          | StepOut.stepOk s2 evs2 sess2 =>
            let r3 := batchLoop env existing d m tpc totalPhotos rest (i + 1) sess2 (sk + 1) s2
            (r3.1, r0.2 ++ [Event.invoke pid] ++ rp.2.1 ++ evs2 ++ r3.2.1, r3.2.2.1,
              r3.2.2.2.1, r3.2.2.2.2)
          | StepOut.stepThrew sess2 msg =>
            (rp.1, r0.2 ++ [Event.invoke pid] ++ rp.2.1, sess2, sk + 1, LoopExit.thrownE msg)

/-- Result of one `downloadAllPhotos` run. -/
structure BatchResult where
  store : StoreState
  trace : List Event
  sess : Session
  skippedCount : ℕ
deriving Repr

/-- The top-level `catch (error)` handler. -/
def errorExit (s : StoreState) (evs : List Event) (sess : Session) (sk : ℕ)
    (msg : String) : BatchResult :=
  let r := runUpdate s (errorPatch msg)
  { store := r.1, trace := evs ++ r.2, sess := sess, skippedCount := sk }

/-- `downloadAllPhotos(req, photos, downloadedPhotosCount,
missingPhotosCount)`: setup (auth, Drive client, folder, upfront file
listing), the starting global update, the loop, and the terminal update; any
throw lands in the top-level catch. -/
def downloadAllPhotos (env : BatchEnv) (sess : Session) (photos : List Photo)
    (downloadedPhotosCount missingPhotosCount : ℕ) (s0 : StoreState) : BatchResult :=
  match env.authClient with
  | JsResult.err m => errorExit s0 [] sess 0 m
  | JsResult.ok _ =>
  match env.driveClient with
  | JsResult.err m => errorExit s0 [] sess 0 m
  | JsResult.ok _ =>
  match env.findFolder with
  | JsResult.err m => errorExit s0 [] sess 0 m
  | JsResult.ok none => errorExit s0 [] sess 0 "Could not find or create folder in Google Drive"
  | JsResult.ok (some folder) =>
  match jsTruthyStr folder.id with
  | none => errorExit s0 [] sess 0 "Could not find or create folder in Google Drive"
  | some _ =>
    let r1 := runUpdate s0 (folderLinkPatch (jsTruthyStr folder.webViewLink))
    match env.listFilesRes with
    | JsResult.err m => errorExit r1.1 r1.2 sess 0 m
    | JsResult.ok names =>
      let totalPhotos := photos.length
      let tpc := downloadedPhotosCount + missingPhotosCount
      let initialProgress := if 0 < tpc then pctRound downloadedPhotosCount tpc else 0
      let r2 := runUpdate r1.1 (startingPatch totalPhotos initialProgress)
      let r3 := batchLoop env names downloadedPhotosCount missingPhotosCount tpc totalPhotos
        photos 0 sess 0 r2.1
      match r3.2.2.2.2 with
      | LoopExit.thrownE m =>
        errorExit r3.1 (r1.2 ++ r2.2 ++ r3.2.1) r3.2.2.1 r3.2.2.2.1 m
      | _ =>
        let sess4 := { r3.2.2.1 with allPhotosSet := false }
        let message :=
          if 0 < r3.2.2.2.1 then
            "All photos downloaded successfully to Google Drive!" ++ " " ++
              toString r3.2.2.2.1 ++ " photos were skipped."
          else "All photos downloaded successfully to Google Drive!"
        let r4 := runUpdate r3.1 (terminalPatch message)
        { store := r4.1, trace := r1.2 ++ r2.2 ++ r3.2.1 ++ r4.2, sess := sess4,
          skippedCount := r3.2.2.2.1 }

/-! ## Trace observations -/

/-- The global records pushed to the live channel, in order. -/
def globalPushes (tr : List Event) : List GlobalState :=
  tr.filterMap fun e =>
    match e with
    | Event.push (PushPayload.global g) => some g
    | _ => none

/-- The `totalProgress` values carried by the pushed global records. -/
def pushedTPs (tr : List Event) : List (Option ℕ) :=
  (globalPushes tr).map GlobalState.totalProgress

/-- Photo ids of the Transfer Unit invocations, in order. -/
def invokedIds (tr : List Event) : List String :=
  tr.filterMap fun e =>
    match e with
    | Event.invoke pid => some pid
    | _ => none

/-- Backoff sleeps, in order. -/
def waitsOf (tr : List Event) : List ℕ :=
  tr.filterMap fun e =>
    match e with
    | Event.wait ms => some ms
    | _ => none

/-- Photo ids of the started download/embed attempts, in order. -/
def attemptStarts (tr : List Event) : List String :=
  tr.filterMap fun e =>
    match e with
    | Event.attemptStart pid => some pid
    | _ => none

/-- Drive upload calls `(fileName, bytes, update-in-place?)`, in order. -/
def uploadCallsOf (tr : List Event) : List (String × Bytes × Bool) :=
  tr.filterMap fun e =>
    match e with
    | Event.uploadCall n b ex => some (n, b, ex)
    | _ => none

/-- The last global record pushed during the run. -/
def lastGlobalPush (tr : List Event) : Option GlobalState :=
  (globalPushes tr).getLast?

/-- `chainFrom v l`: every entry of `l` is a defined percentage, the list is
non-decreasing, and its head is at least `v`. -/
def chainFrom (v : ℕ) : List (Option ℕ) → Bool
  | [] => true
  | some w :: t => decide (v ≤ w) && chainFrom w t
  | none :: _ => false

/-- Does some pushed global record carry this message? -/
def hasGlobalMessage (tr : List Event) (msg : String) : Bool :=
  (globalPushes tr).any fun g => g.message == msg

/-! ## Concrete sample runs

Small concrete environments used to exhibit concrete behaviours of the
embedded code: a piexif model, photos without a pose, and batch
environments whose setup calls succeed. -/

def pxOk : PiexifModel :=
  { load := fun b => JsResult.ok ⟨b.length, none, none⟩
    dump := fun e => JsResult.ok [e.base]
    insert := fun e d => JsResult.ok (e ++ d) }

def envOk : TransferEnv :=
  { piexif := pxOk
    download := fun _ => JsResult.ok ([], [1, 2, 3])
    cancelDuringDownload := fun _ => false
    cancelDuringFind := false
    findFile := JsResult.ok none
    updateFile := fun _ _ => JsResult.ok ([], ⟨"f1", some "lnk"⟩)
    createFile := fun _ _ => JsResult.ok ([], ⟨"f2", some "lnk2"⟩) }

/-- Every download throws an error whose message contains the transient
`"pack"` signature. -/
def envPackDl : TransferEnv :=
  { envOk with download := fun _ => JsResult.err "sock pack fail" }

/-- Every embed attempt fails with the transient `"pack"` signature. -/
def envPack : TransferEnv :=
  { envOk with piexif := { pxOk with load := fun _ => JsResult.err "bad pack thing" } }

/-- The embed step throws a non-transient error. -/
def envBoom : TransferEnv :=
  { envOk with piexif := { pxOk with load := fun _ => JsResult.err "boom" } }

/-- A `cancel-download` message is delivered during the awaited `findFile`
(i.e. while the item is in flight, after its cancellation check). -/
def envCancelFind : TransferEnv :=
  { envOk with cancelDuringFind := true }

/-- A `cancel-download` message is delivered during the awaited download of
attempt 0, so the flag is set by the time `processPhoto` reaches the
post-download cancellation check. -/
def envCancelDl0 : TransferEnv :=
  { envOk with cancelDuringDownload := fun k => k == 0 }

def photoA : Photo := ⟨⟨"a"⟩, "urlA", none⟩

def photoB : Photo := ⟨⟨"b"⟩, "urlB", none⟩

def store0 : StoreState := resetStore true

def sessAB : Session := ⟨some [photoA, photoB], some [], true⟩

def benvOk : BatchEnv :=
  { authClient := JsResult.ok ()
    driveClient := JsResult.ok ()
    findFolder := JsResult.ok (some ⟨some "fol", some "follink"⟩)
    listFilesRes := JsResult.ok []
    item := fun _ => envOk }

def benvBoom0 : BatchEnv :=
  { benvOk with item := fun i => if i = 0 then envBoom else envOk }

def benvCancelFind0 : BatchEnv :=
  { benvOk with item := fun i => if i = 0 then envCancelFind else envOk }

/-- A batch where the destination folder already contains `a.jpg`. -/
def benvSkipA : BatchEnv :=
  { benvOk with listFilesRes := JsResult.ok ["a.jpg"] }

/-- Store used by the update-routing counterexample: photo `"a"` already has
a stored `downloadProgress` of 10. -/
def c8Store : StoreState :=
  { global := GlobalState.init
    individual := [("a", { IndividualState.empty with downloadProgress := some (some 10) })]
    hasSocket := true }

/-- A later item-scoped patch that carries only `uploadStarted`. -/
def c8Patch : Patch :=
  { Patch.empty with photoId := some "a", uploadStarted := some true }

/-- A global patch (no item identifier). -/
def c8GlobalPatch : Patch :=
  { Patch.empty with message := some "hello", totalProgress := some (some 42) }

/-! ## Basic lemmas about the observations -/

@[simp] lemma globalPushes_nil : globalPushes [] = [] := rfl

@[simp] lemma globalPushes_append (a b : List Event) :
    globalPushes (a ++ b) = globalPushes a ++ globalPushes b :=
  List.filterMap_append a b _

@[simp] lemma globalPushes_push_global (g : GlobalState) (t : List Event) :
    globalPushes (Event.push (PushPayload.global g) :: t) = g :: globalPushes t := rfl

@[simp] lemma globalPushes_push_ind (pid : String) (rec : IndividualState) (t : List Event) :
    globalPushes (Event.push (PushPayload.individual pid rec) :: t) = globalPushes t := rfl

@[simp] lemma globalPushes_timer (pid : String) (t : List Event) :
    globalPushes (Event.timer pid :: t) = globalPushes t := rfl

@[simp] lemma globalPushes_wait (n : ℕ) (t : List Event) :
    globalPushes (Event.wait n :: t) = globalPushes t := rfl

@[simp] lemma globalPushes_attemptStart (pid : String) (t : List Event) :
    globalPushes (Event.attemptStart pid :: t) = globalPushes t := rfl

@[simp] lemma globalPushes_invoke (pid : String) (t : List Event) :
    globalPushes (Event.invoke pid :: t) = globalPushes t := rfl

@[simp] lemma globalPushes_uploadCall (n : String) (b : Bytes) (e : Bool) (t : List Event) :
    globalPushes (Event.uploadCall n b e :: t) = globalPushes t := rfl

@[simp] lemma globalPushes_skipExisting (pid : String) (t : List Event) :
    globalPushes (Event.skipExisting pid :: t) = globalPushes t := rfl

@[simp] lemma globalPushes_thenBranch (pid : String) (t : List Event) :
    globalPushes (Event.thenBranch pid :: t) = globalPushes t := rfl

@[simp] lemma globalPushes_elseBranch (pid : String) (t : List Event) :
    globalPushes (Event.elseBranch pid :: t) = globalPushes t := rfl

@[simp] lemma globalPushes_cancelExit (pid : String) (t : List Event) :
    globalPushes (Event.cancelExit pid :: t) = globalPushes t := rfl

@[simp] lemma globalPushes_noDataExit (pid : String) (t : List Event) :
    globalPushes (Event.noDataExit pid :: t) = globalPushes t := rfl

@[simp] lemma invokedIds_nil : invokedIds [] = [] := rfl

@[simp] lemma invokedIds_append (a b : List Event) :
    invokedIds (a ++ b) = invokedIds a ++ invokedIds b :=
  List.filterMap_append a b _

@[simp] lemma invokedIds_push (p : PushPayload) (t : List Event) :
    invokedIds (Event.push p :: t) = invokedIds t := rfl

@[simp] lemma invokedIds_timer (pid : String) (t : List Event) :
    invokedIds (Event.timer pid :: t) = invokedIds t := rfl

@[simp] lemma invokedIds_wait (n : ℕ) (t : List Event) :
    invokedIds (Event.wait n :: t) = invokedIds t := rfl

@[simp] lemma invokedIds_attemptStart (pid : String) (t : List Event) :
    invokedIds (Event.attemptStart pid :: t) = invokedIds t := rfl

@[simp] lemma invokedIds_invoke (pid : String) (t : List Event) :
    invokedIds (Event.invoke pid :: t) = pid :: invokedIds t := rfl

@[simp] lemma invokedIds_uploadCall (n : String) (b : Bytes) (e : Bool) (t : List Event) :
    invokedIds (Event.uploadCall n b e :: t) = invokedIds t := rfl

@[simp] lemma invokedIds_skipExisting (pid : String) (t : List Event) :
    invokedIds (Event.skipExisting pid :: t) = invokedIds t := rfl

@[simp] lemma invokedIds_thenBranch (pid : String) (t : List Event) :
    invokedIds (Event.thenBranch pid :: t) = invokedIds t := rfl

@[simp] lemma invokedIds_elseBranch (pid : String) (t : List Event) :
    invokedIds (Event.elseBranch pid :: t) = invokedIds t := rfl

@[simp] lemma invokedIds_cancelExit (pid : String) (t : List Event) :
    invokedIds (Event.cancelExit pid :: t) = invokedIds t := rfl

@[simp] lemma invokedIds_noDataExit (pid : String) (t : List Event) :
    invokedIds (Event.noDataExit pid :: t) = invokedIds t := rfl

@[simp] lemma waitsOf_nil : waitsOf [] = [] := rfl

@[simp] lemma waitsOf_append (a b : List Event) :
    waitsOf (a ++ b) = waitsOf a ++ waitsOf b :=
  List.filterMap_append a b _

@[simp] lemma waitsOf_push (p : PushPayload) (t : List Event) :
    waitsOf (Event.push p :: t) = waitsOf t := rfl

@[simp] lemma waitsOf_timer (pid : String) (t : List Event) :
    waitsOf (Event.timer pid :: t) = waitsOf t := rfl

@[simp] lemma waitsOf_wait (n : ℕ) (t : List Event) :
    waitsOf (Event.wait n :: t) = n :: waitsOf t := rfl

@[simp] lemma waitsOf_attemptStart (pid : String) (t : List Event) :
    waitsOf (Event.attemptStart pid :: t) = waitsOf t := rfl

@[simp] lemma waitsOf_invoke (pid : String) (t : List Event) :
    waitsOf (Event.invoke pid :: t) = waitsOf t := rfl

@[simp] lemma waitsOf_uploadCall (n : String) (b : Bytes) (e : Bool) (t : List Event) :
    waitsOf (Event.uploadCall n b e :: t) = waitsOf t := rfl

@[simp] lemma waitsOf_skipExisting (pid : String) (t : List Event) :
    waitsOf (Event.skipExisting pid :: t) = waitsOf t := rfl

@[simp] lemma waitsOf_thenBranch (pid : String) (t : List Event) :
    waitsOf (Event.thenBranch pid :: t) = waitsOf t := rfl

@[simp] lemma waitsOf_elseBranch (pid : String) (t : List Event) :
    waitsOf (Event.elseBranch pid :: t) = waitsOf t := rfl

@[simp] lemma waitsOf_cancelExit (pid : String) (t : List Event) :
    waitsOf (Event.cancelExit pid :: t) = waitsOf t := rfl

@[simp] lemma waitsOf_noDataExit (pid : String) (t : List Event) :
    waitsOf (Event.noDataExit pid :: t) = waitsOf t := rfl

@[simp] lemma attemptStarts_nil : attemptStarts [] = [] := rfl

@[simp] lemma attemptStarts_append (a b : List Event) :
    attemptStarts (a ++ b) = attemptStarts a ++ attemptStarts b :=
  List.filterMap_append a b _

@[simp] lemma attemptStarts_push (p : PushPayload) (t : List Event) :
    attemptStarts (Event.push p :: t) = attemptStarts t := rfl

@[simp] lemma attemptStarts_timer (pid : String) (t : List Event) :
    attemptStarts (Event.timer pid :: t) = attemptStarts t := rfl

@[simp] lemma attemptStarts_wait (n : ℕ) (t : List Event) :
    attemptStarts (Event.wait n :: t) = attemptStarts t := rfl

@[simp] lemma attemptStarts_attemptStart (pid : String) (t : List Event) :
    attemptStarts (Event.attemptStart pid :: t) = pid :: attemptStarts t := rfl

@[simp] lemma attemptStarts_invoke (pid : String) (t : List Event) :
    attemptStarts (Event.invoke pid :: t) = attemptStarts t := rfl

@[simp] lemma attemptStarts_uploadCall (n : String) (b : Bytes) (e : Bool) (t : List Event) :
    attemptStarts (Event.uploadCall n b e :: t) = attemptStarts t := rfl

@[simp] lemma attemptStarts_skipExisting (pid : String) (t : List Event) :
    attemptStarts (Event.skipExisting pid :: t) = attemptStarts t := rfl

@[simp] lemma attemptStarts_thenBranch (pid : String) (t : List Event) :
    attemptStarts (Event.thenBranch pid :: t) = attemptStarts t := rfl

@[simp] lemma attemptStarts_elseBranch (pid : String) (t : List Event) :
    attemptStarts (Event.elseBranch pid :: t) = attemptStarts t := rfl

@[simp] lemma attemptStarts_cancelExit (pid : String) (t : List Event) :
    attemptStarts (Event.cancelExit pid :: t) = attemptStarts t := rfl

@[simp] lemma attemptStarts_noDataExit (pid : String) (t : List Event) :
    attemptStarts (Event.noDataExit pid :: t) = attemptStarts t := rfl

@[simp] lemma uploadCallsOf_nil : uploadCallsOf [] = [] := rfl

@[simp] lemma uploadCallsOf_append (a b : List Event) :
    uploadCallsOf (a ++ b) = uploadCallsOf a ++ uploadCallsOf b :=
  List.filterMap_append a b _

@[simp] lemma uploadCallsOf_push (p : PushPayload) (t : List Event) :
    uploadCallsOf (Event.push p :: t) = uploadCallsOf t := rfl

@[simp] lemma uploadCallsOf_timer (pid : String) (t : List Event) :
    uploadCallsOf (Event.timer pid :: t) = uploadCallsOf t := rfl

@[simp] lemma uploadCallsOf_wait (n : ℕ) (t : List Event) :
    uploadCallsOf (Event.wait n :: t) = uploadCallsOf t := rfl

@[simp] lemma uploadCallsOf_attemptStart (pid : String) (t : List Event) :
    uploadCallsOf (Event.attemptStart pid :: t) = uploadCallsOf t := rfl

@[simp] lemma uploadCallsOf_invoke (pid : String) (t : List Event) :
    uploadCallsOf (Event.invoke pid :: t) = uploadCallsOf t := rfl

@[simp] lemma uploadCallsOf_uploadCall (n : String) (b : Bytes) (e : Bool) (t : List Event) :
    uploadCallsOf (Event.uploadCall n b e :: t) = (n, b, e) :: uploadCallsOf t := rfl

@[simp] lemma uploadCallsOf_skipExisting (pid : String) (t : List Event) :
    uploadCallsOf (Event.skipExisting pid :: t) = uploadCallsOf t := rfl

@[simp] lemma uploadCallsOf_thenBranch (pid : String) (t : List Event) :
    uploadCallsOf (Event.thenBranch pid :: t) = uploadCallsOf t := rfl

@[simp] lemma uploadCallsOf_elseBranch (pid : String) (t : List Event) :
    uploadCallsOf (Event.elseBranch pid :: t) = uploadCallsOf t := rfl

@[simp] lemma uploadCallsOf_cancelExit (pid : String) (t : List Event) :
    uploadCallsOf (Event.cancelExit pid :: t) = uploadCallsOf t := rfl

@[simp] lemma uploadCallsOf_noDataExit (pid : String) (t : List Event) :
    uploadCallsOf (Event.noDataExit pid :: t) = uploadCallsOf t := rfl

@[simp] lemma pushedTPs_def (tr : List Event) :
    pushedTPs tr = (globalPushes tr).map GlobalState.totalProgress := rfl

@[simp] lemma hasGlobalMessage_def (tr : List Event) (msg : String) :
    hasGlobalMessage tr msg = (globalPushes tr).any fun g => g.message == msg := rfl

@[simp] lemma globalPushes_map_timer (l : List String) :
    globalPushes (l.map Event.timer) = [] := by
  induction l with
  | nil => rfl
  | cons a t ih => simp [ih]

@[simp] lemma invokedIds_map_push (l : List PushPayload) :
    invokedIds (l.map Event.push) = [] := by
  induction l with
  | nil => rfl
  | cons a t ih => simp [ih]

@[simp] lemma invokedIds_map_timer (l : List String) :
    invokedIds (l.map Event.timer) = [] := by
  induction l with
  | nil => rfl
  | cons a t ih => simp [ih]

@[simp] lemma waitsOf_map_push (l : List PushPayload) :
    waitsOf (l.map Event.push) = [] := by
  induction l with
  | nil => rfl
  | cons a t ih => simp [ih]

@[simp] lemma waitsOf_map_timer (l : List String) :
    waitsOf (l.map Event.timer) = [] := by
  induction l with
  | nil => rfl
  | cons a t ih => simp [ih]

@[simp] lemma attemptStarts_map_push (l : List PushPayload) :
    attemptStarts (l.map Event.push) = [] := by
  induction l with
  | nil => rfl
  | cons a t ih => simp [ih]

@[simp] lemma attemptStarts_map_timer (l : List String) :
    attemptStarts (l.map Event.timer) = [] := by
  induction l with
  | nil => rfl
  | cons a t ih => simp [ih]

@[simp] lemma uploadCallsOf_map_push (l : List PushPayload) :
    uploadCallsOf (l.map Event.push) = [] := by
  induction l with
  | nil => rfl
  | cons a t ih => simp [ih]

@[simp] lemma uploadCallsOf_map_timer (l : List String) :
    uploadCallsOf (l.map Event.timer) = [] := by
  induction l with
  | nil => rfl
  | cons a t ih => simp [ih]

@[simp] lemma runUpdate_uploadCalls (s : StoreState) (p : Patch) :
    uploadCallsOf (runUpdate s p).2 = [] := by
  simp [runUpdate]

@[simp] lemma runUpdate_waits (s : StoreState) (p : Patch) :
    waitsOf (runUpdate s p).2 = [] := by
  simp [runUpdate]

@[simp] lemma runUpdate_attemptStarts (s : StoreState) (p : Patch) :
    attemptStarts (runUpdate s p).2 = [] := by
  simp [runUpdate]

@[simp] lemma runUpdate_invokes (s : StoreState) (p : Patch) :
    invokedIds (runUpdate s p).2 = [] := by
  simp [runUpdate]

@[simp] lemma batchCb_uploadCalls (p : Patch) (s : StoreState) :
    uploadCallsOf (batchCb p s).2 = [] :=
  runUpdate_uploadCalls s _

@[simp] lemma batchCb_waits (p : Patch) (s : StoreState) :
    waitsOf (batchCb p s).2 = [] :=
  runUpdate_waits s _

@[simp] lemma batchCb_attemptStarts (p : Patch) (s : StoreState) :
    attemptStarts (batchCb p s).2 = [] :=
  runUpdate_attemptStarts s _

@[simp] lemma batchCb_invokes (p : Patch) (s : StoreState) :
    invokedIds (batchCb p s).2 = [] :=
  runUpdate_invokes s _

@[simp] lemma cbStream_uploadCalls (mk : ℕ → Patch) :
    ∀ (pcts : List ℕ) (s : StoreState), uploadCallsOf (cbStream batchCb mk pcts s).2 = []
  | [], s => rfl
  | pct :: rest, s => by
    simp only [cbStream, uploadCallsOf_append]
    rw [cbStream_uploadCalls mk rest]
    simp [batchCb]

@[simp] lemma cbStream_waits (mk : ℕ → Patch) :
    ∀ (pcts : List ℕ) (s : StoreState), waitsOf (cbStream batchCb mk pcts s).2 = []
  | [], s => rfl
  | pct :: rest, s => by
    simp only [cbStream, waitsOf_append]
    rw [cbStream_waits mk rest]
    simp [batchCb]

@[simp] lemma cbStream_attemptStarts (mk : ℕ → Patch) :
    ∀ (pcts : List ℕ) (s : StoreState), attemptStarts (cbStream batchCb mk pcts s).2 = []
  | [], s => rfl
  | pct :: rest, s => by
    simp only [cbStream, attemptStarts_append]
    rw [cbStream_attemptStarts mk rest]
    simp [batchCb]

@[simp] lemma cbStream_invokes (mk : ℕ → Patch) :
    ∀ (pcts : List ℕ) (s : StoreState), invokedIds (cbStream batchCb mk pcts s).2 = []
  | [], s => rfl
  | pct :: rest, s => by
    simp only [cbStream, invokedIds_append]
    rw [cbStream_invokes mk rest]
    simp [batchCb]

/-! ## Arithmetic of the rounded percentage -/

lemma pctRound_mono {a b : ℕ} (den : ℕ) (h : a ≤ b) :
    pctRound a den ≤ pctRound b den := by
  unfold pctRound
  exact Nat.div_le_div_right (by omega)

lemma pctRound_self {den : ℕ} (h : 0 < den) : pctRound den den = 100 := by
  unfold pctRound
  exact Nat.div_eq_of_lt_le (by omega) (by omega)

/-! ## Preservation lemmas

`PresAll s s1 evs` says a computation step from store `s` to store `s1` with
new events `evs` kept the socket, the per-photo records and `totalProgress`
unchanged, emitted no Transfer Unit invocation marker, and every global
record it pushed still carried the incoming `totalProgress`.  Every update
performed inside `processPhoto` (in batch mode) is of this kind, even a
concurrently delivered cancellation. -/

lemma runUpdate_global (s : StoreState) (p : Patch) (h : p.photoId = none) :
    runUpdate s p =
      ({ s with global := mergeGlobal s.global p },
        if s.hasSocket then [Event.push (PushPayload.global (mergeGlobal s.global p))] else []) := by
  simp [runUpdate, updateState, jsTruthyStr, h, apply_ite (List.map Event.push)]

lemma batchCb_eq (p : Patch) (s : StoreState) :
    batchCb p s = runUpdate s { p with photoId := none } := rfl

def PresAll (s s1 : StoreState) (evs : List Event) : Prop :=
  s1.hasSocket = s.hasSocket ∧ s1.individual = s.individual ∧
  s1.global.totalProgress = s.global.totalProgress ∧
  invokedIds evs = [] ∧
  ∀ g ∈ globalPushes evs, g.totalProgress = s.global.totalProgress

lemma PresAll.nil (s : StoreState) : PresAll s s [] :=
  ⟨rfl, rfl, rfl, rfl, by simp⟩

lemma PresAll.trans {s s1 s2 : StoreState} {e1 e2 : List Event}
    (h1 : PresAll s s1 e1) (h2 : PresAll s1 s2 e2) : PresAll s s2 (e1 ++ e2) := by
  obtain ⟨a1, b1, c1, i1, d1⟩ := h1
  obtain ⟨a2, b2, c2, i2, d2⟩ := h2
  refine ⟨a2.trans a1, b2.trans b1, c2.trans c1, by simp [i1, i2], ?_⟩
  intro g hg
  rw [globalPushes_append] at hg
  rcases List.mem_append.mp hg with hg | hg
  · exact d1 g hg
  · exact (d2 g hg).trans c1

lemma PresAll.extend {s s1 : StoreState} {e1 : List Event} (h : PresAll s s1 e1)
    (extra : List Event) (hg : globalPushes extra = []) (hi : invokedIds extra = []) :
    PresAll s s1 (e1 ++ extra) := by
  obtain ⟨a, b, c, i, d⟩ := h
  refine ⟨a, b, c, by simp [i, hi], ?_⟩
  intro g hgm
  rw [globalPushes_append, hg, List.append_nil] at hgm
  exact d g hgm

lemma PresAll.preGhost {s s1 : StoreState} {e1 : List Event} (h : PresAll s s1 e1)
    (extra : List Event) (hg : globalPushes extra = []) (hi : invokedIds extra = []) :
    PresAll s s1 (extra ++ e1) := by
  obtain ⟨a, b, c, i, d⟩ := h
  refine ⟨a, b, c, by simp [i, hi], ?_⟩
  intro g hgm
  rw [globalPushes_append, hg, List.nil_append] at hgm
  exact d g hgm

lemma runUpdate_presAll (s : StoreState) (p : Patch) (h : p.photoId = none)
    (htp : p.totalProgress = none) :
    PresAll s (runUpdate s p).1 (runUpdate s p).2 := by
  rw [runUpdate_global s p h]
  refine ⟨rfl, rfl, by simp [mergeGlobal, htp], ?_, ?_⟩
  · by_cases hs : s.hasSocket <;> simp [hs]
  · intro g hg
    by_cases hs : s.hasSocket <;> simp [hs] at hg
    rw [hg]
    simp [mergeGlobal, htp]

lemma runUpdate_cancelled (s : StoreState) (p : Patch) (h : p.photoId = none)
    (hc : p.cancelled = none) :
    (runUpdate s p).1.global.cancelled = s.global.cancelled := by
  rw [runUpdate_global s p h]
  simp [mergeGlobal, hc]

lemma applyCancel_presAll (s : StoreState) : PresAll s (applyCancel s).1 (applyCancel s).2 :=
  runUpdate_presAll s cancelPatch rfl rfl

lemma applyCancel_cancelled (s : StoreState) : (applyCancel s).1.global.cancelled = true := by
  rw [applyCancel, runUpdate_global _ _ rfl]
  simp [mergeGlobal, cancelPatch, Patch.empty]

lemma batchCb_presAll (p : Patch) (s : StoreState) (htp : p.totalProgress = none) :
    PresAll s (batchCb p s).1 (batchCb p s).2 := by
  rw [batchCb_eq]
  exact runUpdate_presAll s _ rfl htp

lemma batchCb_cancelled (p : Patch) (s : StoreState) (hc : p.cancelled = none) :
    (batchCb p s).1.global.cancelled = s.global.cancelled := by
  rw [batchCb_eq]
  exact runUpdate_cancelled s _ rfl hc

lemma cbStream_presAll (mk : ℕ → Patch) (htp : ∀ pct, (mk pct).totalProgress = none) :
    ∀ (pcts : List ℕ) (s : StoreState),
      PresAll s (cbStream batchCb mk pcts s).1 (cbStream batchCb mk pcts s).2
  | [], s => by
    simp only [cbStream]
    exact PresAll.nil s
  | pct :: rest, s => by
    have h1 := batchCb_presAll (mk pct) s (htp pct)
    have h2 := cbStream_presAll mk htp rest (batchCb (mk pct) s).1
    simpa only [cbStream] using h1.trans h2

lemma cbStream_cancelled (mk : ℕ → Patch) (hc : ∀ pct, (mk pct).cancelled = none) :
    ∀ (pcts : List ℕ) (s : StoreState),
      (cbStream batchCb mk pcts s).1.global.cancelled = s.global.cancelled
  | [], s => by simp only [cbStream]
  | pct :: rest, s => by
    have h1 := batchCb_cancelled (mk pct) s (hc pct)
    have h2 := cbStream_cancelled mk hc rest (batchCb (mk pct) s).1
    simp only [cbStream]
    exact h2.trans h1

lemma caughtStep_presAll (pid : String) (attempts : ℕ) (jd : Option Bytes)
    (s : StoreState) (m : String) :
    PresAll s (caughtStep batchCb pid attempts jd s m).1
      (caughtStep batchCb pid attempts jd s m).2.1 := by
  unfold caughtStep
  by_cases h : (jsIncludes m "pack" && decide (attempts < 3)) = true
  · rw [if_pos h]
    dsimp only
    have h1 := batchCb_presAll (retryMsgPatch pid (attempts + 1)) s rfl
    by_cases h3 : attempts + 1 = 3
    · rw [if_pos h3]
      have h2 := batchCb_presAll (finalMsgPatch pid)
        (batchCb (retryMsgPatch pid (attempts + 1)) s).1 rfl
      exact (h1.trans h2).extend [Event.wait (1000 * (attempts + 1))] rfl rfl
    · rw [if_neg h3]
      exact (h1.extend [] rfl rfl).extend [Event.wait (1000 * (attempts + 1))] rfl rfl
  · rw [if_neg h]
    exact PresAll.nil s

lemma caughtStep_cancelled (pid : String) (attempts : ℕ) (jd : Option Bytes)
    (s : StoreState) (m : String) :
    (caughtStep batchCb pid attempts jd s m).1.global.cancelled = s.global.cancelled := by
  unfold caughtStep
  by_cases h : (jsIncludes m "pack" && decide (attempts < 3)) = true
  · rw [if_pos h]
    dsimp only
    by_cases h3 : attempts + 1 = 3
    · rw [if_pos h3]
      exact (batchCb_cancelled _ _ rfl).trans (batchCb_cancelled _ _ rfl)
    · rw [if_neg h3]
      exact batchCb_cancelled _ _ rfl
  · rw [if_neg h]

lemma oneAttempt_presAll (env : TransferEnv) (photo : Photo) (attempts : ℕ)
    (jd : Option Bytes) (s : StoreState) :
    PresAll s (oneAttempt env batchCb photo attempts jd s).1
      (oneAttempt env batchCb photo attempts jd s).2.1 := by
  unfold oneAttempt
  have h0 := batchCb_presAll (dlStartPatch photo.photoId.id) s rfl
  have h0g := h0.preGhost [Event.attemptStart photo.photoId.id] rfl rfl
  cases hdl : env.download attempts with
  | err m =>
    simp only [hdl]
    by_cases hc : env.cancelDuringDownload attempts = true
    · rw [if_pos hc]
      exact (h0g.trans (applyCancel_presAll _)).trans (caughtStep_presAll _ _ _ _ _)
    · rw [if_neg hc]
      exact (h0g.trans (PresAll.nil _)).trans (caughtStep_presAll _ _ _ _ _)
  | ok pd =>
    obtain ⟨pcts, data⟩ := pd
    simp only [hdl]
    have h1 := cbStream_presAll (dlPctPatch photo.photoId.id) (fun _ => rfl) pcts
      (batchCb (dlStartPatch photo.photoId.id) s).1
    by_cases hc : env.cancelDuringDownload attempts = true
    · rw [if_pos hc]
      have hacc := (h0g.trans h1).trans (applyCancel_presAll _)
      by_cases hcc : (applyCancel (cbStream batchCb (dlPctPatch photo.photoId.id) pcts
          (batchCb (dlStartPatch photo.photoId.id) s).1).1).1.global.cancelled = true
      · rw [if_pos hcc]
        exact (hacc.trans (batchCb_presAll (cancelMsgPatch photo.photoId.id) _ rfl)).extend
          [Event.cancelExit photo.photoId.id] rfl rfl
      · rw [if_neg hcc]
        cases hl : env.piexif.load data with
        | err m =>
          simp only [hl]
          exact hacc.trans (caughtStep_presAll _ _ _ _ _)
        | ok exifObj =>
          simp only [hl]
          cases hd : env.piexif.dump (applyPose exifObj photo) with
          | err m =>
            simp only [hd]
            exact hacc.trans (caughtStep_presAll _ _ _ _ _)
          | ok exifbytes =>
            simp only [hd]
            cases hi : env.piexif.insert exifbytes data with
            | err m =>
              simp only [hi]
              exact hacc.trans (caughtStep_presAll _ _ _ _ _)
            | ok newData =>
              simp only [hi]
              exact hacc
    · rw [if_neg hc]
      have hacc := (h0g.trans h1).trans (PresAll.nil _)
      by_cases hcc : (cbStream batchCb (dlPctPatch photo.photoId.id) pcts
          (batchCb (dlStartPatch photo.photoId.id) s).1).1.global.cancelled = true
      · rw [if_pos hcc]
        exact (hacc.trans (batchCb_presAll (cancelMsgPatch photo.photoId.id) _ rfl)).extend
          [Event.cancelExit photo.photoId.id] rfl rfl
      · rw [if_neg hcc]
        cases hl : env.piexif.load data with
        | err m =>
          simp only [hl]
          exact hacc.trans (caughtStep_presAll _ _ _ _ _)
        | ok exifObj =>
          simp only [hl]
          cases hd : env.piexif.dump (applyPose exifObj photo) with
          | err m =>
            simp only [hd]
            exact hacc.trans (caughtStep_presAll _ _ _ _ _)
          | ok exifbytes =>
            simp only [hd]
            cases hi : env.piexif.insert exifbytes data with
            | err m =>
              simp only [hi]
              exact hacc.trans (caughtStep_presAll _ _ _ _ _)
            | ok newData =>
              simp only [hi]
              exact hacc

/-- No concurrent cancellation is delivered during this Transfer Unit
invocation. -/
def ItemTame (e : TransferEnv) : Prop :=
  (∀ k, e.cancelDuringDownload k = false) ∧ e.cancelDuringFind = false

lemma caughtStep_out (pid : String) (attempts : ℕ) (jd : Option Bytes)
    (s : StoreState) (m : String) :
    (caughtStep batchCb pid attempts jd s m).2.2.2 = IterOut.packRetry ∨
    (caughtStep batchCb pid attempts jd s m).2.2.2 = IterOut.thrownIter m := by
  unfold caughtStep
  by_cases h : (jsIncludes m "pack" && decide (attempts < 3)) = true
  · rw [if_pos h]
    exact Or.inl rfl
  · rw [if_neg h]
    exact Or.inr rfl

lemma oneAttempt_tame (env : TransferEnv) (photo : Photo) (attempts : ℕ)
    (jd : Option Bytes) (s : StoreState)
    (hflip : env.cancelDuringDownload attempts = false)
    (hc : s.global.cancelled = false) :
    (oneAttempt env batchCb photo attempts jd s).1.global.cancelled = false ∧
    (oneAttempt env batchCb photo attempts jd s).2.2.2 ≠ IterOut.cancelledIter := by
  unfold oneAttempt
  have hc0 : (batchCb (dlStartPatch photo.photoId.id) s).1.global.cancelled = false :=
    (batchCb_cancelled _ _ rfl).trans hc
  cases hdl : env.download attempts with
  | err m =>
    simp only [hdl, hflip]
    rw [if_neg (by decide : ¬(false = true))]
    refine ⟨(caughtStep_cancelled _ _ _ _ _).trans hc0, ?_⟩
    rcases caughtStep_out photo.photoId.id attempts jd
        (batchCb (dlStartPatch photo.photoId.id) s).1 m with h | h <;> simp [h]
  | ok pd =>
    obtain ⟨pcts, data⟩ := pd
    simp only [hdl, hflip]
    rw [if_neg (by decide : ¬(false = true))]
    have hc1 : (cbStream batchCb (dlPctPatch photo.photoId.id) pcts
        (batchCb (dlStartPatch photo.photoId.id) s).1).1.global.cancelled = false :=
      (cbStream_cancelled (dlPctPatch photo.photoId.id) (fun _ => rfl) pcts _).trans hc0
    rw [hc1, if_neg (by decide : ¬(false = true))]
    cases hl : env.piexif.load data with
    | err m =>
      simp only [hl]
      refine ⟨(caughtStep_cancelled _ _ _ _ _).trans hc1, ?_⟩
      rcases caughtStep_out photo.photoId.id attempts (some data)
          (cbStream batchCb (dlPctPatch photo.photoId.id) pcts
            (batchCb (dlStartPatch photo.photoId.id) s).1).1 m with h | h <;> simp [h]
    | ok exifObj =>
      simp only [hl]
      cases hd : env.piexif.dump (applyPose exifObj photo) with
      | err m =>
        simp only [hd]
        refine ⟨(caughtStep_cancelled _ _ _ _ _).trans hc1, ?_⟩
        rcases caughtStep_out photo.photoId.id attempts (some data)
            (cbStream batchCb (dlPctPatch photo.photoId.id) pcts
              (batchCb (dlStartPatch photo.photoId.id) s).1).1 m with h | h <;> simp [h]
      | ok exifbytes =>
        simp only [hd]
        cases hi : env.piexif.insert exifbytes data with
        | err m =>
          simp only [hi]
          refine ⟨(caughtStep_cancelled _ _ _ _ _).trans hc1, ?_⟩
          rcases caughtStep_out photo.photoId.id attempts (some data)
              (cbStream batchCb (dlPctPatch photo.photoId.id) pcts
                (batchCb (dlStartPatch photo.photoId.id) s).1).1 m with h | h <;> simp [h]
        | ok newData =>
          simp only [hi]
          exact ⟨hc1, by simp⟩

lemma embedAttempts_presAll (env : TransferEnv) (photo : Photo) :
    ∀ (fuel attempts : ℕ) (jd : Option Bytes) (s : StoreState),
      PresAll s (embedAttempts env batchCb photo fuel attempts jd s).1
        (embedAttempts env batchCb photo fuel attempts jd s).2.1
  | 0, attempts, jd, s => by
    simp only [embedAttempts]
    exact PresAll.nil s
  | fuel + 1, attempts, jd, s => by
    have h1 := oneAttempt_presAll env photo attempts jd s
    simp only [embedAttempts]
    cases ho : (oneAttempt env batchCb photo attempts jd s).2.2.2 with
    | broke nj =>
      simp only [ho]
      exact h1
    | cancelledIter =>
      simp only [ho]
      exact h1
    | thrownIter m =>
      simp only [ho]
      exact h1
    | packRetry =>
      simp only [ho]
      exact h1.trans (embedAttempts_presAll env photo fuel (attempts + 1) _ _)

lemma embedAttempts_tame (env : TransferEnv) (photo : Photo)
    (hflip : ∀ k, env.cancelDuringDownload k = false) :
    ∀ (fuel attempts : ℕ) (jd : Option Bytes) (s : StoreState),
      s.global.cancelled = false →
      (embedAttempts env batchCb photo fuel attempts jd s).1.global.cancelled = false ∧
      (embedAttempts env batchCb photo fuel attempts jd s).2.2.2 ≠ LoopOut.cancelledLoop
  | 0, attempts, jd, s, hc => by
    simp only [embedAttempts]
    exact ⟨hc, by simp⟩
  | fuel + 1, attempts, jd, s, hc => by
    have h1 := oneAttempt_tame env photo attempts jd s (hflip attempts) hc
    simp only [embedAttempts]
    cases ho : (oneAttempt env batchCb photo attempts jd s).2.2.2 with
    | broke nj =>
      simp only [ho]
      exact ⟨h1.1, by simp⟩
    | cancelledIter => exact absurd ho h1.2
    | thrownIter m =>
      simp only [ho]
      exact ⟨h1.1, by simp⟩
    | packRetry =>
      simp only [ho]
      exact embedAttempts_tame env photo hflip fuel (attempts + 1) _ _ h1.1

lemma uploadPhase_presAll (env : TransferEnv) (photo : Photo) (nj : Bytes) (s : StoreState) :
    PresAll s (uploadPhase env batchCb photo nj s).1 (uploadPhase env batchCb photo nj s).2.1 := by
  unfold uploadPhase
  cases hf : env.findFile with
  | err m =>
    simp only [hf]
    exact PresAll.nil s
  | ok existingFile =>
    simp only [hf]
    have hrc : PresAll s (if env.cancelDuringFind then applyCancel s else (s, [])).1
        (if env.cancelDuringFind then applyCancel s else (s, [])).2 := by
      by_cases hc : env.cancelDuringFind = true
      · rw [if_pos hc]
        exact applyCancel_presAll s
      · rw [if_neg hc]
        exact PresAll.nil s
    have h1 := batchCb_presAll (upStartPatch photo.photoId.id)
      (if env.cancelDuringFind then applyCancel s else (s, [])).1 rfl
    have h2 := runUpdate_presAll (batchCb (upStartPatch photo.photoId.id)
      (if env.cancelDuringFind then applyCancel s else (s, [])).1).1 statusUploadingPatch rfl rfl
    have hacc := (hrc.trans h1).trans h2
    cases existingFile with
    | some f =>
      cases hu : env.updateFile f.id nj with
      | err m =>
        simp only [hu]
        exact hacc
      | ok pf =>
        obtain ⟨pcts, file⟩ := pf
        simp only [hu]
        exact (hacc.extend [Event.uploadCall (photo.photoId.id ++ ".jpg") nj true] rfl rfl).trans
          (cbStream_presAll (upPctPatch photo.photoId.id) (fun _ => rfl) pcts _)
    | none =>
      cases hu : env.createFile (photo.photoId.id ++ ".jpg") nj with
      | err m =>
        simp only [hu]
        exact hacc
      | ok pf =>
        obtain ⟨pcts, file⟩ := pf
        simp only [hu]
        exact (hacc.extend [Event.uploadCall (photo.photoId.id ++ ".jpg") nj false] rfl rfl).trans
          (cbStream_presAll (upPctPatch photo.photoId.id) (fun _ => rfl) pcts _)

lemma uploadPhase_cancelled (env : TransferEnv) (photo : Photo) (nj : Bytes) (s : StoreState)
    (hfind : env.cancelDuringFind = false) (hc : s.global.cancelled = false) :
    (uploadPhase env batchCb photo nj s).1.global.cancelled = false := by
  unfold uploadPhase
  cases hf : env.findFile with
  | err m =>
    simp only [hf]
    exact hc
  | ok existingFile =>
    simp only [hf, hfind]
    rw [if_neg (by decide : ¬(false = true))]
    have hc2 : (runUpdate (batchCb (upStartPatch photo.photoId.id) s).1
        statusUploadingPatch).1.global.cancelled = false :=
      (runUpdate_cancelled _ _ rfl rfl).trans ((batchCb_cancelled _ _ rfl).trans hc)
    cases existingFile with
    | some f =>
      cases hu : env.updateFile f.id nj with
      | err m =>
        simp only [hu]
        exact hc2
      | ok pf =>
        obtain ⟨pcts, file⟩ := pf
        simp only [hu]
        exact (cbStream_cancelled (upPctPatch photo.photoId.id) (fun _ => rfl) pcts _).trans hc2
    | none =>
      cases hu : env.createFile (photo.photoId.id ++ ".jpg") nj with
      | err m =>
        simp only [hu]
        exact hc2
      | ok pf =>
        obtain ⟨pcts, file⟩ := pf
        simp only [hu]
        exact (cbStream_cancelled (upPctPatch photo.photoId.id) (fun _ => rfl) pcts _).trans hc2

lemma uploadPhase_cancelTrue (env : TransferEnv) (photo : Photo) (nj : Bytes) (s : StoreState)
    (hfind : env.cancelDuringFind = true) (f : FileRef) :
    (uploadPhase env batchCb photo nj s).2.2 = PPOut.retFile f →
    (uploadPhase env batchCb photo nj s).1.global.cancelled = true := by
  unfold uploadPhase
  cases hf : env.findFile with
  | err m =>
    simp only [hf]
    intro h
    exact absurd h (by simp)
  | ok existingFile =>
    simp only [hf, hfind]
    rw [if_pos trivial]
    have hc2 : (runUpdate (batchCb (upStartPatch photo.photoId.id) (applyCancel s).1).1
        statusUploadingPatch).1.global.cancelled = true :=
      (runUpdate_cancelled _ _ rfl rfl).trans
        ((batchCb_cancelled _ _ rfl).trans (applyCancel_cancelled s))
    cases existingFile with
    | some f1 =>
      cases hu : env.updateFile f1.id nj with
      | err m =>
        simp only [hu]
        intro h
        exact absurd h (by simp)
      | ok pf =>
        obtain ⟨pcts, file⟩ := pf
        simp only [hu]
        intro _
        exact (cbStream_cancelled (upPctPatch photo.photoId.id) (fun _ => rfl) pcts _).trans hc2
    | none =>
      cases hu : env.createFile (photo.photoId.id ++ ".jpg") nj with
      | err m =>
        simp only [hu]
        intro h
        exact absurd h (by simp)
      | ok pf =>
        obtain ⟨pcts, file⟩ := pf
        simp only [hu]
        intro _
        exact (cbStream_cancelled (upPctPatch photo.photoId.id) (fun _ => rfl) pcts _).trans hc2

lemma processPhoto_presAll (env : TransferEnv) (photo : Photo) (s : StoreState) :
    PresAll s (processPhoto env batchCb photo s).1 (processPhoto env batchCb photo s).2.1 := by
  unfold processPhoto
  have h1 := embedAttempts_presAll env photo 3 0 none s
  cases he : (embedAttempts env batchCb photo 3 0 none s).2.2.2 with
  | cancelledLoop =>
    simp only [he]
    exact h1
  | thrownLoop m =>
    simp only [he]
    exact h1
  | broke nj =>
    simp only [he]
    exact h1.trans (uploadPhase_presAll env photo nj _)
  | exhausted =>
    simp only [he]
    cases hj : (embedAttempts env batchCb photo 3 0 none s).2.2.1 with
    | some j =>
      simp only [hj]
      exact h1.trans (uploadPhase_presAll env photo j _)
    | none =>
      simp only [hj]
      exact h1.extend [Event.noDataExit photo.photoId.id] rfl rfl

lemma processPhoto_tame (env : TransferEnv) (photo : Photo) (s : StoreState)
    (htame : ItemTame env) (hc : s.global.cancelled = false) :
    (processPhoto env batchCb photo s).1.global.cancelled = false := by
  unfold processPhoto
  have h1 := embedAttempts_tame env photo htame.1 3 0 none s hc
  cases he : (embedAttempts env batchCb photo 3 0 none s).2.2.2 with
  | cancelledLoop => exact absurd he h1.2
  | thrownLoop m =>
    simp only [he]
    exact h1.1
  | broke nj =>
    simp only [he]
    exact uploadPhase_cancelled env photo nj _ htame.2 h1.1
  | exhausted =>
    simp only [he]
    cases hj : (embedAttempts env batchCb photo 3 0 none s).2.2.1 with
    | some j =>
      simp only [hj]
      exact uploadPhase_cancelled env photo j _ htame.2 h1.1
    | none =>
      simp only [hj]
      exact h1.1

lemma processPhoto_cancelTrue (env : TransferEnv) (photo : Photo) (s : StoreState)
    (hflip : ∀ k, env.cancelDuringDownload k = false)
    (hfind : env.cancelDuringFind = true) (hc : s.global.cancelled = false) (f : FileRef) :
    (processPhoto env batchCb photo s).2.2 = PPOut.retFile f →
    (processPhoto env batchCb photo s).1.global.cancelled = true := by
  unfold processPhoto
  have h1 := embedAttempts_tame env photo hflip 3 0 none s hc
  cases he : (embedAttempts env batchCb photo 3 0 none s).2.2.2 with
  | cancelledLoop => exact absurd he h1.2
  | thrownLoop m =>
    simp only [he]
    intro h
    exact absurd h (by simp)
  | broke nj =>
    simp only [he]
    exact uploadPhase_cancelTrue env photo nj _ hfind f
  | exhausted =>
    simp only [he]
    cases hj : (embedAttempts env batchCb photo 3 0 none s).2.2.1 with
    | some j =>
      simp only [hj]
      exact uploadPhase_cancelTrue env photo j _ hfind f
    | none =>
      simp only [hj]
      intro h
      exact absurd h (by simp)

/-! ## Characterisation of the `null` returns of `processPhoto` -/

lemma caughtStep_jd (pid : String) (attempts : ℕ) (jd : Option Bytes)
    (s : StoreState) (m : String) :
    (caughtStep batchCb pid attempts jd s m).2.2.1 = jd := by
  unfold caughtStep
  by_cases h : (jsIncludes m "pack" && decide (attempts < 3)) = true
  · rw [if_pos h]
  · rw [if_neg h]

lemma caughtStep_pack {pid : String} {attempts : ℕ} {jd : Option Bytes}
    {s : StoreState} {m : String}
    (h : (caughtStep batchCb pid attempts jd s m).2.2.2 = IterOut.packRetry) :
    jsIncludes m "pack" = true := by
  unfold caughtStep at h
  by_cases hb : (jsIncludes m "pack" && decide (attempts < 3)) = true
  · simp only [Bool.and_eq_true] at hb
    exact hb.1
  · rw [if_neg hb] at h
    exact absurd h (by simp)

lemma oneAttempt_noData (env : TransferEnv) (photo : Photo) (attempts : ℕ)
    (jd : Option Bytes) (s : StoreState)
    (hretry : (oneAttempt env batchCb photo attempts jd s).2.2.2 = IterOut.packRetry)
    (hnone : (oneAttempt env batchCb photo attempts jd s).2.2.1 = none) :
    jd = none ∧ ∃ mk, env.download attempts = JsResult.err mk ∧
      jsIncludes mk "pack" = true := by
  unfold oneAttempt at hretry hnone
  cases hdl : env.download attempts with
  | err m =>
    simp only [hdl] at hretry hnone
    rw [caughtStep_jd] at hnone
    exact ⟨hnone, m, rfl, caughtStep_pack hretry⟩
  | ok pd =>
    obtain ⟨pcts, data⟩ := pd
    simp only [hdl] at hretry hnone
    by_cases hflip : env.cancelDuringDownload attempts = true
    · rw [if_pos hflip] at hretry hnone
      by_cases hcc : (applyCancel (cbStream batchCb (dlPctPatch photo.photoId.id) pcts
          (batchCb (dlStartPatch photo.photoId.id) s).1).1).1.global.cancelled = true
      · rw [if_pos hcc] at hretry
        exact absurd hretry (by simp)
      · rw [if_neg hcc] at hretry hnone
        cases hl : env.piexif.load data with
        | err m =>
          simp only [hl] at hretry hnone
          rw [caughtStep_jd] at hnone
          exact absurd hnone (by simp)
        | ok exifObj =>
          simp only [hl] at hretry hnone
          cases hd : env.piexif.dump (applyPose exifObj photo) with
          | err m =>
            simp only [hd] at hretry hnone
            rw [caughtStep_jd] at hnone
            exact absurd hnone (by simp)
          | ok exifbytes =>
            simp only [hd] at hretry hnone
            cases hi : env.piexif.insert exifbytes data with
            | err m =>
              simp only [hi] at hretry hnone
              rw [caughtStep_jd] at hnone
              exact absurd hnone (by simp)
            | ok newData =>
              simp only [hi] at hretry
              exact absurd hretry (by simp)
    · rw [if_neg hflip] at hretry hnone
      by_cases hcc : (cbStream batchCb (dlPctPatch photo.photoId.id) pcts
          (batchCb (dlStartPatch photo.photoId.id) s).1).1.global.cancelled = true
      · rw [if_pos hcc] at hretry
        exact absurd hretry (by simp)
      · rw [if_neg hcc] at hretry hnone
        cases hl : env.piexif.load data with
        | err m =>
          simp only [hl] at hretry hnone
          rw [caughtStep_jd] at hnone
          exact absurd hnone (by simp)
        | ok exifObj =>
          simp only [hl] at hretry hnone
          cases hd : env.piexif.dump (applyPose exifObj photo) with
          | err m =>
            simp only [hd] at hretry hnone
            rw [caughtStep_jd] at hnone
            exact absurd hnone (by simp)
          | ok exifbytes =>
            simp only [hd] at hretry hnone
            cases hi : env.piexif.insert exifbytes data with
            | err m =>
              simp only [hi] at hretry hnone
              rw [caughtStep_jd] at hnone
              exact absurd hnone (by simp)
            | ok newData =>
              simp only [hi] at hretry
              exact absurd hretry (by simp)

lemma embedAttempts_noData (env : TransferEnv) (photo : Photo) :
    ∀ (fuel attempts : ℕ) (jd : Option Bytes) (s : StoreState),
      (embedAttempts env batchCb photo fuel attempts jd s).2.2.2 = LoopOut.exhausted →
      (embedAttempts env batchCb photo fuel attempts jd s).2.2.1 = none →
      jd = none ∧ ∀ k, k < fuel → ∃ mk, env.download (attempts + k) = JsResult.err mk ∧
        jsIncludes mk "pack" = true
  | 0, attempts, jd, s => by
    intro _ h2
    simp only [embedAttempts] at h2
    exact ⟨h2, fun k hk => absurd hk (by omega)⟩
  | fuel + 1, attempts, jd, s => by
    intro h1 h2
    simp only [embedAttempts] at h1 h2
    cases ho : (oneAttempt env batchCb photo attempts jd s).2.2.2 with
    | broke nj =>
      rw [ho] at h1
      exact absurd h1 (by simp)
    | cancelledIter =>
      rw [ho] at h1
      exact absurd h1 (by simp)
    | thrownIter m =>
      rw [ho] at h1
      exact absurd h1 (by simp)
    | packRetry =>
      rw [ho] at h1 h2
      have hrec := embedAttempts_noData env photo fuel (attempts + 1)
        (oneAttempt env batchCb photo attempts jd s).2.2.1
        (oneAttempt env batchCb photo attempts jd s).1 h1 h2
      have hone := oneAttempt_noData env photo attempts jd s ho hrec.1
      refine ⟨hone.1, ?_⟩
      intro k hk
      cases k with
      | zero => simpa using hone.2
      | succ k2 =>
        have hk2 := hrec.2 k2 (by omega)
        rw [show attempts + (k2 + 1) = attempts + 1 + k2 by omega]
        exact hk2

lemma oneAttempt_cancelExit (env : TransferEnv) (photo : Photo) (attempts : ℕ)
    (jd : Option Bytes) (s : StoreState)
    (h : (oneAttempt env batchCb photo attempts jd s).2.2.2 = IterOut.cancelledIter) :
    Event.cancelExit photo.photoId.id ∈ (oneAttempt env batchCb photo attempts jd s).2.1 := by
  unfold oneAttempt at h ⊢
  cases hdl : env.download attempts with
  | err m =>
    simp only [hdl] at h ⊢
    rcases caughtStep_out photo.photoId.id attempts jd
        (if env.cancelDuringDownload attempts then
          applyCancel (batchCb (dlStartPatch photo.photoId.id) s).1
        else ((batchCb (dlStartPatch photo.photoId.id) s).1, [])).1 m with ho | ho <;>
      rw [ho] at h <;> exact absurd h (by simp)
  | ok pd =>
    obtain ⟨pcts, data⟩ := pd
    simp only [hdl] at h ⊢
    by_cases hcc : (if env.cancelDuringDownload attempts then
        applyCancel (cbStream batchCb (dlPctPatch photo.photoId.id) pcts
          (batchCb (dlStartPatch photo.photoId.id) s).1).1
      else ((cbStream batchCb (dlPctPatch photo.photoId.id) pcts
          (batchCb (dlStartPatch photo.photoId.id) s).1).1, [])).1.global.cancelled = true
    · rw [if_pos hcc]
      simp
    · rw [if_neg hcc] at h ⊢
      cases hl : env.piexif.load data with
      | err m =>
        simp only [hl] at h ⊢
        rcases caughtStep_out photo.photoId.id attempts (some data)
            (if env.cancelDuringDownload attempts then
              applyCancel (cbStream batchCb (dlPctPatch photo.photoId.id) pcts
                (batchCb (dlStartPatch photo.photoId.id) s).1).1
            else ((cbStream batchCb (dlPctPatch photo.photoId.id) pcts
                (batchCb (dlStartPatch photo.photoId.id) s).1).1, [])).1 m with ho | ho <;>
          rw [ho] at h <;> exact absurd h (by simp)
      | ok exifObj =>
        simp only [hl] at h ⊢
        cases hd : env.piexif.dump (applyPose exifObj photo) with
        | err m =>
          simp only [hd] at h ⊢
          rcases caughtStep_out photo.photoId.id attempts (some data)
              (if env.cancelDuringDownload attempts then
                applyCancel (cbStream batchCb (dlPctPatch photo.photoId.id) pcts
                  (batchCb (dlStartPatch photo.photoId.id) s).1).1
              else ((cbStream batchCb (dlPctPatch photo.photoId.id) pcts
                  (batchCb (dlStartPatch photo.photoId.id) s).1).1, [])).1 m with ho | ho <;>
            rw [ho] at h <;> exact absurd h (by simp)
        | ok exifbytes =>
          simp only [hd] at h ⊢
          cases hi : env.piexif.insert exifbytes data with
          | err m =>
            simp only [hi] at h ⊢
            rcases caughtStep_out photo.photoId.id attempts (some data)
                (if env.cancelDuringDownload attempts then
                  applyCancel (cbStream batchCb (dlPctPatch photo.photoId.id) pcts
                    (batchCb (dlStartPatch photo.photoId.id) s).1).1
                else ((cbStream batchCb (dlPctPatch photo.photoId.id) pcts
                    (batchCb (dlStartPatch photo.photoId.id) s).1).1, [])).1 m with ho | ho <;>
              rw [ho] at h <;> exact absurd h (by simp)
          | ok newData =>
            simp only [hi] at h
            exact absurd h (by simp)

lemma embedAttempts_cancelExit (env : TransferEnv) (photo : Photo) :
    ∀ (fuel attempts : ℕ) (jd : Option Bytes) (s : StoreState),
      (embedAttempts env batchCb photo fuel attempts jd s).2.2.2 = LoopOut.cancelledLoop →
      Event.cancelExit photo.photoId.id ∈
        (embedAttempts env batchCb photo fuel attempts jd s).2.1
  | 0, attempts, jd, s => by
    intro h
    simp only [embedAttempts] at h
    exact absurd h (by simp)
  | fuel + 1, attempts, jd, s => by
    intro h
    simp only [embedAttempts] at h ⊢
    cases ho : (oneAttempt env batchCb photo attempts jd s).2.2.2 with
    | broke nj =>
      rw [ho] at h
      exact absurd h (by simp)
    | cancelledIter =>
      exact oneAttempt_cancelExit env photo attempts jd s ho
    | thrownIter m =>
      rw [ho] at h
      exact absurd h (by simp)
    | packRetry =>
      rw [ho] at h
      have hrec := embedAttempts_cancelExit env photo fuel (attempts + 1)
        (oneAttempt env batchCb photo attempts jd s).2.2.1
        (oneAttempt env batchCb photo attempts jd s).1 h
      exact List.mem_append.mpr (Or.inr hrec)

lemma uploadPhase_out (env : TransferEnv) (photo : Photo) (nj : Bytes) (s : StoreState) :
    (uploadPhase env batchCb photo nj s).2.2 ≠ PPOut.retNull := by
  unfold uploadPhase
  cases hf : env.findFile with
  | err m => simp
  | ok existingFile =>
    cases existingFile with
    | some f =>
      cases hu : env.updateFile f.id nj with
      | err m => simp [hu]
      | ok pf =>
        obtain ⟨pcts, file⟩ := pf
        simp [hu]
    | none =>
      cases hu : env.createFile (photo.photoId.id ++ ".jpg") nj with
      | err m => simp [hu]
      | ok pf =>
        obtain ⟨pcts, file⟩ := pf
        simp [hu]

lemma batchCb_events (p : Patch) (s : StoreState) :
    (batchCb p s).2 = if s.hasSocket then
      [Event.push (PushPayload.global (mergeGlobal s.global { p with photoId := none }))]
    else [] := by
  rw [batchCb_eq, runUpdate_global _ _ rfl]

lemma oneAttempt_cancelCase (env : TransferEnv) (photo : Photo) (attempts : ℕ)
    (jd : Option Bytes) (s : StoreState) (pcts : List ℕ) (data : Bytes)
    (hdl : env.download attempts = JsResult.ok (pcts, data))
    (hsock : s.hasSocket = true)
    (hcase : s.global.cancelled = true ∨ env.cancelDuringDownload attempts = true) :
    (oneAttempt env batchCb photo attempts jd s).2.2.2 = IterOut.cancelledIter ∧
    hasGlobalMessage (oneAttempt env batchCb photo attempts jd s).2.1 "Download cancelled." = true ∧
    uploadCallsOf (oneAttempt env batchCb photo attempts jd s).2.1 = [] := by
  have hsk1 : (cbStream batchCb (dlPctPatch photo.photoId.id) pcts
      (batchCb (dlStartPatch photo.photoId.id) s).1).1.hasSocket = true := by
    rw [(cbStream_presAll (dlPctPatch photo.photoId.id) (fun _ => rfl) pcts _).1,
      (batchCb_presAll (dlStartPatch photo.photoId.id) s rfl).1]
    exact hsock
  unfold oneAttempt
  simp only [hdl]
  by_cases hflip : env.cancelDuringDownload attempts = true
  · simp only [hflip, if_true]
    have hscc : (applyCancel (cbStream batchCb (dlPctPatch photo.photoId.id) pcts
        (batchCb (dlStartPatch photo.photoId.id) s).1).1).1.global.cancelled = true :=
      applyCancel_cancelled _
    have hsk : (applyCancel (cbStream batchCb (dlPctPatch photo.photoId.id) pcts
        (batchCb (dlStartPatch photo.photoId.id) s).1).1).1.hasSocket = true :=
      ((applyCancel_presAll _).1).trans hsk1
    simp only [hscc, if_true]
    refine ⟨trivial, ?_, ?_⟩
    · simp only [batchCb_events, hsk, hsock, if_true]
      simp [hasGlobalMessage, mergeGlobal, cancelMsgPatch, Patch.empty]
    · simp [applyCancel]
  · simp only [Bool.not_eq_true] at hflip
    simp only [hflip, Bool.false_eq_true, if_false]
    rcases hcase with hcase | hcase
    swap
    · rw [hflip] at hcase; exact absurd hcase (by decide)
    have hscc : (cbStream batchCb (dlPctPatch photo.photoId.id) pcts
        (batchCb (dlStartPatch photo.photoId.id) s).1).1.global.cancelled = true :=
      (cbStream_cancelled (dlPctPatch photo.photoId.id) (fun _ => rfl) pcts _).trans
        ((batchCb_cancelled (dlStartPatch photo.photoId.id) s rfl).trans hcase)
    simp only [hscc, if_true]
    refine ⟨trivial, ?_, ?_⟩
    · simp only [batchCb_events, hsk1, hsock, if_true]
      simp [hasGlobalMessage, mergeGlobal, cancelMsgPatch, Patch.empty]
    · simp

lemma embedAttempts_cancelStep (env : TransferEnv) (photo : Photo) (fuel attempts : ℕ)
    (jd : Option Bytes) (s : StoreState)
    (h : (oneAttempt env batchCb photo attempts jd s).2.2.2 = IterOut.cancelledIter) :
    embedAttempts env batchCb photo (fuel + 1) attempts jd s =
      ((oneAttempt env batchCb photo attempts jd s).1,
       (oneAttempt env batchCb photo attempts jd s).2.1,
       (oneAttempt env batchCb photo attempts jd s).2.2.1,
       LoopOut.cancelledLoop) := by
  simp only [embedAttempts, h]

lemma caughtStep_attemptStarts (pid : String) (attempts : ℕ) (jd : Option Bytes)
    (s : StoreState) (m : String) :
    attemptStarts (caughtStep batchCb pid attempts jd s m).2.1 = [] := by
  unfold caughtStep
  by_cases h : (jsIncludes m "pack" && decide (attempts < 3)) = true
  · rw [if_pos h]
    by_cases h3 : attempts + 1 = 3 <;> simp [h3]
  · rw [if_neg h]; rfl

lemma oneAttempt_attemptStarts (env : TransferEnv) (photo : Photo) (attempts : ℕ)
    (jd : Option Bytes) (s : StoreState) :
    attemptStarts (oneAttempt env batchCb photo attempts jd s).2.1 = [photo.photoId.id] := by
  unfold oneAttempt
  cases hdl : env.download attempts with
  | err m =>
    simp only [hdl]
    by_cases hf : env.cancelDuringDownload attempts = true <;>
      simp [hf, caughtStep_attemptStarts, applyCancel]
  | ok pd =>
    obtain ⟨pcts, data⟩ := pd
    simp only [hdl]
    by_cases hf : env.cancelDuringDownload attempts = true
    all_goals simp only [hf, if_true, Bool.false_eq_true, if_false]
    all_goals split_ifs with hcc
    all_goals try simp [applyCancel]
    all_goals cases hld : env.piexif.load data
    all_goals simp only [hld]
    all_goals try simp [caughtStep_attemptStarts, applyCancel]
    all_goals rename_i exifObj
    all_goals cases hdu : env.piexif.dump (applyPose exifObj photo)
    all_goals simp only [hdu]
    all_goals try simp [caughtStep_attemptStarts, applyCancel]
    all_goals rename_i eb
    all_goals cases hins : env.piexif.insert eb data
    all_goals simp only [hins]
    all_goals simp [caughtStep_attemptStarts, applyCancel]

lemma embedAttempts_attemptStarts (env : TransferEnv) (photo : Photo) :
    ∀ (fuel attempts : ℕ) (jd : Option Bytes) (s : StoreState),
      (attemptStarts (embedAttempts env batchCb photo fuel attempts jd s).2.1).length ≤ fuel
  | 0, _, _, _ => by simp [embedAttempts]
  | fuel + 1, attempts, jd, s => by
    simp only [embedAttempts]
    cases ho : (oneAttempt env batchCb photo attempts jd s).2.2.2 with
    | broke nj => simp [oneAttempt_attemptStarts]
    | cancelledIter => simp [oneAttempt_attemptStarts]
    | thrownIter m => simp [oneAttempt_attemptStarts]
    | packRetry =>
      have hrec := embedAttempts_attemptStarts env photo fuel (attempts + 1)
        (oneAttempt env batchCb photo attempts jd s).2.2.1
        (oneAttempt env batchCb photo attempts jd s).1
      simp only [attemptStarts_append, List.length_append, oneAttempt_attemptStarts,
        List.length_singleton]
      omega

lemma uploadPhase_attemptStarts (env : TransferEnv) (photo : Photo) (nj : Bytes)
    (s : StoreState) :
    attemptStarts (uploadPhase env batchCb photo nj s).2.1 = [] := by
  unfold uploadPhase
  cases hf : env.findFile with
  | err m => rfl
  | ok existingFile =>
    cases existingFile with
    | some f =>
      cases hu : env.updateFile f.id nj with
      | err m =>
        simp only [hu]
        split_ifs <;> simp [applyCancel]
      | ok pf =>
        obtain ⟨pcts, file⟩ := pf
        simp only [hu]
        split_ifs <;> simp [applyCancel]
    | none =>
      cases hu : env.createFile (photo.photoId.id ++ ".jpg") nj with
      | err m =>
        simp only [hu]
        split_ifs <;> simp [applyCancel]
      | ok pf =>
        obtain ⟨pcts, file⟩ := pf
        simp only [hu]
        split_ifs <;> simp [applyCancel]

lemma processPhoto_attemptStarts (env : TransferEnv) (photo : Photo) (s : StoreState) :
    (attemptStarts (processPhoto env batchCb photo s).2.1).length ≤ 3 := by
  unfold processPhoto
  cases hle : (embedAttempts env batchCb photo 3 0 none s).2.2.2 with
  | cancelledLoop =>
    simp only [hle]
    exact embedAttempts_attemptStarts env photo 3 0 none s
  | thrownLoop m =>
    simp only [hle]
    exact embedAttempts_attemptStarts env photo 3 0 none s
  | broke nj =>
    simp only [hle, attemptStarts_append, List.length_append, uploadPhase_attemptStarts,
      attemptStarts_nil, List.length_nil]
    have := embedAttempts_attemptStarts env photo 3 0 none s
    omega
  | exhausted =>
    cases hjd : (embedAttempts env batchCb photo 3 0 none s).2.2.1 with
    | some j =>
      simp only [hle, hjd, attemptStarts_append, List.length_append, uploadPhase_attemptStarts,
        attemptStarts_nil, List.length_nil]
      have := embedAttempts_attemptStarts env photo 3 0 none s
      omega
    | none =>
      simp only [hle, hjd, attemptStarts_append, List.length_append,
        attemptStarts_noDataExit, attemptStarts_nil, List.length_nil]
      have := embedAttempts_attemptStarts env photo 3 0 none s
      omega

lemma oneAttempt_packIter (env : TransferEnv) (photo : Photo) (attempts : ℕ)
    (jd : Option Bytes) (s : StoreState) (data : Bytes) (m : String)
    (hdl : env.download attempts = JsResult.ok ([], data))
    (hflip : env.cancelDuringDownload attempts = false)
    (hc : s.global.cancelled = false)
    (hload : env.piexif.load data = JsResult.err m)
    (hm : jsIncludes m "pack" = true)
    (hlt : attempts < 3) :
    (oneAttempt env batchCb photo attempts jd s).2.2.2 = IterOut.packRetry ∧
    (oneAttempt env batchCb photo attempts jd s).2.2.1 = some data ∧
    waitsOf (oneAttempt env batchCb photo attempts jd s).2.1 = [1000 * (attempts + 1)] ∧
    uploadCallsOf (oneAttempt env batchCb photo attempts jd s).2.1 = [] ∧
    (attempts + 1 = 3 → s.hasSocket = true →
      hasGlobalMessage (oneAttempt env batchCb photo attempts jd s).2.1
        ("All 3 attempts failed for photo " ++ photo.photoId.id ++
          ". Uploading without EXIF.") = true) := by
  have hc0 : (batchCb (dlStartPatch photo.photoId.id) s).1.global.cancelled = false :=
    (batchCb_cancelled _ _ rfl).trans hc
  unfold oneAttempt
  simp only [hdl, hflip, Bool.false_eq_true, if_false, cbStream, hc0, hload]
  unfold caughtStep
  rw [if_pos (show (jsIncludes m "pack" && decide (attempts < 3)) = true by
    rw [hm, decide_eq_true hlt]; rfl)]
  refine ⟨rfl, rfl, ?_, ?_, ?_⟩
  · dsimp only
    split_ifs <;> simp
  · dsimp only
    split_ifs <;> simp
  · intro h3 hsock
    dsimp only
    rw [if_pos h3]
    have hsk : (batchCb (retryMsgPatch photo.photoId.id (attempts + 1))
        (batchCb (dlStartPatch photo.photoId.id) s).1).1.hasSocket = true :=
      ((batchCb_presAll _ _ rfl).1).trans (((batchCb_presAll _ _ rfl).1).trans hsock)
    simp only [batchCb_events, hsk, if_true]
    simp [hasGlobalMessage, mergeGlobal, finalMsgPatch, Patch.empty]

lemma embedAttempts_packStep (env : TransferEnv) (photo : Photo) (fuel attempts : ℕ)
    (jd : Option Bytes) (s : StoreState)
    (h : (oneAttempt env batchCb photo attempts jd s).2.2.2 = IterOut.packRetry) :
    embedAttempts env batchCb photo (fuel + 1) attempts jd s =
      ((embedAttempts env batchCb photo fuel (attempts + 1)
          (oneAttempt env batchCb photo attempts jd s).2.2.1
          (oneAttempt env batchCb photo attempts jd s).1).1,
       (oneAttempt env batchCb photo attempts jd s).2.1 ++
         (embedAttempts env batchCb photo fuel (attempts + 1)
           (oneAttempt env batchCb photo attempts jd s).2.2.1
           (oneAttempt env batchCb photo attempts jd s).1).2.1,
       (embedAttempts env batchCb photo fuel (attempts + 1)
         (oneAttempt env batchCb photo attempts jd s).2.2.1
         (oneAttempt env batchCb photo attempts jd s).1).2.2.1,
       (embedAttempts env batchCb photo fuel (attempts + 1)
         (oneAttempt env batchCb photo attempts jd s).2.2.1
         (oneAttempt env batchCb photo attempts jd s).1).2.2.2) := by
  simp only [embedAttempts, h]

lemma embedAttempts_allPack (env : TransferEnv) (photo : Photo) (data : Bytes) (m : String)
    (hflip : ∀ k, env.cancelDuringDownload k = false)
    (hdl : ∀ k, env.download k = JsResult.ok ([], data))
    (hload : env.piexif.load data = JsResult.err m)
    (hm : jsIncludes m "pack" = true) :
    ∀ (fuel attempts : ℕ) (jd : Option Bytes) (s : StoreState),
      attempts + fuel = 3 →
      s.global.cancelled = false →
      s.hasSocket = true →
      (embedAttempts env batchCb photo fuel attempts jd s).2.2.2 = LoopOut.exhausted ∧
      (embedAttempts env batchCb photo fuel attempts jd s).2.2.1 =
        (if fuel = 0 then jd else some data) ∧
      waitsOf (embedAttempts env batchCb photo fuel attempts jd s).2.1 =
        (List.range fuel).map (fun i => 1000 * (attempts + i + 1)) ∧
      uploadCallsOf (embedAttempts env batchCb photo fuel attempts jd s).2.1 = [] ∧
      attemptStarts (embedAttempts env batchCb photo fuel attempts jd s).2.1 =
        List.replicate fuel photo.photoId.id ∧
      (0 < fuel →
        hasGlobalMessage (embedAttempts env batchCb photo fuel attempts jd s).2.1
          ("All 3 attempts failed for photo " ++ photo.photoId.id ++
            ". Uploading without EXIF.") = true)
  | 0, attempts, jd, s => by
    intro _ _ _
    refine ⟨rfl, rfl, ?_, rfl, rfl, ?_⟩
    · simp [embedAttempts]
    · intro h; exact absurd h (by omega)
  | fuel + 1, attempts, jd, s => by
    intro hinv hc hsock
    have h := oneAttempt_packIter env photo attempts jd s data m (hdl attempts)
      (hflip attempts) hc hload hm (by omega)
    have hc1 : (oneAttempt env batchCb photo attempts jd s).1.global.cancelled = false :=
      (oneAttempt_tame env photo attempts jd s (hflip attempts) hc).1
    have hsock1 : (oneAttempt env batchCb photo attempts jd s).1.hasSocket = true :=
      ((oneAttempt_presAll env photo attempts jd s).1).trans hsock
    obtain ⟨rec1, rec2, rec3, rec4, rec5, rec6⟩ :=
      embedAttempts_allPack env photo data m hflip hdl hload hm fuel (attempts + 1)
        (oneAttempt env batchCb photo attempts jd s).2.2.1
        (oneAttempt env batchCb photo attempts jd s).1 (by omega) hc1 hsock1
    rw [embedAttempts_packStep env photo fuel attempts jd s h.1]
    dsimp only
    refine ⟨rec1, ?_, ?_, ?_, ?_, ?_⟩
    · rw [rec2, h.2.1]
      simp only [ite_self]
      simp
    · rw [waitsOf_append, rec3, h.2.2.1, List.range_succ_eq_map, List.map_cons,
        List.map_map, List.singleton_append]
      simp only [List.cons.injEq]
      refine ⟨by simp, List.map_congr_left fun i _ => ?_⟩
      simp only [Function.comp_apply]
      omega
    · rw [uploadCallsOf_append, rec4, h.2.2.2.1]
      rfl
    · rw [attemptStarts_append, rec5, oneAttempt_attemptStarts, List.replicate_succ,
        List.singleton_append]
    · intro _
      rcases Nat.eq_zero_or_pos fuel with hf0 | hfp
      · subst hf0
        have hmsg := h.2.2.2.2 (by omega) hsock
        simp [hasGlobalMessage] at hmsg ⊢
        simp [hmsg]
      · have hmsg := rec6 hfp
        simp [hasGlobalMessage] at hmsg ⊢
        simp [hmsg]

lemma oneAttempt_nonPack (env : TransferEnv) (photo : Photo) (jd : Option Bytes)
    (s : StoreState) (data : Bytes) (m : String)
    (hdl : env.download 0 = JsResult.ok ([], data))
    (hflip : env.cancelDuringDownload 0 = false)
    (hc : s.global.cancelled = false)
    (hload : env.piexif.load data = JsResult.err m)
    (hm : jsIncludes m "pack" = false) :
    (oneAttempt env batchCb photo 0 jd s).2.2.2 = IterOut.thrownIter m ∧
    waitsOf (oneAttempt env batchCb photo 0 jd s).2.1 = [] ∧
    attemptStarts (oneAttempt env batchCb photo 0 jd s).2.1 = [photo.photoId.id] := by
  have hc0 : (batchCb (dlStartPatch photo.photoId.id) s).1.global.cancelled = false :=
    (batchCb_cancelled _ _ rfl).trans hc
  unfold oneAttempt
  simp only [hdl, hflip, Bool.false_eq_true, if_false, cbStream, hc0, hload]
  unfold caughtStep
  rw [if_neg (show ¬ (jsIncludes m "pack" && decide (0 < 3)) = true by rw [hm]; simp)]
  refine ⟨rfl, ?_, ?_⟩ <;> simp

lemma embedAttempts_thrownStep (env : TransferEnv) (photo : Photo) (fuel attempts : ℕ)
    (jd : Option Bytes) (s : StoreState) (m : String)
    (h : (oneAttempt env batchCb photo attempts jd s).2.2.2 = IterOut.thrownIter m) :
    embedAttempts env batchCb photo (fuel + 1) attempts jd s =
      ((oneAttempt env batchCb photo attempts jd s).1,
       (oneAttempt env batchCb photo attempts jd s).2.1,
       (oneAttempt env batchCb photo attempts jd s).2.2.1,
       LoopOut.thrownLoop m) := by
  simp only [embedAttempts, h]

lemma uploadPhase_create (env : TransferEnv) (photo : Photo) (nj : Bytes) (s : StoreState)
    (pcts : List ℕ) (f : FileRef)
    (hfind : env.findFile = JsResult.ok none)
    (hfind0 : env.cancelDuringFind = false)
    (hcreate : env.createFile (photo.photoId.id ++ ".jpg") nj = JsResult.ok (pcts, f)) :
    (uploadPhase env batchCb photo nj s).2.2 = PPOut.retFile f ∧
    uploadCallsOf (uploadPhase env batchCb photo nj s).2.1 =
      [(photo.photoId.id ++ ".jpg", nj, false)] ∧
    waitsOf (uploadPhase env batchCb photo nj s).2.1 = [] := by
  unfold uploadPhase
  simp only [hfind, hfind0, Bool.false_eq_true, if_false, hcreate]
  refine ⟨trivial, ?_, ?_⟩ <;> simp

/-! ## Socket and record preservation through the orchestrator loop -/

lemma updateState_hasSocket (s : StoreState) (p : Patch) :
    (updateState s p).store.hasSocket = s.hasSocket := by
  unfold updateState
  cases jsTruthyStr p.photoId <;> rfl

lemma runUpdate_sock (s : StoreState) (p : Patch) :
    (runUpdate s p).1.hasSocket = s.hasSocket :=
  updateState_hasSocket s p

lemma updateState_indiv (s : StoreState) (p : Patch) (h : p.photoId = none) :
    (updateState s p).store.individual = s.individual := by
  unfold updateState
  simp only [jsTruthyStr, h]

lemma runUpdate_indiv (s : StoreState) (p : Patch) (h : p.photoId = none) :
    (runUpdate s p).1.individual = s.individual :=
  updateState_indiv s p h

lemma thenStep_sock {d m tpc i : ℕ} {pid : String} {sess : Session} {s s2 : StoreState}
    {evs2 : List Event} {sess2 : Session}
    (h : thenStep d m tpc i pid sess s = StepOut.stepOk s2 evs2 sess2) :
    s2.hasSocket = s.hasSocket ∧ s2.individual = s.individual := by
  simp only [thenStep] at h
  cases h1 : jsLen (moveToDownloaded sess pid).downloadedPhotos with
  | err msg =>
    rw [h1] at h
    exact absurd h (by simp)
  | ok dl =>
    rw [h1] at h
    cases h2 : jsLen (moveToDownloaded sess pid).missingPhotos with
    | err msg =>
      rw [h2] at h
      exact absurd h (by simp)
    | ok ml =>
      rw [h2] at h
      injection h with h3 h4
      rw [← h3]
      exact ⟨runUpdate_sock _ _, runUpdate_indiv _ _ rfl⟩

lemma elseStep_sock {d m tpc i : ℕ} {pid : String} {sess : Session} {s s2 : StoreState}
    {evs2 : List Event} {sess2 : Session}
    (h : elseStep d m tpc i pid sess s = StepOut.stepOk s2 evs2 sess2) :
    s2.hasSocket = s.hasSocket ∧ s2.individual = s.individual := by
  simp only [elseStep] at h
  cases h1 : jsLen (removeFromMissing sess pid).downloadedPhotos with
  | err msg =>
    rw [h1] at h
    exact absurd h (by simp)
  | ok dl =>
    rw [h1] at h
    cases h2 : jsLen (removeFromMissing sess pid).missingPhotos with
    | err msg =>
      rw [h2] at h
      exact absurd h (by simp)
    | ok ml =>
      rw [h2] at h
      injection h with h3 h4
      rw [← h3]
      exact ⟨runUpdate_sock _ _, runUpdate_indiv _ _ rfl⟩

lemma batchLoop_sock (env : BatchEnv) (existing : List String) (d m tpc tp : ℕ) :
    ∀ (photos : List Photo) (i : ℕ) (sess : Session) (sk : ℕ) (s : StoreState),
      (batchLoop env existing d m tpc tp photos i sess sk s).1.hasSocket = s.hasSocket ∧
      (batchLoop env existing d m tpc tp photos i sess sk s).1.individual = s.individual
  | [], i, sess, sk, s => by
    simp only [batchLoop]
    exact ⟨trivial, trivial⟩
  | photo :: rest, i, sess, sk, s => by
    simp only [batchLoop]
    by_cases hcan : s.global.cancelled = true
    · rw [if_pos hcan]
      exact ⟨runUpdate_sock _ _, runUpdate_indiv _ _ rfl⟩
    · rw [if_neg hcan]
      by_cases hex : existing.contains (photo.photoId.id ++ ".jpg") = true
      · rw [if_pos hex]
        cases ht : thenStep d m tpc i photo.photoId.id sess
            (runUpdate s (skipMsgPatch (photo.photoId.id ++ ".jpg"))).1 with
        | stepOk s2 evs2 sess2 =>
          have hrec := batchLoop_sock env existing d m tpc tp rest (i + 1) sess2 (sk + 1) s2
          have hstep := thenStep_sock ht
          refine ⟨?_, ?_⟩
          · exact (hrec.1.trans hstep.1).trans (runUpdate_sock _ _)
          · exact (hrec.2.trans hstep.2).trans (runUpdate_indiv _ _ rfl)
        | stepThrew sess2 msg =>
          exact ⟨runUpdate_sock _ _, runUpdate_indiv _ _ rfl⟩
      · rw [if_neg hex]
        have hpp := processPhoto_presAll (env.item i) photo
          (runUpdate s (processingPatch d i tpc tp (photo.photoId.id ++ ".jpg"))).1
        cases hout : (processPhoto (env.item i) batchCb photo
            (runUpdate s (processingPatch d i tpc tp (photo.photoId.id ++ ".jpg"))).1).2.2 with
        | thrown msg =>
          refine ⟨?_, ?_⟩
          · exact (hpp.1.trans (runUpdate_sock _ _))
          · exact (hpp.2.1.trans (runUpdate_indiv _ _ rfl))
        | retFile f =>
          cases ht : thenStep d m tpc i photo.photoId.id sess
              (processPhoto (env.item i) batchCb photo
                (runUpdate s (processingPatch d i tpc tp (photo.photoId.id ++ ".jpg"))).1).1 with
          | stepOk s2 evs2 sess2 =>
            have hrec := batchLoop_sock env existing d m tpc tp rest (i + 1) sess2 sk s2
            have hstep := thenStep_sock ht
            refine ⟨?_, ?_⟩
            · exact ((hrec.1.trans hstep.1).trans hpp.1).trans (runUpdate_sock _ _)
            · exact ((hrec.2.trans hstep.2).trans hpp.2.1).trans (runUpdate_indiv _ _ rfl)
          | stepThrew sess2 msg =>
            refine ⟨?_, ?_⟩
            · exact hpp.1.trans (runUpdate_sock _ _)
            · exact hpp.2.1.trans (runUpdate_indiv _ _ rfl)
        | retNull =>
          cases ht : elseStep d m tpc i photo.photoId.id sess
              (processPhoto (env.item i) batchCb photo
                (runUpdate s (processingPatch d i tpc tp (photo.photoId.id ++ ".jpg"))).1).1 with
          | stepOk s2 evs2 sess2 =>
            have hrec := batchLoop_sock env existing d m tpc tp rest (i + 1) sess2 (sk + 1) s2
            have hstep := elseStep_sock ht
            refine ⟨?_, ?_⟩
            · exact ((hrec.1.trans hstep.1).trans hpp.1).trans (runUpdate_sock _ _)
            · exact ((hrec.2.trans hstep.2).trans hpp.2.1).trans (runUpdate_indiv _ _ rfl)
          | stepThrew sess2 msg =>
            refine ⟨?_, ?_⟩
            · exact hpp.1.trans (runUpdate_sock _ _)
            · exact hpp.2.1.trans (runUpdate_indiv _ _ rfl)

/-! ## Terminal updates -/

lemma runUpdate_final (s : StoreState) (p : Patch) (evs : List Event)
    (hsock : s.hasSocket = true) (hp : p.photoId = none)
    (hcm : p.complete = some true) (hip : p.inProgress = some false) :
    (runUpdate s p).1.global.complete = true ∧
    (runUpdate s p).1.global.inProgress = false ∧
    lastGlobalPush (evs ++ (runUpdate s p).2) = some (runUpdate s p).1.global := by
  rw [runUpdate_global s p hp, hsock, if_pos rfl]
  refine ⟨by simp [mergeGlobal, hcm], by simp [mergeGlobal, hip], ?_⟩
  simp only [lastGlobalPush, globalPushes_append, globalPushes_push_global, globalPushes_nil]
  simp

lemma errorExit_final (s : StoreState) (evs : List Event) (sess : Session) (sk : ℕ)
    (msg : String) (hsock : s.hasSocket = true) :
    (errorExit s evs sess sk msg).store.global.complete = true ∧
    (errorExit s evs sess sk msg).store.global.inProgress = false ∧
    lastGlobalPush (errorExit s evs sess sk msg).trace =
      some (errorExit s evs sess sk msg).store.global :=
  runUpdate_final s (errorPatch msg) evs hsock rfl rfl rfl

/-! ## Claim C6 -/

lemma pushedTPs_append (a b : List Event) :
    pushedTPs (a ++ b) = pushedTPs a ++ pushedTPs b := by
  simp [pushedTPs_def]

lemma pushedTPs_nil : pushedTPs [] = [] := rfl

lemma pushedTPs_skipExisting (pid : String) (t : List Event) :
    pushedTPs (Event.skipExisting pid :: t) = pushedTPs t := rfl

lemma pushedTPs_thenBranch (pid : String) (t : List Event) :
    pushedTPs (Event.thenBranch pid :: t) = pushedTPs t := rfl

lemma pushedTPs_elseBranch (pid : String) (t : List Event) :
    pushedTPs (Event.elseBranch pid :: t) = pushedTPs t := rfl

lemma pushedTPs_invoke (pid : String) (t : List Event) :
    pushedTPs (Event.invoke pid :: t) = pushedTPs t := rfl

lemma chainFrom_allV (v : ℕ) : ∀ (l1 l2 : List (Option ℕ)),
    (∀ x ∈ l1, x = some v) → chainFrom v (l1 ++ l2) = chainFrom v l2
  | [], _, _ => rfl
  | x :: t, l2, h => by
    have hx := h x (List.mem_cons_self x t)
    subst hx
    rw [List.cons_append]
    show (decide (v ≤ v) && chainFrom v (t ++ l2)) = chainFrom v l2
    rw [chainFrom_allV v t l2 (fun y hy => h y (List.mem_cons_of_mem _ hy))]
    simp

lemma chainFrom_cons_all {v w : ℕ} (l1 rec : List (Option ℕ))
    (h1 : ∀ x ∈ l1, x = some v) (hvw : v ≤ w) (hrec : chainFrom w rec = true) :
    chainFrom v (l1 ++ some w :: rec) = true := by
  rw [chainFrom_allV v l1 (some w :: rec) h1]
  show (decide (v ≤ w) && chainFrom w rec) = true
  simp [hvw, hrec]

lemma presAll_pushedTPs {s s1 : StoreState} {evs : List Event} (h : PresAll s s1 evs) :
    ∀ x ∈ pushedTPs evs, x = s.global.totalProgress := by
  intro x hx
  rw [pushedTPs_def] at hx
  obtain ⟨g, hg, hxg⟩ := List.mem_map.mp hx
  rw [← hxg, h.2.2.2.2 g hg]

lemma roundPctOpt_pos (num den : ℕ) (h : 0 < den) :
    roundPctOpt num den = some (pctRound num den) := by
  unfold roundPctOpt
  rw [if_neg (by omega)]

def ItemsOk (env : BatchEnv) : Prop :=
  ∀ i, ItemTame (env.item i) ∧
    ∀ (photo : Photo) (s : StoreState), s.global.cancelled = false → s.hasSocket = true →
      ∃ f, (processPhoto (env.item i) batchCb photo s).2.2 = PPOut.retFile f

lemma moveToDownloaded_some (sess : Session) (pid : String) (mp dp : List Photo)
    (h1 : sess.missingPhotos = some mp) (h2 : sess.downloadedPhotos = some dp) :
    ∃ mp2 dp2, (moveToDownloaded sess pid).missingPhotos = some mp2 ∧
      (moveToDownloaded sess pid).downloadedPhotos = some dp2 := by
  unfold moveToDownloaded
  rw [h1, h2]
  dsimp only
  cases hidx : findPhotoIdx mp pid with
  | none =>
    simp only [hidx]
    exact ⟨mp, dp, h1, h2⟩
  | some idx =>
    simp only [hidx]
    cases hph : mp[idx]? with
    | some ph =>
      simp only [hph]
      exact ⟨_, _, rfl, rfl⟩
    | none =>
      simp only [hph]
      exact ⟨_, _, rfl, rfl⟩

lemma thenStep_ok (d m tpc i : ℕ) (pid : String) (sess : Session) (s : StoreState)
    (mp dp : List Photo) (h1 : sess.missingPhotos = some mp)
    (h2 : sess.downloadedPhotos = some dp) :
    ∃ dl ml,
      thenStep d m tpc i pid sess s =
        StepOut.stepOk (runUpdate s (thenPatch dl ml tpc (d + i + 1) (d + m))).1
          ((runUpdate s (thenPatch dl ml tpc (d + i + 1) (d + m))).2 ++
            [Event.thenBranch pid]) (moveToDownloaded sess pid) := by
  obtain ⟨mp2, dp2, hm2, hd2⟩ := moveToDownloaded_some sess pid mp dp h1 h2
  refine ⟨dp2.length, mp2.length, ?_⟩
  unfold thenStep jsLen
  dsimp only
  rw [hd2, hm2]

lemma runUpdate_tp_set (s : StoreState) (p : Patch) (v : Option ℕ)
    (hpid : p.photoId = none) (htp : p.totalProgress = some v) :
    (runUpdate s p).1.global.totalProgress = v := by
  rw [runUpdate_global s p hpid]
  simp [mergeGlobal, htp]

lemma runUpdate_pushedTPs_set (s : StoreState) (p : Patch) (v : Option ℕ)
    (hpid : p.photoId = none) (htp : p.totalProgress = some v)
    (hsock : s.hasSocket = true) :
    pushedTPs (runUpdate s p).2 = [v] := by
  rw [runUpdate_global s p hpid]
  simp [hsock, mergeGlobal, htp]

lemma runUpdate_pushedTPs_keep (s : StoreState) (p : Patch)
    (hpid : p.photoId = none) (htp : p.totalProgress = none)
    (hsock : s.hasSocket = true) :
    pushedTPs (runUpdate s p).2 = [s.global.totalProgress] := by
  rw [runUpdate_global s p hpid]
  simp [hsock, mergeGlobal, htp]

lemma batchLoop_happy (env : BatchEnv) (existing : List String) (d m tpc tp : ℕ)
    (hok : ItemsOk env) (hden : 0 < d + m) :
    ∀ (photos : List Photo) (i : ℕ) (sess : Session) (sk : ℕ) (s : StoreState),
      (∃ mp, sess.missingPhotos = some mp) →
      (∃ dp, sess.downloadedPhotos = some dp) →
      s.global.cancelled = false →
      s.hasSocket = true →
      s.global.totalProgress = some (pctRound (d + i) (d + m)) →
      (batchLoop env existing d m tpc tp photos i sess sk s).2.2.2.2 = LoopExit.finished ∧
      invokedIds (batchLoop env existing d m tpc tp photos i sess sk s).2.1 =
        (photos.filter fun p => !existing.contains (p.photoId.id ++ ".jpg")).map
          (fun p => p.photoId.id) ∧
      (∀ l2, chainFrom (pctRound (d + i + photos.length) (d + m)) l2 = true →
        chainFrom (pctRound (d + i) (d + m))
          (pushedTPs (batchLoop env existing d m tpc tp photos i sess sk s).2.1 ++ l2) =
          true) ∧
      (batchLoop env existing d m tpc tp photos i sess sk s).1.global.totalProgress =
        some (pctRound (d + i + photos.length) (d + m)) ∧
      (batchLoop env existing d m tpc tp photos i sess sk s).1.global.cancelled = false ∧
      (∃ mp2, (batchLoop env existing d m tpc tp photos i sess sk s).2.2.1.missingPhotos =
        some mp2) ∧
      (∃ dp2, (batchLoop env existing d m tpc tp photos i sess sk s).2.2.1.downloadedPhotos =
        some dp2) ∧
      (∀ p ∈ photos, existing.contains (p.photoId.id ++ ".jpg") = true →
        Event.skipExisting p.photoId.id ∈
          (batchLoop env existing d m tpc tp photos i sess sk s).2.1 ∧
        Event.thenBranch p.photoId.id ∈
          (batchLoop env existing d m tpc tp photos i sess sk s).2.1 ∧
        hasGlobalMessage (batchLoop env existing d m tpc tp photos i sess sk s).2.1
          ("Skipping existing file: " ++ (p.photoId.id ++ ".jpg")) = true)
  | [], i, sess, sk, s => by
    intro hmp hdp hc hsock htp
    simp only [batchLoop]
    refine ⟨by trivial, by simp, fun l2 h => by simpa using h, by simpa using htp, hc,
      hmp, hdp, by simp⟩
  | photo :: rest, i, sess, sk, s => by
    intro hmp hdp hc hsock htp
    obtain ⟨mp, hmp⟩ := hmp
    obtain ⟨dp, hdp⟩ := hdp
    have hvw : pctRound (d + i) (d + m) ≤ pctRound (d + i + 1) (d + m) :=
      pctRound_mono _ (by omega)
    simp only [batchLoop]
    rw [if_neg (by simp [hc])]
    by_cases hex : existing.contains (photo.photoId.id ++ ".jpg") = true
    · rw [if_pos hex]
      obtain ⟨dl, ml, hthen⟩ := thenStep_ok d m tpc i photo.photoId.id sess
        (runUpdate s (skipMsgPatch (photo.photoId.id ++ ".jpg"))).1 mp dp hmp hdp
      rw [hthen]
      dsimp only
      have hs1c : (runUpdate s (skipMsgPatch (photo.photoId.id ++ ".jpg"))).1.global.cancelled
          = false := (runUpdate_cancelled s _ rfl rfl).trans hc
      have hs1sock : (runUpdate s (skipMsgPatch (photo.photoId.id ++ ".jpg"))).1.hasSocket
          = true := (runUpdate_sock s _).trans hsock
      have hs1tp := ((runUpdate_presAll s (skipMsgPatch (photo.photoId.id ++ ".jpg"))
        rfl rfl).2.2.1).trans htp
      have h2c : (runUpdate (runUpdate s (skipMsgPatch (photo.photoId.id ++ ".jpg"))).1
          (thenPatch dl ml tpc (d + i + 1) (d + m))).1.global.cancelled = false :=
        (runUpdate_cancelled _ _ rfl rfl).trans hs1c
      have h2sock : (runUpdate (runUpdate s (skipMsgPatch (photo.photoId.id ++ ".jpg"))).1
          (thenPatch dl ml tpc (d + i + 1) (d + m))).1.hasSocket = true :=
        (runUpdate_sock _ _).trans hs1sock
      have h2tp : (runUpdate (runUpdate s (skipMsgPatch (photo.photoId.id ++ ".jpg"))).1
          (thenPatch dl ml tpc (d + i + 1) (d + m))).1.global.totalProgress =
          some (pctRound (d + (i + 1)) (d + m)) := by
        rw [runUpdate_tp_set _ _ _ rfl rfl, roundPctOpt_pos _ _ hden, ← Nat.add_assoc]
      obtain ⟨mp2, dp2, hm2, hd2⟩ := moveToDownloaded_some sess photo.photoId.id mp dp hmp hdp
      obtain ⟨e1, e2, e3, e4, e5, e6, e7, e8⟩ := batchLoop_happy env existing d m tpc tp
        hok hden rest (i + 1) (moveToDownloaded sess photo.photoId.id) (sk + 1) _
        ⟨mp2, hm2⟩ ⟨dp2, hd2⟩ h2c h2sock h2tp
      refine ⟨e1, ?_, ?_, ?_, e5, e6, e7, ?_⟩
      · simp only [invokedIds_append, runUpdate_invokes, invokedIds_skipExisting,
          invokedIds_thenBranch, invokedIds_nil, List.nil_append, List.append_nil, e2]
        have hexm : photo.photoId.id ++ ".jpg" ∈ existing := by simpa using hex
        simp [List.filter_cons, hexm]
      · intro l2 hl2
        have hp1 : pushedTPs (runUpdate s (skipMsgPatch (photo.photoId.id ++ ".jpg"))).2 =
            [some (pctRound (d + i) (d + m))] := by
          rw [runUpdate_pushedTPs_keep s _ rfl rfl hsock, htp]
        have hp2 : pushedTPs (runUpdate
            (runUpdate s (skipMsgPatch (photo.photoId.id ++ ".jpg"))).1
            (thenPatch dl ml tpc (d + i + 1) (d + m))).2 =
            [some (pctRound (d + i + 1) (d + m))] := by
          rw [runUpdate_pushedTPs_set _ _ _ rfl rfl hs1sock, roundPctOpt_pos _ _ hden]
        have harith : d + (i + 1) + rest.length = d + i + (photo :: rest).length := by
          simp only [List.length_cons]
          omega
        rw [← harith] at hl2
        rw [← Nat.add_assoc] at e3
        simp only [pushedTPs_append, pushedTPs_skipExisting, pushedTPs_thenBranch,
          pushedTPs_nil, List.append_nil, List.nil_append, List.append_assoc, hp1, hp2]
        exact chainFrom_cons_all [some (pctRound (d + i) (d + m))]
          (pushedTPs (batchLoop env existing d m tpc tp rest (i + 1)
            (moveToDownloaded sess photo.photoId.id) (sk + 1) _).2.1 ++ l2)
          (by simp) hvw (e3 l2 hl2)
      · rw [e4, List.length_cons]
        have : d + (i + 1) + rest.length = d + i + (rest.length + 1) := by omega
        rw [this]
      · intro p hp hpex
        rcases List.mem_cons.mp hp with hpp | hpr
        · subst hpp
          refine ⟨by simp, by simp, ?_⟩
          have hmsg : hasGlobalMessage
              (runUpdate s (skipMsgPatch (p.photoId.id ++ ".jpg"))).2
              ("Skipping existing file: " ++ (p.photoId.id ++ ".jpg")) = true := by
            rw [runUpdate_global s _ rfl]
            simp [hsock, hasGlobalMessage, mergeGlobal, skipMsgPatch, Patch.empty]
          simp only [hasGlobalMessage_def, globalPushes_append, List.any_append] at hmsg ⊢
          simp [hmsg]
        · obtain ⟨w1, w2, w3⟩ := e8 p hpr hpex
          refine ⟨by simp [w1], by simp [w2], ?_⟩
          simp only [hasGlobalMessage_def, globalPushes_append, List.any_append] at w3 ⊢
          simp [w3]
    · rw [if_neg hex]
      have hr0c : (runUpdate s (processingPatch d i tpc tp
          (photo.photoId.id ++ ".jpg"))).1.global.cancelled = false :=
        (runUpdate_cancelled s _ rfl rfl).trans hc
      have hr0sock : (runUpdate s (processingPatch d i tpc tp
          (photo.photoId.id ++ ".jpg"))).1.hasSocket = true :=
        (runUpdate_sock s _).trans hsock
      have hr0tp := ((runUpdate_presAll s (processingPatch d i tpc tp
        (photo.photoId.id ++ ".jpg")) rfl rfl).2.2.1).trans htp
      obtain ⟨f, hf⟩ := (hok i).2 photo _ hr0c hr0sock
      rw [hf]
      have hPres := processPhoto_presAll (env.item i) photo
        (runUpdate s (processingPatch d i tpc tp (photo.photoId.id ++ ".jpg"))).1
      have hrpc : (processPhoto (env.item i) batchCb photo
          (runUpdate s (processingPatch d i tpc tp
            (photo.photoId.id ++ ".jpg"))).1).1.global.cancelled = false :=
        processPhoto_tame (env.item i) photo _ (hok i).1 hr0c
      have hrpsock := (hPres.1).trans hr0sock
      have hrptp := (hPres.2.2.1).trans hr0tp
      obtain ⟨dl, ml, hthen⟩ := thenStep_ok d m tpc i photo.photoId.id sess
        (processPhoto (env.item i) batchCb photo
          (runUpdate s (processingPatch d i tpc tp (photo.photoId.id ++ ".jpg"))).1).1
        mp dp hmp hdp
      rw [hthen]
      dsimp only
      have h2c : (runUpdate (processPhoto (env.item i) batchCb photo
          (runUpdate s (processingPatch d i tpc tp (photo.photoId.id ++ ".jpg"))).1).1
          (thenPatch dl ml tpc (d + i + 1) (d + m))).1.global.cancelled = false :=
        (runUpdate_cancelled _ _ rfl rfl).trans hrpc
      have h2sock : (runUpdate (processPhoto (env.item i) batchCb photo
          (runUpdate s (processingPatch d i tpc tp (photo.photoId.id ++ ".jpg"))).1).1
          (thenPatch dl ml tpc (d + i + 1) (d + m))).1.hasSocket = true :=
        (runUpdate_sock _ _).trans hrpsock
      have h2tp : (runUpdate (processPhoto (env.item i) batchCb photo
          (runUpdate s (processingPatch d i tpc tp (photo.photoId.id ++ ".jpg"))).1).1
          (thenPatch dl ml tpc (d + i + 1) (d + m))).1.global.totalProgress =
          some (pctRound (d + (i + 1)) (d + m)) := by
        rw [runUpdate_tp_set _ _ _ rfl rfl, roundPctOpt_pos _ _ hden, ← Nat.add_assoc]
      obtain ⟨mp2, dp2, hm2, hd2⟩ := moveToDownloaded_some sess photo.photoId.id mp dp hmp hdp
      obtain ⟨e1, e2, e3, e4, e5, e6, e7, e8⟩ := batchLoop_happy env existing d m tpc tp
        hok hden rest (i + 1) (moveToDownloaded sess photo.photoId.id) sk _
        ⟨mp2, hm2⟩ ⟨dp2, hd2⟩ h2c h2sock h2tp
      refine ⟨e1, ?_, ?_, ?_, e5, e6, e7, ?_⟩
      · simp only [invokedIds_append, runUpdate_invokes, invokedIds_invoke,
          invokedIds_thenBranch, invokedIds_nil, List.nil_append, List.append_nil, e2,
          hPres.2.2.2.1]
        have hexm : ¬ photo.photoId.id ++ ".jpg" ∈ existing := by simpa using hex
        simp [List.filter_cons, hexm]
      · intro l2 hl2
        have hp1 : pushedTPs (runUpdate s (processingPatch d i tpc tp
            (photo.photoId.id ++ ".jpg"))).2 = [some (pctRound (d + i) (d + m))] := by
          rw [runUpdate_pushedTPs_keep s _ rfl rfl hsock, htp]
        have hp2 : pushedTPs (runUpdate (processPhoto (env.item i) batchCb photo
            (runUpdate s (processingPatch d i tpc tp (photo.photoId.id ++ ".jpg"))).1).1
            (thenPatch dl ml tpc (d + i + 1) (d + m))).2 =
            [some (pctRound (d + i + 1) (d + m))] := by
          rw [runUpdate_pushedTPs_set _ _ _ rfl rfl hrpsock, roundPctOpt_pos _ _ hden]
        have hall : ∀ x ∈ pushedTPs (processPhoto (env.item i) batchCb photo
            (runUpdate s (processingPatch d i tpc tp (photo.photoId.id ++ ".jpg"))).1).2.1,
            x = some (pctRound (d + i) (d + m)) := by
          intro x hx
          rw [presAll_pushedTPs hPres x hx, hr0tp]
        have harith : d + (i + 1) + rest.length = d + i + (photo :: rest).length := by
          simp only [List.length_cons]
          omega
        rw [← harith] at hl2
        rw [← Nat.add_assoc] at e3
        simp only [pushedTPs_append, pushedTPs_invoke, pushedTPs_thenBranch,
          pushedTPs_nil, List.append_nil, List.nil_append, hp1, hp2, List.append_assoc]
        refine chainFrom_cons_all (some (pctRound (d + i) (d + m)) ::
          pushedTPs (processPhoto (env.item i) batchCb photo
            (runUpdate s (processingPatch d i tpc tp (photo.photoId.id ++ ".jpg"))).1).2.1)
          (pushedTPs (batchLoop env existing d m tpc tp rest (i + 1)
            (moveToDownloaded sess photo.photoId.id) sk _).2.1 ++ l2) ?_ hvw (e3 l2 hl2)
        intro x hx
        rcases List.mem_cons.mp hx with h | h
        · exact h
        · exact hall x h
      · rw [e4, List.length_cons]
        have : d + (i + 1) + rest.length = d + i + (rest.length + 1) := by omega
        rw [this]
      · intro p hp hpex
        rcases List.mem_cons.mp hp with hpp | hpr
        · subst hpp
          rw [hpex] at hex
          exact absurd rfl hex
        · obtain ⟨w1, w2, w3⟩ := e8 p hpr hpex
          refine ⟨by simp [w1], by simp [w2], ?_⟩
          simp only [hasGlobalMessage_def, globalPushes_append, List.any_append] at w3 ⊢
          simp [w3]

lemma downloadAllPhotos_happy (env : BatchEnv) (sess : Session) (photos : List Photo)
    (d mc : ℕ) (folder : Folder) (fid : String) (names : List String)
    (mp dp : List Photo)
    (hok : ItemsOk env)
    (hauth : env.authClient = JsResult.ok ())
    (hdrive : env.driveClient = JsResult.ok ())
    (hfolder : env.findFolder = JsResult.ok (some folder))
    (hfid : jsTruthyStr folder.id = some fid)
    (hlist : env.listFilesRes = JsResult.ok names)
    (hden : 0 < d + mc)
    (hmp : sess.missingPhotos = some mp) (hdp : sess.downloadedPhotos = some dp) :
    chainFrom 0
      (pushedTPs (downloadAllPhotos env sess photos d mc (resetStore true)).trace) = true ∧
    (pushedTPs (downloadAllPhotos env sess photos d mc (resetStore true)).trace).getLast? =
      some (some (pctRound (d + photos.length) (d + mc))) ∧
    invokedIds (downloadAllPhotos env sess photos d mc (resetStore true)).trace =
      (photos.filter fun p => !names.contains (p.photoId.id ++ ".jpg")).map
        (fun p => p.photoId.id) ∧
    (∀ p ∈ photos, names.contains (p.photoId.id ++ ".jpg") = true →
      Event.skipExisting p.photoId.id ∈
        (downloadAllPhotos env sess photos d mc (resetStore true)).trace ∧
      Event.thenBranch p.photoId.id ∈
        (downloadAllPhotos env sess photos d mc (resetStore true)).trace ∧
      hasGlobalMessage (downloadAllPhotos env sess photos d mc (resetStore true)).trace
        ("Skipping existing file: " ++ (p.photoId.id ++ ".jpg")) = true) := by
  have h1c : (runUpdate (resetStore true)
      (folderLinkPatch (jsTruthyStr folder.webViewLink))).1.global.cancelled = false :=
    (runUpdate_cancelled _ _ rfl rfl).trans rfl
  have h1sock : (runUpdate (resetStore true)
      (folderLinkPatch (jsTruthyStr folder.webViewLink))).1.hasSocket = true :=
    (runUpdate_sock _ _).trans rfl
  have h1tp : (runUpdate (resetStore true)
      (folderLinkPatch (jsTruthyStr folder.webViewLink))).1.global.totalProgress = some 0 :=
    ((runUpdate_presAll _ _ rfl rfl).2.2.1).trans rfl
  have h2c : (runUpdate (runUpdate (resetStore true)
      (folderLinkPatch (jsTruthyStr folder.webViewLink))).1
      (startingPatch photos.length (pctRound d (d + mc)))).1.global.cancelled = false :=
    (runUpdate_cancelled _ _ rfl rfl).trans h1c
  have h2sock : (runUpdate (runUpdate (resetStore true)
      (folderLinkPatch (jsTruthyStr folder.webViewLink))).1
      (startingPatch photos.length (pctRound d (d + mc)))).1.hasSocket = true :=
    (runUpdate_sock _ _).trans h1sock
  have h2tp : (runUpdate (runUpdate (resetStore true)
      (folderLinkPatch (jsTruthyStr folder.webViewLink))).1
      (startingPatch photos.length (pctRound d (d + mc)))).1.global.totalProgress =
      some (pctRound (d + 0) (d + mc)) :=
    runUpdate_tp_set _ _ _ rfl rfl
  obtain ⟨e1, e2, e3, e4, e5, e6, e7, e8⟩ := batchLoop_happy env names d mc (d + mc)
    photos.length hok hden photos 0 sess 0 _ ⟨mp, hmp⟩ ⟨dp, hdp⟩ h2c h2sock h2tp
  have hLsock := batchLoop_sock env names d mc (d + mc) photos.length photos 0 sess 0
    (runUpdate (runUpdate (resetStore true)
      (folderLinkPatch (jsTruthyStr folder.webViewLink))).1
      (startingPatch photos.length (pctRound d (d + mc)))).1
  have hp1 : pushedTPs (runUpdate (resetStore true)
      (folderLinkPatch (jsTruthyStr folder.webViewLink))).2 = [some 0] := by
    rw [runUpdate_pushedTPs_keep _ _ rfl rfl rfl]
    rfl
  have hp2 : pushedTPs (runUpdate (runUpdate (resetStore true)
      (folderLinkPatch (jsTruthyStr folder.webViewLink))).1
      (startingPatch photos.length (pctRound d (d + mc)))).2 =
      [some (pctRound d (d + mc))] :=
    runUpdate_pushedTPs_set _ _ _ rfl rfl h1sock
  have hp4 : pushedTPs (runUpdate (batchLoop env names d mc (d + mc) photos.length
      photos 0 sess 0 (runUpdate (runUpdate (resetStore true)
        (folderLinkPatch (jsTruthyStr folder.webViewLink))).1
        (startingPatch photos.length (pctRound d (d + mc)))).1).1
      (terminalPatch (if 0 < (batchLoop env names d mc (d + mc) photos.length photos 0 sess 0
        (runUpdate (runUpdate (resetStore true)
          (folderLinkPatch (jsTruthyStr folder.webViewLink))).1
          (startingPatch photos.length (pctRound d (d + mc)))).1).2.2.2.1 then
        "All photos downloaded successfully to Google Drive!" ++ " " ++
          toString (batchLoop env names d mc (d + mc) photos.length photos 0 sess 0
            (runUpdate (runUpdate (resetStore true)
              (folderLinkPatch (jsTruthyStr folder.webViewLink))).1
              (startingPatch photos.length (pctRound d (d + mc)))).1).2.2.2.1 ++
          " photos were skipped."
      else "All photos downloaded successfully to Google Drive!"))).2 =
      [some (pctRound (d + 0 + photos.length) (d + mc))] := by
    rw [runUpdate_pushedTPs_keep _ _ rfl rfl (hLsock.1.trans h2sock), e4]
  unfold downloadAllPhotos
  simp only [hauth, hdrive, hfolder, hfid, hlist]
  rw [if_pos hden]
  simp only [e1]
  refine ⟨?_, ?_, ?_, ?_⟩
  · simp only [pushedTPs_append, hp1, hp2, hp4, List.append_assoc]
    have hlast : chainFrom (pctRound (d + 0 + photos.length) (d + mc))
        [some (pctRound (d + 0 + photos.length) (d + mc))] = true := by
      simp [chainFrom]
    have hchain := e3 [some (pctRound (d + 0 + photos.length) (d + mc))] hlast
    show chainFrom 0 (some 0 :: some (pctRound d (d + mc)) :: _) = true
    simp only [chainFrom, Bool.and_eq_true, decide_eq_true_eq]
    exact ⟨by omega, by omega, hchain⟩
  · simp only [pushedTPs_append, hp1, hp2, hp4, ← List.append_assoc]
    rw [List.getLast?_concat]
    rfl
  · simp only [invokedIds_append, runUpdate_invokes, invokedIds_nil,
      List.nil_append, List.append_nil, e2]
  · intro p hp hpex
    obtain ⟨w1, w2, w3⟩ := e8 p hp hpex
    refine ⟨by simp [w1], by simp [w2], ?_⟩
    simp only [hasGlobalMessage_def, globalPushes_append, List.any_append] at w3 ⊢
    simp [w3]

lemma pxOkEnv_retFile (env : TransferEnv) (photo : Photo) (s : StoreState)
    (hpx : env.piexif = pxOk)
    (hdl : env.download 0 = JsResult.ok ([], [1, 2, 3]))
    (hflip : env.cancelDuringDownload 0 = false)
    (hfind : env.findFile = JsResult.ok none)
    (hcreate : env.createFile = fun _ _ => JsResult.ok ([], ⟨"f2", some "lnk2"⟩))
    (hc : s.global.cancelled = false) :
    (processPhoto env batchCb photo s).2.2 = PPOut.retFile ⟨"f2", some "lnk2"⟩ := by
  have hc0 : (batchCb (dlStartPatch photo.photoId.id) s).1.global.cancelled = false :=
    (batchCb_cancelled _ _ rfl).trans hc
  unfold processPhoto
  rw [show (3 : ℕ) = 2 + 1 from rfl]
  simp only [embedAttempts, oneAttempt, cbStream, hdl, hflip, Bool.false_eq_true, if_false,
    hc0, hpx, pxOk]
  unfold uploadPhase
  simp only [hfind, hcreate]

lemma itemsOk_benvOk : ItemsOk benvOk := by
  intro i
  refine ⟨⟨fun _ => rfl, rfl⟩, ?_⟩
  intro photo s hc _
  exact ⟨⟨"f2", some "lnk2"⟩, pxOkEnv_retFile envOk photo s rfl rfl rfl rfl rfl hc⟩

lemma itemsOk_benvSkipA : ItemsOk benvSkipA := itemsOk_benvOk

lemma length_filter_not_add (l : List Photo) (f : Photo → Bool) :
    (l.filter fun p => !f p).length + (l.filter f).length = l.length := by
  induction l with
  | nil => rfl
  | cons a t ih =>
    by_cases h : f a = true <;> simp [List.filter_cons, h, ← ih] <;> omega

lemma envBoom_thrown (photo : Photo) (s : StoreState) (hc : s.global.cancelled = false) :
    (processPhoto envBoom batchCb photo s).2.2 = PPOut.thrown "boom" := by
  have h := oneAttempt_nonPack envBoom photo none s [1, 2, 3] "boom" rfl rfl hc rfl (by decide)
  unfold processPhoto
  rw [show (3 : ℕ) = 2 + 1 from rfl,
    embedAttempts_thrownStep envBoom photo 2 0 none s "boom" h.1]

/-- C6 (confirmed): every terminal path of the Batch Orchestrator — normal
completion, the cancellation break, and the top-level error handler — ends
with a global update carrying `complete = true` and `inProgress = false`, so
the final store and the last pushed global record both satisfy the two flags
together, whatever the environment did (success, skips, cancellation or
errors). -/
theorem C6_terminal_flags (env : BatchEnv) (sess : Session) (photos : List Photo)
    (d m : ℕ) (s0 : StoreState) (hsock : s0.hasSocket = true) :
    (downloadAllPhotos env sess photos d m s0).store.global.complete = true ∧
    (downloadAllPhotos env sess photos d m s0).store.global.inProgress = false ∧
    lastGlobalPush (downloadAllPhotos env sess photos d m s0).trace =
      some (downloadAllPhotos env sess photos d m s0).store.global := by
  unfold downloadAllPhotos
  cases ha : env.authClient with
  | err msg =>
    exact errorExit_final s0 [] sess 0 msg hsock
  | ok u =>
    dsimp only
    cases hb : env.driveClient with
    | err msg => exact errorExit_final s0 [] sess 0 msg hsock
    | ok u2 =>
      dsimp only
      cases hfo : env.findFolder with
      | err msg => exact errorExit_final s0 [] sess 0 msg hsock
      | ok fo =>
        cases fo with
        | none =>
          dsimp only
          exact errorExit_final s0 [] sess 0 _ hsock
        | some folder =>
          dsimp only
          cases hid : jsTruthyStr folder.id with
          | none => exact errorExit_final s0 [] sess 0 _ hsock
          | some fid =>
            dsimp only
            have hs1 : (runUpdate s0 (folderLinkPatch (jsTruthyStr folder.webViewLink))).1.hasSocket =
                true := (runUpdate_sock _ _).trans hsock
            cases hlf : env.listFilesRes with
            | err msg => exact errorExit_final _ _ sess 0 msg hs1
            | ok names =>
              have hs2 : (runUpdate (runUpdate s0
                  (folderLinkPatch (jsTruthyStr folder.webViewLink))).1
                  (startingPatch photos.length (if 0 < d + m then pctRound d (d + m) else 0))).1.hasSocket =
                  true := (runUpdate_sock _ _).trans hs1
              have hs3 := (batchLoop_sock env names d m (d + m) photos.length photos 0 sess 0
                (runUpdate (runUpdate s0 (folderLinkPatch (jsTruthyStr folder.webViewLink))).1
                  (startingPatch photos.length (if 0 < d + m then pctRound d (d + m) else 0))).1).1.trans hs2
              cases hexit : (batchLoop env names d m (d + m) photos.length photos 0 sess 0
                  (runUpdate (runUpdate s0 (folderLinkPatch (jsTruthyStr folder.webViewLink))).1
                    (startingPatch photos.length
                      (if 0 < d + m then pctRound d (d + m) else 0))).1).2.2.2.2 with
              | thrownE msg =>
                simp only [hexit]
                exact errorExit_final _ _ _ _ msg hs3
              | finished =>
                simp only [hexit]
                exact runUpdate_final _ _ _ hs3 rfl rfl rfl
              | brokeCancel =>
                simp only [hexit]
                exact runUpdate_final _ _ _ hs3 rfl rfl rfl

/-- Witness for C6 at a concrete two-photo run. -/
theorem C6_terminal_flags_witness :
    (downloadAllPhotos benvOk sessAB [photoA, photoB] 0 2 store0).store.global.complete = true ∧
    (downloadAllPhotos benvOk sessAB [photoA, photoB] 0 2 store0).store.global.inProgress = false ∧
    lastGlobalPush (downloadAllPhotos benvOk sessAB [photoA, photoB] 0 2 store0).trace =
      some (downloadAllPhotos benvOk sessAB [photoA, photoB] 0 2 store0).store.global :=
  C6_terminal_flags benvOk sessAB [photoA, photoB] 0 2 store0 rfl

/-! ## Claim C10 -/

/-- C10 (confirmed): a batch started with
`alreadyTransferredCount + toTransferCount = 0` and the empty item list
computes its initial `totalProgress` through the explicit zero-denominator
guard as the number 0 (every pushed `totalProgress` of the run is the
defined value 0, never an undefined `NaN`), performs zero Transfer Unit
invocations, and still terminates with a published update carrying
`complete = true`. -/
theorem C10_empty_guard (env : BatchEnv) (sess : Session) (folder : Folder)
    (names : List String) (fid : String)
    (h1 : env.authClient = JsResult.ok ()) (h2 : env.driveClient = JsResult.ok ())
    (h3 : env.findFolder = JsResult.ok (some folder)) (h4 : jsTruthyStr folder.id = some fid)
    (h5 : env.listFilesRes = JsResult.ok names) :
    invokedIds (downloadAllPhotos env sess [] 0 0 (resetStore true)).trace = [] ∧
    pushedTPs (downloadAllPhotos env sess [] 0 0 (resetStore true)).trace =
      [some 0, some 0, some 0] ∧
    (lastGlobalPush (downloadAllPhotos env sess [] 0 0 (resetStore true)).trace).map
      GlobalState.complete = some true := by
  unfold downloadAllPhotos
  rw [h1, h2, h3]
  dsimp only
  rw [h4, h5]
  dsimp only
  simp [batchLoop, runUpdate, updateState, jsTruthyStr, mergeGlobal, folderLinkPatch,
    startingPatch, terminalPatch, Patch.empty, GlobalState.init, resetStore, lastGlobalPush,
    pctRound]

/-- Witness for C10 at a concrete environment. -/
theorem C10_empty_guard_witness :
    invokedIds (downloadAllPhotos benvOk sessAB [] 0 0 (resetStore true)).trace = [] ∧
    pushedTPs (downloadAllPhotos benvOk sessAB [] 0 0 (resetStore true)).trace =
      [some 0, some 0, some 0] ∧
    (lastGlobalPush (downloadAllPhotos benvOk sessAB [] 0 0 (resetStore true)).trace).map
      GlobalState.complete = some true :=
  C10_empty_guard benvOk sessAB ⟨some "fol", some "follink"⟩ [] "fol" rfl rfl rfl rfl rfl

/-! ## Claim C8 -/

/-- C8 (counterexample): an item-scoped patch carrying only `uploadStarted`
pushes a record that also carries the previously stored `downloadProgress`
of that photo — the pushed message is the entire merged record, not only the
item-scoped patch fields, contradicting the claim as stated. -/
theorem C8_counterexample :
    (updateState c8Store c8Patch).pushes =
      [PushPayload.individual "a"
        { IndividualState.empty with downloadProgress := some (some 10), uploadStarted := some true }] ∧
    c8Patch.downloadProgress = none ∧ c8Patch.uploadStarted = some true := by
  refine ⟨?_, rfl, rfl⟩
  decide

/-- C8 (amended): `updateState` with a (truthy) item identifier merges the
remaining patch fields into that photo's record, creating it if absent, and
pushes that photo's entire merged record to the live channel, leaving the
global record untouched; with no identifier it merges into the global record
and pushes the entire merged global record, leaving the photo records
untouched. -/
theorem C8_update_routing :
    (∀ (s : StoreState) (p : Patch) (pid : String),
      p.photoId = some pid → pid ≠ "" → s.hasSocket = true →
      (updateState s p).store.individual =
        setInd s.individual pid
          (mergeIndividual ((lookupInd s.individual pid).getD IndividualState.empty) p) ∧
      (updateState s p).store.global = s.global ∧
      (updateState s p).pushes =
        [PushPayload.individual pid
          (mergeIndividual ((lookupInd s.individual pid).getD IndividualState.empty) p)]) ∧
    (∀ (s : StoreState) (p : Patch),
      p.photoId = none → s.hasSocket = true →
      (updateState s p).store.global = mergeGlobal s.global p ∧
      (updateState s p).store.individual = s.individual ∧
      (updateState s p).pushes = [PushPayload.global (mergeGlobal s.global p)]) := by
  constructor
  · intro s p pid hp hne hsock
    unfold updateState
    simp only [jsTruthyStr, hp, if_neg hne, hsock, if_true]
    exact ⟨trivial, trivial, trivial⟩
  · intro s p hp hsock
    unfold updateState
    simp only [jsTruthyStr, hp, hsock, if_true]
    exact ⟨trivial, trivial, trivial⟩

/-! ## Claim C9 -/

/-- C9 (counterexample): for an item with no pose the Transfer Unit does not
upload the downloaded raw bytes verbatim — at this concrete environment the
uploaded bytes are `insert (dump (load raw)) raw = [3,1,2,3]`, different
from the raw `[1,2,3]`, because the parse/serialize/splice pipeline still
runs (only the pose injection is skipped). -/
theorem C9_counterexample :
    photoA.pose = none ∧
    envOk.download 0 = JsResult.ok ([], [1, 2, 3]) ∧
    (processPhoto envOk batchCb photoA store0).2.2 = PPOut.retFile ⟨"f2", some "lnk2"⟩ ∧
    uploadCallsOf (processPhoto envOk batchCb photoA store0).2.1 =
      [("a.jpg", [3, 1, 2, 3], false)] ∧
    ([3, 1, 2, 3] : Bytes) ≠ [1, 2, 3] := by
  refine ⟨rfl, rfl, by decide, by decide, by decide⟩

/-- C9 (amended): for an item with no pose, the pose-injection step leaves
the parsed metadata object unchanged, so the Transfer Unit uploads
`insert (dump (load raw)) raw` — the raw downloaded bytes re-spliced through
the codec, not necessarily byte-identical to them — and the transfer still
completes successfully with a destination file reference. -/
theorem C9_no_pose (env : TransferEnv) (photo : Photo) (s : StoreState)
    (data : Bytes) (exif : ExifObj) (eb nd : Bytes) (pcts : List ℕ) (f : FileRef)
    (hpose : photo.pose = none)
    (hflip : ∀ k, env.cancelDuringDownload k = false)
    (hfind0 : env.cancelDuringFind = false)
    (hc : s.global.cancelled = false)
    (hdl : env.download 0 = JsResult.ok ([], data))
    (hload : env.piexif.load data = JsResult.ok exif)
    (hdump : env.piexif.dump exif = JsResult.ok eb)
    (hins : env.piexif.insert eb data = JsResult.ok nd)
    (hfind : env.findFile = JsResult.ok none)
    (hcreate : env.createFile (photo.photoId.id ++ ".jpg") nd = JsResult.ok (pcts, f)) :
    (processPhoto env batchCb photo s).2.2 = PPOut.retFile f ∧
    uploadCallsOf (processPhoto env batchCb photo s).2.1 =
      [(photo.photoId.id ++ ".jpg", nd, false)] ∧
    applyPose exif photo = exif := by
  have happ : applyPose exif photo = exif := by simp only [applyPose, hpose]
  have hcc : (batchCb (dlStartPatch photo.photoId.id) s).1.global.cancelled = false :=
    (batchCb_cancelled _ _ rfl).trans hc
  unfold processPhoto
  rw [show (3 : ℕ) = 2 + 1 from rfl]
  simp only [embedAttempts, oneAttempt, hdl, hflip, cbStream, Bool.false_eq_true, if_false,
    hcc, hload, happ, hdump, hins, uploadPhase, hfind, hfind0, hcreate]
  refine ⟨trivial, ?_, trivial⟩
  simp

/-- Witness for C9 at the concrete no-pose run. -/
theorem C9_no_pose_witness :
    (processPhoto envOk batchCb photoA store0).2.2 = PPOut.retFile ⟨"f2", some "lnk2"⟩ ∧
    uploadCallsOf (processPhoto envOk batchCb photoA store0).2.1 =
      [("a.jpg", [3, 1, 2, 3], false)] ∧
    applyPose ⟨3, none, none⟩ photoA = ⟨3, none, none⟩ :=
  C9_no_pose envOk photoA store0 [1, 2, 3] ⟨3, none, none⟩ [3] [3, 1, 2, 3] []
    ⟨"f2", some "lnk2"⟩ rfl (fun _ => rfl) rfl rfl rfl rfl rfl rfl rfl rfl

/-- Witness for C8 at concrete patches. -/
theorem C8_update_routing_witness :
    (updateState c8Store c8Patch).pushes =
      [PushPayload.individual "a"
        (mergeIndividual ((lookupInd c8Store.individual "a").getD IndividualState.empty) c8Patch)] ∧
    (updateState c8Store c8GlobalPatch).pushes =
      [PushPayload.global (mergeGlobal c8Store.global c8GlobalPatch)] := by
  constructor
  · exact (C8_update_routing.1 c8Store c8Patch "a" rfl (by decide) rfl).2.2
  · exact (C8_update_routing.2 c8Store c8GlobalPatch rfl rfl).2.2


/-- C4 (counterexample): with every download attempt failing with a
`"pack"`-signature message (`envPackDl`), the Transfer Unit returns `null`
(`PPOut.retNull`) even though cancellation was never requested: the global
`cancelled` flag is still `false` at the end and no `"Download cancelled."`
message was ever pushed.  Hence a `null` return does NOT exclusively encode
"cancelled, no error". -/
theorem C4_counterexample :
    (processPhoto envPackDl batchCb photoA store0).2.2 = PPOut.retNull ∧
    (processPhoto envPackDl batchCb photoA store0).1.global.cancelled = false ∧
    hasGlobalMessage (processPhoto envPackDl batchCb photoA store0).2.1
      "Download cancelled." = false := ⟨rfl, rfl, rfl⟩

/-- C4 (amended): (i) if the stored global `cancelled` flag is true at the
post-download check — either because it was already set, or because a
cancel-download message was delivered while attempt 0's bytes were being
awaited — the Transfer Unit pushes the `"Download cancelled."` message,
returns `null` (`PPOut.retNull`), and never calls the upload API.
(ii) A `null` return means EITHER the cancellation branch ran (the trace
contains its exit marker) OR all three download attempts threw errors
matching the transient `"pack"` signature (so `jpegData` was never
assigned); in particular `null` is not exclusive to cancellation. -/
theorem C4_cancel_sentinel :
    (∀ (env : TransferEnv) (photo : Photo) (s : StoreState) (pcts : List ℕ) (data : Bytes),
      env.download 0 = JsResult.ok (pcts, data) →
      s.hasSocket = true →
      (s.global.cancelled = true ∨ env.cancelDuringDownload 0 = true) →
      (processPhoto env batchCb photo s).2.2 = PPOut.retNull ∧
      hasGlobalMessage (processPhoto env batchCb photo s).2.1 "Download cancelled." = true ∧
      uploadCallsOf (processPhoto env batchCb photo s).2.1 = []) ∧
    (∀ (env : TransferEnv) (photo : Photo) (s : StoreState),
      (processPhoto env batchCb photo s).2.2 = PPOut.retNull →
      Event.cancelExit photo.photoId.id ∈ (processPhoto env batchCb photo s).2.1 ∨
      ∀ k, k < 3 → ∃ mk, env.download k = JsResult.err mk ∧ jsIncludes mk "pack" = true) := by
  constructor
  · intro env photo s pcts data hdl hsock hcase
    obtain ⟨h1, h2, h3⟩ := oneAttempt_cancelCase env photo 0 none s pcts data hdl hsock hcase
    unfold processPhoto
    rw [show (3 : ℕ) = 2 + 1 from rfl, embedAttempts_cancelStep env photo 2 0 none s h1]
    exact ⟨rfl, h2, h3⟩
  · intro env photo s hnull
    cases hle : (embedAttempts env batchCb photo 3 0 none s).2.2.2 with
    | cancelledLoop =>
      left
      unfold processPhoto
      simp only [hle]
      exact embedAttempts_cancelExit env photo 3 0 none s hle
    | thrownLoop m =>
      unfold processPhoto at hnull
      simp only [hle] at hnull
      exact absurd hnull (by simp)
    | broke nj =>
      unfold processPhoto at hnull
      simp only [hle] at hnull
      exact absurd hnull (uploadPhase_out env photo nj _)
    | exhausted =>
      cases hjd : (embedAttempts env batchCb photo 3 0 none s).2.2.1 with
      | some j =>
        unfold processPhoto at hnull
        simp only [hle, hjd] at hnull
        exact absurd hnull (uploadPhase_out env photo j _)
      | none =>
        right
        obtain ⟨-, hall⟩ := embedAttempts_noData env photo 3 0 none s hle hjd
        intro k hk
        simpa using hall k hk

/-- Witness for C4: part (i) applied at the concrete environment
`envCancelDl0` (cancel delivered during attempt 0's download), part (ii)
applied to the resulting `null` return. -/
theorem C4_cancel_sentinel_witness :
    ((processPhoto envCancelDl0 batchCb photoA store0).2.2 = PPOut.retNull ∧
     hasGlobalMessage (processPhoto envCancelDl0 batchCb photoA store0).2.1
       "Download cancelled." = true ∧
     uploadCallsOf (processPhoto envCancelDl0 batchCb photoA store0).2.1 = []) ∧
    (Event.cancelExit photoA.photoId.id ∈ (processPhoto envCancelDl0 batchCb photoA store0).2.1 ∨
     ∀ k, k < 3 → ∃ mk, envCancelDl0.download k = JsResult.err mk ∧
       jsIncludes mk "pack" = true) := by
  have h1 := C4_cancel_sentinel.1 envCancelDl0 photoA store0 [] [1, 2, 3] rfl rfl (Or.inr rfl)
  have h2 := C4_cancel_sentinel.2 envCancelDl0 photoA store0 h1.1
  exact ⟨h1, h2⟩

/-- C3 (counterexample): with every embed attempt failing on the transient
`"pack"` signature (`envPack`), the backoff waits performed are
1000ms, 2000ms AND 3000ms — the `1000 * attempts` sleep also runs after the
third (final) failed attempt, not only between attempts, contradicting the
claimed "(1s, 2s)" schedule. -/
theorem C3_counterexample :
    waitsOf (processPhoto envPack batchCb photoA store0).2.1 = [1000, 2000, 3000] ∧
    waitsOf (processPhoto envPack batchCb photoA store0).2.1 ≠ [1000, 2000] := by
  exact ⟨rfl, by decide⟩

/-- C3 (amended): (i) every Transfer Unit run makes at most 3 embed
attempts; (ii) when every attempt fails with the recognised transient
`"pack"` signature, the run makes exactly 3 attempts, sleeps
`1000ms × attemptNumber` after each failure (1s, 2s, and also 3s after the
final one), pushes the "All 3 attempts failed" warning, and still uploads
the raw downloaded bytes, completing with a destination file reference;
(iii) an error not matching the signature is rethrown immediately: no
retry, no backoff wait, exactly one attempt. -/
theorem C3_embed_retry :
    (∀ (env : TransferEnv) (photo : Photo) (s : StoreState),
      (attemptStarts (processPhoto env batchCb photo s).2.1).length ≤ 3) ∧
    (∀ (env : TransferEnv) (photo : Photo) (s : StoreState) (data : Bytes) (m : String)
        (pcts : List ℕ) (f : FileRef),
      (∀ k, env.cancelDuringDownload k = false) →
      env.cancelDuringFind = false →
      s.global.cancelled = false →
      s.hasSocket = true →
      (∀ k, env.download k = JsResult.ok ([], data)) →
      env.piexif.load data = JsResult.err m →
      jsIncludes m "pack" = true →
      env.findFile = JsResult.ok none →
      env.createFile (photo.photoId.id ++ ".jpg") data = JsResult.ok (pcts, f) →
      (processPhoto env batchCb photo s).2.2 = PPOut.retFile f ∧
      uploadCallsOf (processPhoto env batchCb photo s).2.1 =
        [(photo.photoId.id ++ ".jpg", data, false)] ∧
      waitsOf (processPhoto env batchCb photo s).2.1 = [1000, 2000, 3000] ∧
      attemptStarts (processPhoto env batchCb photo s).2.1 =
        [photo.photoId.id, photo.photoId.id, photo.photoId.id] ∧
      hasGlobalMessage (processPhoto env batchCb photo s).2.1
        ("All 3 attempts failed for photo " ++ photo.photoId.id ++
          ". Uploading without EXIF.") = true) ∧
    (∀ (env : TransferEnv) (photo : Photo) (s : StoreState) (data : Bytes) (m : String),
      env.cancelDuringDownload 0 = false →
      s.global.cancelled = false →
      env.download 0 = JsResult.ok ([], data) →
      env.piexif.load data = JsResult.err m →
      jsIncludes m "pack" = false →
      (processPhoto env batchCb photo s).2.2 = PPOut.thrown m ∧
      waitsOf (processPhoto env batchCb photo s).2.1 = [] ∧
      attemptStarts (processPhoto env batchCb photo s).2.1 = [photo.photoId.id]) := by
  refine ⟨processPhoto_attemptStarts, ?_, ?_⟩
  · intro env photo s data m pcts f hflip hfind0 hc hsock hdl hload hm hfind hcreate
    obtain ⟨e1, e2, e3, e4, e5, e6⟩ :=
      embedAttempts_allPack env photo data m hflip hdl hload hm 3 0 none s (by omega) hc hsock
    rw [if_neg (by decide : ¬ (3 : ℕ) = 0)] at e2
    obtain ⟨u1, u2, u3⟩ := uploadPhase_create env photo data
      (embedAttempts env batchCb photo 3 0 none s).1 pcts f hfind hfind0 hcreate
    unfold processPhoto
    simp only [e1, e2]
    refine ⟨u1, ?_, ?_, ?_, ?_⟩
    · rw [uploadCallsOf_append, e4, u2]
      rfl
    · rw [waitsOf_append, e3, u3, List.append_nil]
      decide
    · rw [attemptStarts_append, e5, uploadPhase_attemptStarts, List.append_nil]
      rfl
    · have hmsg := e6 (by omega)
      simp [hasGlobalMessage] at hmsg ⊢
      simp [hmsg]
  · intro env photo s data m hflip hc hdl hload hm
    have h := oneAttempt_nonPack env photo none s data m hdl hflip hc hload hm
    unfold processPhoto
    rw [show (3 : ℕ) = 2 + 1 from rfl, embedAttempts_thrownStep env photo 2 0 none s m h.1]
    dsimp only
    exact ⟨rfl, h.2.1, h.2.2⟩

/-- Witness for C3: part (i) and the all-fail scenario (ii) at `envPack`,
the immediate-rethrow scenario (iii) at `envBoom`. -/
theorem C3_embed_retry_witness :
    (attemptStarts (processPhoto envPack batchCb photoA store0).2.1).length ≤ 3 ∧
    ((processPhoto envPack batchCb photoA store0).2.2 = PPOut.retFile ⟨"f2", some "lnk2"⟩ ∧
     uploadCallsOf (processPhoto envPack batchCb photoA store0).2.1 =
       [("a.jpg", [1, 2, 3], false)] ∧
     waitsOf (processPhoto envPack batchCb photoA store0).2.1 = [1000, 2000, 3000] ∧
     attemptStarts (processPhoto envPack batchCb photoA store0).2.1 = ["a", "a", "a"] ∧
     hasGlobalMessage (processPhoto envPack batchCb photoA store0).2.1
       ("All 3 attempts failed for photo " ++ "a" ++ ". Uploading without EXIF.") = true) ∧
    ((processPhoto envBoom batchCb photoA store0).2.2 = PPOut.thrown "boom" ∧
     waitsOf (processPhoto envBoom batchCb photoA store0).2.1 = [] ∧
     attemptStarts (processPhoto envBoom batchCb photoA store0).2.1 = ["a"]) := by
  refine ⟨C3_embed_retry.1 envPack photoA store0, ?_, ?_⟩
  · exact C3_embed_retry.2.1 envPack photoA store0 [1, 2, 3] "bad pack thing" []
      ⟨"f2", some "lnk2"⟩ (fun _ => rfl) rfl rfl rfl (fun _ => rfl) rfl (by decide) rfl rfl
  · exact C3_embed_retry.2.2 envBoom photoA store0 [1, 2, 3] "boom" rfl rfl rfl rfl (by decide)

/-- C1 (counterexample): with an empty destination listing (S is empty) and
two items, the first item's Transfer Unit invocation throws, the top-level
catch aborts the batch and only ONE invocation happens — not
`len(items) - |S| = 2` as claimed, because the claim's "(and no cancellation
occurs)" proviso does not exclude item errors. -/
theorem C1_counterexample :
    benvBoom0.listFilesRes = JsResult.ok [] ∧
    invokedIds (downloadAllPhotos benvBoom0 sessAB [photoA, photoB] 0 2
      (resetStore true)).trace = ["a"] ∧
    (invokedIds (downloadAllPhotos benvBoom0 sessAB [photoA, photoB] 0 2
      (resetStore true)).trace).length ≠ [photoA, photoB].length - 0 :=
  ⟨rfl, rfl, by decide⟩

/-- C1 (amended): for a batch whose setup succeeds, whose per-item Transfer
Unit environments are cancel-free and always return a file, and with 0 <
alreadyTransferred + toTransfer, the Transfer Unit is invoked exactly once
per item whose `id.jpg` name is NOT in the upfront listing, in list order
(so `len(items) - |S|` invocations, none for items in S), and every item in
S gets the skipped-existing branch: a `Skipping existing file:` message push
and the transferred-bookkeeping (`then`) branch. -/
theorem C1_idempotent_resume (env : BatchEnv) (sess : Session) (photos : List Photo)
    (d mc : ℕ) (folder : Folder) (fid : String) (names : List String) (mp dp : List Photo)
    (hok : ItemsOk env)
    (hauth : env.authClient = JsResult.ok ())
    (hdrive : env.driveClient = JsResult.ok ())
    (hfolder : env.findFolder = JsResult.ok (some folder))
    (hfid : jsTruthyStr folder.id = some fid)
    (hlist : env.listFilesRes = JsResult.ok names)
    (hden : 0 < d + mc)
    (hmp : sess.missingPhotos = some mp) (hdp : sess.downloadedPhotos = some dp) :
    invokedIds (downloadAllPhotos env sess photos d mc (resetStore true)).trace =
      (photos.filter fun p => !names.contains (p.photoId.id ++ ".jpg")).map
        (fun p => p.photoId.id) ∧
    (invokedIds (downloadAllPhotos env sess photos d mc (resetStore true)).trace).length +
      (photos.filter fun p => names.contains (p.photoId.id ++ ".jpg")).length =
      photos.length ∧
    (∀ p ∈ photos, names.contains (p.photoId.id ++ ".jpg") = true →
      Event.skipExisting p.photoId.id ∈
        (downloadAllPhotos env sess photos d mc (resetStore true)).trace ∧
      Event.thenBranch p.photoId.id ∈
        (downloadAllPhotos env sess photos d mc (resetStore true)).trace ∧
      hasGlobalMessage (downloadAllPhotos env sess photos d mc (resetStore true)).trace
        ("Skipping existing file: " ++ (p.photoId.id ++ ".jpg")) = true) := by
  obtain ⟨c1, c2, c3, c4⟩ := downloadAllPhotos_happy env sess photos d mc folder fid names
    mp dp hok hauth hdrive hfolder hfid hlist hden hmp hdp
  refine ⟨c3, ?_, c4⟩
  rw [c3, List.length_map]
  exact length_filter_not_add photos _

/-- Witness for C1 at a concrete two-item batch whose folder already holds
`a.jpg`: only `"b"` is invoked and `"a"` is published as skipped. -/
theorem C1_idempotent_resume_witness :
    invokedIds (downloadAllPhotos benvSkipA sessAB [photoA, photoB] 0 2
      (resetStore true)).trace =
      ([photoA, photoB].filter fun p => !(["a.jpg"].contains (p.photoId.id ++ ".jpg"))).map
        (fun p => p.photoId.id) ∧
    (invokedIds (downloadAllPhotos benvSkipA sessAB [photoA, photoB] 0 2
      (resetStore true)).trace).length +
      ([photoA, photoB].filter fun p => ["a.jpg"].contains (p.photoId.id ++ ".jpg")).length =
      [photoA, photoB].length ∧
    (∀ p ∈ [photoA, photoB], ["a.jpg"].contains (p.photoId.id ++ ".jpg") = true →
      Event.skipExisting p.photoId.id ∈
        (downloadAllPhotos benvSkipA sessAB [photoA, photoB] 0 2 (resetStore true)).trace ∧
      Event.thenBranch p.photoId.id ∈
        (downloadAllPhotos benvSkipA sessAB [photoA, photoB] 0 2 (resetStore true)).trace ∧
      hasGlobalMessage (downloadAllPhotos benvSkipA sessAB [photoA, photoB] 0 2
        (resetStore true)).trace
        ("Skipping existing file: " ++ (p.photoId.id ++ ".jpg")) = true) :=
  C1_idempotent_resume benvSkipA sessAB [photoA, photoB] 0 2 ⟨some "fol", some "follink"⟩
    "fol" ["a.jpg"] [photoA, photoB] [] itemsOk_benvSkipA rfl rfl rfl rfl rfl (by decide)
    rfl rfl

/-- C2 (counterexample): item-level errors are NOT contained: when item
`"a"`'s Transfer Unit throws, the batch ends with the error terminal update,
the item is not counted as skipped (`skippedCount = 0`), and item `"b"` is
never invoked — the batch does not continue to the next item. -/
theorem C2_counterexample :
    (downloadAllPhotos benvBoom0 sessAB [photoA, photoB] 0 2
      (resetStore true)).skippedCount = 0 ∧
    invokedIds (downloadAllPhotos benvBoom0 sessAB [photoA, photoB] 0 2
      (resetStore true)).trace = ["a"] ∧
    (downloadAllPhotos benvBoom0 sessAB [photoA, photoB] 0 2
      (resetStore true)).store.global.error = some ("An error occurred: " ++ "boom") ∧
    Event.invoke "b" ∉ (downloadAllPhotos benvBoom0 sessAB [photoA, photoB] 0 2
      (resetStore true)).trace := by
  refine ⟨rfl, rfl, rfl, by decide⟩

/-- C2 (amended): the orchestrator's try/catch wraps the WHOLE loop, so an
exception thrown by the Transfer Unit for the first item aborts the batch:
exactly one invocation happens, nothing is counted skipped, and the
top-level handler publishes the error (`An error occurred: ...`) with
`complete = true` and `inProgress = false`.  Only this batch-level
containment exists; there is no per-item catch. -/
theorem C2_error_containment (env : BatchEnv) (sess : Session) (photo : Photo)
    (rest : List Photo) (d mc : ℕ) (folder : Folder) (fid : String) (names : List String)
    (msg : String)
    (hauth : env.authClient = JsResult.ok ())
    (hdrive : env.driveClient = JsResult.ok ())
    (hfolder : env.findFolder = JsResult.ok (some folder))
    (hfid : jsTruthyStr folder.id = some fid)
    (hlist : env.listFilesRes = JsResult.ok names)
    (hden : 0 < d + mc)
    (hnc : names.contains (photo.photoId.id ++ ".jpg") = false)
    (hthrow : ∀ s : StoreState, s.global.cancelled = false →
      (processPhoto (env.item 0) batchCb photo s).2.2 = PPOut.thrown msg) :
    invokedIds (downloadAllPhotos env sess (photo :: rest) d mc (resetStore true)).trace =
      [photo.photoId.id] ∧
    (downloadAllPhotos env sess (photo :: rest) d mc (resetStore true)).skippedCount = 0 ∧
    (downloadAllPhotos env sess (photo :: rest) d mc
      (resetStore true)).store.global.complete = true ∧
    (downloadAllPhotos env sess (photo :: rest) d mc
      (resetStore true)).store.global.inProgress = false ∧
    (downloadAllPhotos env sess (photo :: rest) d mc (resetStore true)).store.global.error =
      some ("An error occurred: " ++ msg) := by
  have h1c : (runUpdate (resetStore true)
      (folderLinkPatch (jsTruthyStr folder.webViewLink))).1.global.cancelled = false :=
    (runUpdate_cancelled _ _ rfl rfl).trans rfl
  have h2c : (runUpdate (runUpdate (resetStore true)
      (folderLinkPatch (jsTruthyStr folder.webViewLink))).1
      (startingPatch (rest.length + 1) (pctRound d (d + mc)))).1.global.cancelled =
      false := (runUpdate_cancelled _ _ rfl rfl).trans h1c
  have hr0c : (runUpdate (runUpdate (runUpdate (resetStore true)
      (folderLinkPatch (jsTruthyStr folder.webViewLink))).1
      (startingPatch (rest.length + 1) (pctRound d (d + mc)))).1
      (processingPatch d 0 (d + mc) (rest.length + 1)
        (photo.photoId.id ++ ".jpg"))).1.global.cancelled = false :=
    (runUpdate_cancelled _ _ rfl rfl).trans h2c
  have hPres := processPhoto_presAll (env.item 0) photo
    (runUpdate (runUpdate (runUpdate (resetStore true)
      (folderLinkPatch (jsTruthyStr folder.webViewLink))).1
      (startingPatch (rest.length + 1) (pctRound d (d + mc)))).1
      (processingPatch d 0 (d + mc) (rest.length + 1) (photo.photoId.id ++ ".jpg"))).1
  unfold downloadAllPhotos
  simp only [hauth, hdrive, hfolder, hfid, hlist, List.length_cons]
  rw [if_pos hden]
  simp only [batchLoop]
  rw [if_neg (by simp [h2c])]
  rw [if_neg (by simpa using hnc)]
  rw [hthrow _ hr0c]
  dsimp only
  unfold errorExit
  rw [runUpdate_global _ _ rfl]
  refine ⟨?_, rfl, rfl, rfl, rfl⟩
  simp only [invokedIds_append, runUpdate_invokes, invokedIds_invoke, invokedIds_nil,
    List.nil_append, List.append_nil, hPres.2.2.2.1]
  split_ifs <;> simp

/-- Witness for C2 at the concrete `benvBoom0` batch (item 0 throws
`"boom"`). -/
theorem C2_error_containment_witness :
    invokedIds (downloadAllPhotos benvBoom0 sessAB [photoA, photoB] 0 2
      (resetStore true)).trace = ["a"] ∧
    (downloadAllPhotos benvBoom0 sessAB [photoA, photoB] 0 2
      (resetStore true)).skippedCount = 0 ∧
    (downloadAllPhotos benvBoom0 sessAB [photoA, photoB] 0 2
      (resetStore true)).store.global.complete = true ∧
    (downloadAllPhotos benvBoom0 sessAB [photoA, photoB] 0 2
      (resetStore true)).store.global.inProgress = false ∧
    (downloadAllPhotos benvBoom0 sessAB [photoA, photoB] 0 2
      (resetStore true)).store.global.error = some ("An error occurred: " ++ "boom") :=
  C2_error_containment benvBoom0 sessAB photoA [photoB] 0 2 ⟨some "fol", some "follink"⟩
    "fol" [] "boom" rfl rfl rfl rfl rfl (by decide) rfl
    (fun s hc => envBoom_thrown photoA s hc)

/-- C5 (counterexample): a run with
`alreadyTransferredCount + toTransferCount = 0` (empty catalogue, caller
passes the empty missing list with its own length 0) publishes the
`totalProgress` sequence `[0, 0, 0]` — its final published value is 0, not
100. -/
theorem C5_counterexample :
    pushedTPs (downloadAllPhotos benvOk sessAB [] 0 0 (resetStore true)).trace =
      [some 0, some 0, some 0] ∧
    (pushedTPs (downloadAllPhotos benvOk sessAB [] 0 0 (resetStore true)).trace).getLast? ≠
      some (some 100) := ⟨rfl, by decide⟩

/-- C5 (amended): for a batch whose setup succeeds, with cancel-free
always-succeeding items, `toTransferCount = photos.length` and
`0 < alreadyTransferredCount + toTransferCount`, the published
`totalProgress` sequence is non-decreasing from 0 and its final published
value is 100. -/
theorem C5_progress_monotone (env : BatchEnv) (sess : Session) (photos : List Photo)
    (d mc : ℕ) (folder : Folder) (fid : String) (names : List String) (mp dp : List Photo)
    (hok : ItemsOk env)
    (hauth : env.authClient = JsResult.ok ())
    (hdrive : env.driveClient = JsResult.ok ())
    (hfolder : env.findFolder = JsResult.ok (some folder))
    (hfid : jsTruthyStr folder.id = some fid)
    (hlist : env.listFilesRes = JsResult.ok names)
    (hden : 0 < d + mc)
    (hlen : mc = photos.length)
    (hmp : sess.missingPhotos = some mp) (hdp : sess.downloadedPhotos = some dp) :
    chainFrom 0
      (pushedTPs (downloadAllPhotos env sess photos d mc (resetStore true)).trace) = true ∧
    (pushedTPs (downloadAllPhotos env sess photos d mc (resetStore true)).trace).getLast? =
      some (some 100) := by
  obtain ⟨c1, c2, c3, c4⟩ := downloadAllPhotos_happy env sess photos d mc folder fid names
    mp dp hok hauth hdrive hfolder hfid hlist hden hmp hdp
  subst hlen
  exact ⟨c1, by rw [c2, pctRound_self hden]⟩

/-- Witness for C5 at a concrete two-item run. -/
theorem C5_progress_monotone_witness :
    chainFrom 0 (pushedTPs (downloadAllPhotos benvOk sessAB [photoA, photoB] 0 2
      (resetStore true)).trace) = true ∧
    (pushedTPs (downloadAllPhotos benvOk sessAB [photoA, photoB] 0 2
      (resetStore true)).trace).getLast? = some (some 100) :=
  C5_progress_monotone benvOk sessAB [photoA, photoB] 0 2 ⟨some "fol", some "follink"⟩
    "fol" [] [photoA, photoB] [] itemsOk_benvOk rfl rfl rfl rfl rfl (by decide) rfl rfl rfl

/-- C7 (counterexample): cancellation requested while the LAST item is in
flight is never surfaced: the run ends with the global `cancelled` flag set,
yet no `"Cancelling..."` update is ever published — the loop ends before the
next cancellation check — and the batch reports success. -/
theorem C7_counterexample :
    (downloadAllPhotos benvCancelFind0 sessAB [photoA] 0 1
      (resetStore true)).store.global.cancelled = true ∧
    hasGlobalMessage (downloadAllPhotos benvCancelFind0 sessAB [photoA] 0 1
      (resetStore true)).trace "Cancelling..." = false ∧
    hasGlobalMessage (downloadAllPhotos benvCancelFind0 sessAB [photoA] 0 1
      (resetStore true)).trace "All photos downloaded successfully to Google Drive!" = true :=
  ⟨rfl, rfl, rfl⟩

/-- C7 (amended): if a cancel-download message is delivered while item 0 is
in flight and another item follows, item 0 still completes (it is invoked
and its `then` bookkeeping runs), the next loop check publishes the
`"Cancelling..."` update with `complete = true` / `inProgress = false`, and
no later item is ever invoked; no per-item progress record is ever created.
(If the cancelled item is the last one, no `"Cancelling..."` update is
published at all — see the counterexample.) -/
theorem C7_cancellation_boundary (env : BatchEnv) (sess : Session) (photo next : Photo)
    (rest : List Photo) (d mc : ℕ) (folder : Folder) (fid : String) (names : List String)
    (mp dp : List Photo)
    (hauth : env.authClient = JsResult.ok ())
    (hdrive : env.driveClient = JsResult.ok ())
    (hfolder : env.findFolder = JsResult.ok (some folder))
    (hfid : jsTruthyStr folder.id = some fid)
    (hlist : env.listFilesRes = JsResult.ok names)
    (hden : 0 < d + mc)
    (hnc : names.contains (photo.photoId.id ++ ".jpg") = false)
    (hflip : ∀ k, (env.item 0).cancelDuringDownload k = false)
    (hcf : (env.item 0).cancelDuringFind = true)
    (hsucc : ∀ s : StoreState, s.global.cancelled = false → s.hasSocket = true →
      ∃ f, (processPhoto (env.item 0) batchCb photo s).2.2 = PPOut.retFile f)
    (hmp : sess.missingPhotos = some mp) (hdp : sess.downloadedPhotos = some dp) :
    invokedIds (downloadAllPhotos env sess (photo :: next :: rest) d mc
      (resetStore true)).trace = [photo.photoId.id] ∧
    hasGlobalMessage (downloadAllPhotos env sess (photo :: next :: rest) d mc
      (resetStore true)).trace "Cancelling..." = true ∧
    (downloadAllPhotos env sess (photo :: next :: rest) d mc
      (resetStore true)).store.global.complete = true ∧
    (downloadAllPhotos env sess (photo :: next :: rest) d mc
      (resetStore true)).store.global.inProgress = false ∧
    (downloadAllPhotos env sess (photo :: next :: rest) d mc
      (resetStore true)).store.individual = [] := by
  have h1c : (runUpdate (resetStore true)
      (folderLinkPatch (jsTruthyStr folder.webViewLink))).1.global.cancelled = false :=
    (runUpdate_cancelled _ _ rfl rfl).trans rfl
  have h1sock : (runUpdate (resetStore true)
      (folderLinkPatch (jsTruthyStr folder.webViewLink))).1.hasSocket = true :=
    (runUpdate_sock _ _).trans rfl
  have h2c : (runUpdate (runUpdate (resetStore true)
      (folderLinkPatch (jsTruthyStr folder.webViewLink))).1
      (startingPatch (rest.length + 1 + 1) (pctRound d (d + mc)))).1.global.cancelled =
      false := (runUpdate_cancelled _ _ rfl rfl).trans h1c
  have h2sock : (runUpdate (runUpdate (resetStore true)
      (folderLinkPatch (jsTruthyStr folder.webViewLink))).1
      (startingPatch (rest.length + 1 + 1) (pctRound d (d + mc)))).1.hasSocket = true :=
    (runUpdate_sock _ _).trans h1sock
  have hr0c : (runUpdate (runUpdate (runUpdate (resetStore true)
      (folderLinkPatch (jsTruthyStr folder.webViewLink))).1
      (startingPatch (rest.length + 1 + 1) (pctRound d (d + mc)))).1
      (processingPatch d 0 (d + mc) (rest.length + 1 + 1)
        (photo.photoId.id ++ ".jpg"))).1.global.cancelled = false :=
    (runUpdate_cancelled _ _ rfl rfl).trans h2c
  have hr0sock : (runUpdate (runUpdate (runUpdate (resetStore true)
      (folderLinkPatch (jsTruthyStr folder.webViewLink))).1
      (startingPatch (rest.length + 1 + 1) (pctRound d (d + mc)))).1
      (processingPatch d 0 (d + mc) (rest.length + 1 + 1)
        (photo.photoId.id ++ ".jpg"))).1.hasSocket = true :=
    (runUpdate_sock _ _).trans h2sock
  obtain ⟨f, hf⟩ := hsucc _ hr0c hr0sock
  have hPres := processPhoto_presAll (env.item 0) photo
    (runUpdate (runUpdate (runUpdate (resetStore true)
      (folderLinkPatch (jsTruthyStr folder.webViewLink))).1
      (startingPatch (rest.length + 1 + 1) (pctRound d (d + mc)))).1
      (processingPatch d 0 (d + mc) (rest.length + 1 + 1) (photo.photoId.id ++ ".jpg"))).1
  have hrpcanc := processPhoto_cancelTrue (env.item 0) photo
    (runUpdate (runUpdate (runUpdate (resetStore true)
      (folderLinkPatch (jsTruthyStr folder.webViewLink))).1
      (startingPatch (rest.length + 1 + 1) (pctRound d (d + mc)))).1
      (processingPatch d 0 (d + mc) (rest.length + 1 + 1) (photo.photoId.id ++ ".jpg"))).1
    hflip hcf hr0c f hf
  have hrpsock := (hPres.1).trans hr0sock
  obtain ⟨dl, ml, hthen⟩ := thenStep_ok d mc (d + mc) 0 photo.photoId.id sess
    (processPhoto (env.item 0) batchCb photo
      (runUpdate (runUpdate (runUpdate (resetStore true)
        (folderLinkPatch (jsTruthyStr folder.webViewLink))).1
        (startingPatch (rest.length + 1 + 1) (pctRound d (d + mc)))).1
        (processingPatch d 0 (d + mc) (rest.length + 1 + 1)
          (photo.photoId.id ++ ".jpg"))).1).1
    mp dp hmp hdp
  have h3c : (runUpdate (processPhoto (env.item 0) batchCb photo
      (runUpdate (runUpdate (runUpdate (resetStore true)
        (folderLinkPatch (jsTruthyStr folder.webViewLink))).1
        (startingPatch (rest.length + 1 + 1) (pctRound d (d + mc)))).1
        (processingPatch d 0 (d + mc) (rest.length + 1 + 1)
          (photo.photoId.id ++ ".jpg"))).1).1
      (thenPatch dl ml (d + mc) (d + 0 + 1) (d + mc))).1.global.cancelled = true :=
    (runUpdate_cancelled _ _ rfl rfl).trans hrpcanc
  have h3sock : (runUpdate (processPhoto (env.item 0) batchCb photo
      (runUpdate (runUpdate (runUpdate (resetStore true)
        (folderLinkPatch (jsTruthyStr folder.webViewLink))).1
        (startingPatch (rest.length + 1 + 1) (pctRound d (d + mc)))).1
        (processingPatch d 0 (d + mc) (rest.length + 1 + 1)
          (photo.photoId.id ++ ".jpg"))).1).1
      (thenPatch dl ml (d + mc) (d + 0 + 1) (d + mc))).1.hasSocket = true :=
    (runUpdate_sock _ _).trans hrpsock
  unfold downloadAllPhotos
  simp only [hauth, hdrive, hfolder, hfid, hlist, List.length_cons]
  rw [if_pos hden]
  simp only [batchLoop]
  rw [if_neg (by simp [h2c])]
  rw [if_neg (by simpa using hnc)]
  rw [hf, hthen]
  dsimp only
  rw [if_pos h3c]
  dsimp only
  refine ⟨?_, ?_, ?_, ?_, ?_⟩
  · simp only [invokedIds_append, runUpdate_invokes, invokedIds_invoke,
      invokedIds_thenBranch, invokedIds_nil, List.nil_append, List.append_nil,
      hPres.2.2.2.1]
  · have hcp : hasGlobalMessage (runUpdate (runUpdate (processPhoto (env.item 0) batchCb
        photo (runUpdate (runUpdate (runUpdate (resetStore true)
          (folderLinkPatch (jsTruthyStr folder.webViewLink))).1
          (startingPatch (rest.length + 1 + 1) (pctRound d (d + mc)))).1
          (processingPatch d 0 (d + mc) (rest.length + 1 + 1)
            (photo.photoId.id ++ ".jpg"))).1).1
        (thenPatch dl ml (d + mc) (d + 0 + 1) (d + mc))).1 cancellingPatch).2
        "Cancelling..." = true := by
      rw [runUpdate_global _ _ rfl]
      simp [h3sock, hasGlobalMessage, mergeGlobal, cancellingPatch, Patch.empty]
    simp only [hasGlobalMessage_def, globalPushes_append, List.any_append] at hcp ⊢
    simp [hcp]
  · rw [runUpdate_global _ _ rfl]
    simp [mergeGlobal, terminalPatch, Patch.empty]
  · rw [runUpdate_global _ _ rfl]
    simp [mergeGlobal, terminalPatch, Patch.empty]
  · rw [runUpdate_global _ _ rfl]
    dsimp only
    rw [runUpdate_global _ _ rfl]
    dsimp only
    exact ((runUpdate_indiv _ _ rfl).trans ((hPres.2.1).trans
      ((runUpdate_indiv _ _ rfl).trans ((runUpdate_indiv _ _ rfl).trans
        (runUpdate_indiv _ _ rfl)))))

/-- Witness for C7 at the concrete `benvCancelFind0` two-item batch. -/
theorem C7_cancellation_boundary_witness :
    invokedIds (downloadAllPhotos benvCancelFind0 sessAB [photoA, photoB] 0 2
      (resetStore true)).trace = ["a"] ∧
    hasGlobalMessage (downloadAllPhotos benvCancelFind0 sessAB [photoA, photoB] 0 2
      (resetStore true)).trace "Cancelling..." = true ∧
    (downloadAllPhotos benvCancelFind0 sessAB [photoA, photoB] 0 2
      (resetStore true)).store.global.complete = true ∧
    (downloadAllPhotos benvCancelFind0 sessAB [photoA, photoB] 0 2
      (resetStore true)).store.global.inProgress = false ∧
    (downloadAllPhotos benvCancelFind0 sessAB [photoA, photoB] 0 2
      (resetStore true)).store.individual = [] :=
  C7_cancellation_boundary benvCancelFind0 sessAB photoA photoB [] 0 2
    ⟨some "fol", some "follink"⟩ "fol" [] [photoA, photoB] [] rfl rfl rfl rfl rfl
    (by decide) rfl (fun _ => rfl) rfl
    (fun s hc _ => ⟨⟨"f2", some "lnk2"⟩,
      pxOkEnv_retFile envCancelFind photoA s rfl rfl rfl rfl rfl hc⟩)
    rfl rfl

end MapsDl
